import Mathlib

/-!
# LED fade / blink engine (`light_driver/iot_led.c`)

A shallow embedding of the fade and blink state machine of `iot_led.c`:
the per-channel record `ledc_fade_data_t`, the foreground calls
`iot_led_set_channel`, `iot_led_start_blink`, `iot_led_stop_blink`,
`iot_led_get_channel`, `iot_led_regist_channel`, `iot_led_set_gamma_table`,
the timer callback `fade_timercb`, and the planning of a hardware ramp by
`_iot_set_fade_with_time` and `_iot_set_fade_with_step`.

Conventions.

* `int` is the 32-bit two's complement type: a value is an `Int`, and every
  arithmetic result that is stored to an `int` goes through `toInt32`.
  `uint32_t` / `size_t` values are `Nat`s; an `int` converted to unsigned goes
  through `toUInt32`.
* The header `iot_led.h` is not part of the sources at hand.  Its tick period
  `DUTY_SET_CYCLE` is a parameter of every definition that uses it.
  `LEDC_CHANNEL_MAX` (an ESP-IDF constant) is the length of the `fade_data`
  list.
* The LEDC and timer peripherals are write-only from the point of view of the
  channel records: the calls the driver makes towards them are appended to the
  log `hw`.
* A C operation without defined behaviour (division by zero, indexing outside
  `fade_data`, dereferencing a NULL global) is the result `Except.error`.
-/

namespace IotLed

/-! ## Machine integers -/

/-- Value of a 32-bit two's complement `int` holding the mathematical result `x`. -/
def toInt32 (x : Int) : Int := (x + 2147483648) % 4294967296 - 2147483648

/-- Conversion of an `int` to `uint32_t` / `size_t`. -/
def toUInt32 (x : Int) : Nat := (x % 4294967296).toNat

/-- C `abs` on `int`. -/
def abs32 (x : Int) : Int := if x < 0 then toInt32 (-x) else x

/-! ## Constants of `iot_led.c` and of ESP-IDF -/

/-- The type `esp_err_t` is a C `int`. -/
abbrev esp_err_t := Int

/-- ESP-IDF `ESP_OK`. -/
def ESP_OK : esp_err_t := 0

/-- ESP-IDF `ESP_ERR_INVALID_ARG`. -/
def ESP_ERR_INVALID_ARG : esp_err_t := 258

/-- The constant `#define LEDC_FADE_MARGIN (10)`. -/
def LEDC_FADE_MARGIN : Int := 10

/-- The constant `#define LEDC_TIMER_PRECISION (LEDC_TIMER_13_BIT)`. -/
def LEDC_TIMER_PRECISION : Nat := 13

/-- The constant `#define LEDC_FIXED_Q (8)`. -/
def LEDC_FIXED_Q : Nat := 8

/-- The constant `UINT16_MAX`. -/
def UINT16_MAX : Nat := 65535

/-- Modelled from the spec: `GAMMA_TABLE_SIZE` of the absent header `iot_led.h`;
the spec fixes the gamma table at 256 entries. -/
def GAMMA_TABLE_SIZE : Nat := 256

/-- The macro `FLOATINT_2_FIXED(X, Q)` is `(int)((X) * (0x1U << Q))`, an unsigned product. -/
def FLOATINT_2_FIXED (x : Nat) (q : Nat) : Int :=
  toInt32 ((x * 2 ^ q % 4294967296 : Nat) : Int)

/-- The macro `FIXED_2_FLOATING(X, Q)` is `(int)((X) / (0x1U << Q))`, an unsigned quotient. -/
def FIXED_2_FLOATING (x : Int) (q : Nat) : Int :=
  toInt32 ((toUInt32 x / 2 ^ q : Nat) : Int)

/-- The macro `GET_FIXED_INTEGER_PART(X, Q)` is `(X >> Q)` on an `int`. -/
def GET_FIXED_INTEGER_PART (x : Int) (q : Nat) : Int := x / 2 ^ q

/-- The macro `GET_FIXED_DECIMAL_PART(X, Q)` is `(X & ((0x1U << Q) - 1))`, an unsigned value. -/
def GET_FIXED_DECIMAL_PART (x : Int) (q : Nat) : Nat := toUInt32 x % 2 ^ q

/-- The macro `LEDC_VALUE_TO_DUTY(value)` is `(value * (1 << LEDC_TIMER_PRECISION) / UINT16_MAX)`
on a `uint16_t` promoted to `int`. -/
def LEDC_VALUE_TO_DUTY (value : Nat) : Int :=
  Int.tdiv (toInt32 ((value : Int) * 2 ^ LEDC_TIMER_PRECISION)) (UINT16_MAX : Int)

/-! ## Data model -/

/-- The record `ledc_fade_data_t`: `cur`, `final`, `step`, `cycle` are `int`,
`num` is `size_t`. -/
structure ledc_fade_data_t where
  cur : Int
  final : Int
  step : Int
  cycle : Int
  num : Nat
  deriving DecidableEq, Repr

/-- The record `iot_light_t` (`timer_id` is a constant pair and is left out). -/
structure iot_light_t where
  fade_data : List ledc_fade_data_t
  speed_mode : Nat
  timer_num : Nat
  deriving DecidableEq, Repr

/-- Calls made towards the LEDC and timer peripherals. -/
inductive HwCall where
  | timer_start
  | timer_pause
  | ledc_channel_config (gpio_num channel speed_mode timer_sel : Nat)
  | set_fade_with_time (speed_mode channel target_duty : Nat) (max_fade_time_ms : Int)
  | set_duty (speed_mode channel duty : Nat)
  | update_duty (speed_mode channel : Nat)
  deriving DecidableEq, Repr

/-- The file-scope variables `g_light_config`, `g_gamma_table`,
`g_hw_timer_started`, and the log of peripheral calls. -/
structure Globals where
  g_light_config : Option iot_light_t
  g_gamma_table : Option (List Nat)
  g_hw_timer_started : Bool
  hw : List HwCall
  deriving DecidableEq, Repr

/-- Undefined behaviour of the C program. -/
inductive Fault where
  | division_by_zero
  | out_of_bounds
  | null_dereference
  deriving DecidableEq, Repr

/-- Modelled from the spec: the macro `LIGHT_ERROR_CHECK(con, err, msg)` of the
absent header `iot_led.h`; when `con` holds the enclosing function reports `err`
to its caller at once and does nothing else, otherwise it goes on with `k`. -/
def LIGHT_ERROR_CHECK {σ : Type} (con : Bool) (err : esp_err_t) (s : σ)
    (k : Except Fault (esp_err_t × σ)) : Except Fault (esp_err_t × σ) :=
  if con then Except.ok (err, s) else k

/-! ## Timer start and stop -/

/-- The function `iot_timer_start`: starts the hardware timer and sets the flag. -/
def iot_timer_start (g : Globals) : Globals :=
  { g with hw := g.hw ++ [HwCall.timer_start], g_hw_timer_started := true }

/-- The function `iot_timer_stop`: pauses the hardware timer and clears the flag. -/
def iot_timer_stop (g : Globals) : Globals :=
  { g with hw := g.hw ++ [HwCall.timer_pause], g_hw_timer_started := false }

/-! ## Gamma lookup -/

/-- The function `gamma_value_to_duty`: `cur` and `next` are `uint16_t`, the interpolation is
carried out in `uint32_t`.  An index outside the table reads as 0. -/
def gamma_value_to_duty (gamma_table : List Nat) (value : Int) : Nat :=
  let tmp_q : Nat := toUInt32 (GET_FIXED_INTEGER_PART value LEDC_FIXED_Q)
  let tmp_r : Nat := GET_FIXED_DECIMAL_PART value LEDC_FIXED_Q
  let cur : Nat := toUInt32 (LEDC_VALUE_TO_DUTY (gamma_table.getD tmp_q 0)) % 65536
  let next : Nat :=
    if tmp_q < GAMMA_TABLE_SIZE - 1 then
      toUInt32 (LEDC_VALUE_TO_DUTY (gamma_table.getD (tmp_q + 1) 0)) % 65536
    else cur
  (cur + toUInt32 ((next : Int) - (cur : Int)) * tmp_r % 4294967296 / 2 ^ LEDC_FIXED_Q)
    % 4294967296

/-! ## Timer callback -/

/-- What one pass of the channel loop of `fade_timercb` does for one channel. -/
structure ChannelTick where
  fd : ledc_fade_data_t
  calls : List HwCall
  idle : Bool
  deriving DecidableEq, Repr

/-- Body of the channel loop of `fade_timercb`. -/
def fade_channel (DUTY_SET_CYCLE : Nat) (gamma_table : List Nat) (speed_mode channel : Nat)
    (fade_data : ledc_fade_data_t) : ChannelTick :=
  if fade_data.num > 0 then
    let num := fade_data.num - 1
    if fade_data.step ≠ 0 then
      let cur := toInt32 (fade_data.cur + fade_data.step)
      let duty := gamma_value_to_duty gamma_table cur
      { fd := { fade_data with num := num, cur := cur }
        calls :=
          [ if num ≠ 0 then
              HwCall.set_fade_with_time speed_mode channel duty
                (toInt32 ((DUTY_SET_CYCLE : Int) - LEDC_FADE_MARGIN))
            else HwCall.set_duty speed_mode channel duty,
            HwCall.update_duty speed_mode channel ]
        idle := false }
    else
      { fd := { fade_data with num := num }
        calls :=
          [ HwCall.set_duty speed_mode channel (gamma_value_to_duty gamma_table fade_data.cur),
            HwCall.update_duty speed_mode channel ]
        idle := false }
  else if fade_data.cycle ≠ 0 then
    let num := toUInt32 (toInt32 (fade_data.cycle - 1))
    let step := if fade_data.step ≠ 0 then toInt32 (fade_data.step * -1) else fade_data.step
    let cur :=
      if fade_data.step ≠ 0 then toInt32 (fade_data.cur + step)
      else if fade_data.cur = fade_data.final then 0 else fade_data.final
    { fd := { fade_data with num := num, step := step, cur := cur }
      calls :=
        [ HwCall.set_fade_with_time speed_mode channel (gamma_value_to_duty gamma_table cur)
            (toInt32 ((DUTY_SET_CYCLE : Int) - LEDC_FADE_MARGIN)),
          HwCall.update_duty speed_mode channel ]
      idle := false }
  else
    { fd := fade_data, calls := [], idle := true }

/-- Result of the whole channel loop. -/
structure LoopResult where
  fade_data : List ledc_fade_data_t
  calls : List HwCall
  idle_channel_num : Nat
  deriving DecidableEq, Repr

/-- The loop `for (channel = 0; channel < LEDC_CHANNEL_MAX; channel++)` of
`fade_timercb`, from index `channel` on. -/
def fade_loop (DUTY_SET_CYCLE : Nat) (gamma_table : List Nat) (speed_mode : Nat) :
    Nat → List ledc_fade_data_t → LoopResult
  | _, [] => { fade_data := [], calls := [], idle_channel_num := 0 }
  | channel, fade_data :: rest =>
    let r := fade_channel DUTY_SET_CYCLE gamma_table speed_mode channel fade_data
    let rs := fade_loop DUTY_SET_CYCLE gamma_table speed_mode (channel + 1) rest
    { fade_data := r.fd :: rs.fade_data
      calls := r.calls ++ rs.calls
      idle_channel_num := (if r.idle then 1 else 0) + rs.idle_channel_num }

/-- The callback `fade_timercb` from the channel loop on (the interrupt acknowledgement before
it touches timer registers only).  The callback is registered by `iot_led_init`,
which allocates both globals; without them it dereferences NULL. -/
def fade_timercb (DUTY_SET_CYCLE : Nat) (g : Globals) : Except Fault Globals :=
  match g.g_light_config, g.g_gamma_table with
  | some cfg, some gamma_table =>
    let r := fade_loop DUTY_SET_CYCLE gamma_table cfg.speed_mode 0 cfg.fade_data
    let g1 : Globals :=
      { g with
        g_light_config := some { cfg with fade_data := r.fade_data }
        hw := g.hw ++ r.calls }
    if r.idle_channel_num ≥ cfg.fade_data.length then Except.ok (iot_timer_stop g1)
    else Except.ok g1
  | _, _ => Except.error Fault.null_dereference

/-- The timer callback fired `n` times in a row, no foreground call in between. -/
def run_ticks (DUTY_SET_CYCLE : Nat) : Nat → Globals → Except Fault Globals
  | 0, g => Except.ok g
  | n + 1, g =>
    match fade_timercb DUTY_SET_CYCLE g with
    | Except.ok g1 => run_ticks DUTY_SET_CYCLE n g1
    | Except.error e => Except.error e

/-! ## Foreground calls -/

/-- The function `iot_led_regist_channel`; `ledc_channel_config` is an ESP-IDF function whose
result is the parameter `ret`. -/
def iot_led_regist_channel (CONFIG_SPIRAM_SUPPORT : Bool) (ret : esp_err_t) (g : Globals)
    (channel gpio_num : Nat) : Except Fault (esp_err_t × Globals) :=
  LIGHT_ERROR_CHECK g.g_light_config.isNone ESP_ERR_INVALID_ARG g <|
  LIGHT_ERROR_CHECK (CONFIG_SPIRAM_SUPPORT && (gpio_num != 16 || gpio_num != 17))
    ESP_ERR_INVALID_ARG g <|
  match g.g_light_config with
  | none => Except.error Fault.null_dereference
  | some cfg =>
    let g1 : Globals :=
      { g with hw := g.hw ++ [HwCall.ledc_channel_config gpio_num channel cfg.speed_mode cfg.timer_num] }
    LIGHT_ERROR_CHECK (ret != ESP_OK) ret g1 <|
    Except.ok (ESP_OK, g1)

/-- The function `iot_led_get_channel`; `dst` is `none` for a NULL pointer and otherwise
holds the byte it points to.  The second component of the result is that byte
after the call. -/
def iot_led_get_channel (g : Globals) (channel : Nat) (dst : Option Nat) :
    Except Fault (esp_err_t × Option Nat) :=
  LIGHT_ERROR_CHECK g.g_light_config.isNone ESP_ERR_INVALID_ARG dst <|
  LIGHT_ERROR_CHECK dst.isNone ESP_ERR_INVALID_ARG dst <|
  match g.g_light_config with
  | none => Except.error Fault.null_dereference
  | some cfg =>
    match cfg.fade_data[channel]? with
    | none => Except.error Fault.out_of_bounds
    | some fade_data =>
      let cur := fade_data.cur
      Except.ok (ESP_OK, some (toUInt32 (FIXED_2_FLOATING cur LEDC_FIXED_Q) % 256))

/-- The function `iot_led_set_channel`.  `value` is a `uint8_t`, `fade_ms` a
`uint32_t`; both divisions are unsigned. -/
def iot_led_set_channel (DUTY_SET_CYCLE : Nat) (g : Globals) (channel value fade_ms : Nat) :
    Except Fault (esp_err_t × Globals) :=
  LIGHT_ERROR_CHECK g.g_light_config.isNone ESP_ERR_INVALID_ARG g <|
  match g.g_light_config with
  | none => Except.error Fault.null_dereference
  | some cfg =>
    match cfg.fade_data[channel]? with
    | none => Except.error Fault.out_of_bounds
    | some fade_data =>
      let final := FLOATINT_2_FIXED value LEDC_FIXED_Q
      if DUTY_SET_CYCLE = 0 ∧ ¬ fade_ms < DUTY_SET_CYCLE then
        Except.error Fault.division_by_zero
      else
        let num := if fade_ms < DUTY_SET_CYCLE then 1 else fade_ms / DUTY_SET_CYCLE
        if num = 0 then Except.error Fault.division_by_zero
        else
          let step0 :=
            toInt32 ((toUInt32 (abs32 (toInt32 (fade_data.cur - final))) / num : Nat) : Int)
          let step := if fade_data.cur > final then toInt32 (step0 * -1) else step0
          let cycle := if fade_data.cycle ≠ 0 then 0 else fade_data.cycle
          let fade_data1 : ledc_fade_data_t :=
            { fade_data with final := final, num := num, step := step, cycle := cycle }
          let g1 : Globals :=
            { g with g_light_config := some { cfg with fade_data := cfg.fade_data.set channel fade_data1 } }
          Except.ok (ESP_OK, if g1.g_hw_timer_started != true then iot_timer_start g1 else g1)

/-- The function `iot_led_start_blink`.  `value` is a `uint8_t`, `period_ms` a
`uint32_t`; the quotient `cur / num` and its product with `-1` are unsigned and
are stored to the `int` field `step`. -/
def iot_led_start_blink (DUTY_SET_CYCLE : Nat) (g : Globals) (channel value period_ms : Nat)
    (fade_flag : Bool) : Except Fault (esp_err_t × Globals) :=
  LIGHT_ERROR_CHECK g.g_light_config.isNone ESP_ERR_INVALID_ARG g <|
  match g.g_light_config with
  | none => Except.error Fault.null_dereference
  | some cfg =>
    match cfg.fade_data[channel]? with
    | none => Except.error Fault.out_of_bounds
    | some fade_data =>
      let cur := FLOATINT_2_FIXED value LEDC_FIXED_Q
      let final := cur
      if DUTY_SET_CYCLE = 0 then Except.error Fault.division_by_zero
      else
        let cycle := toInt32 ((period_ms / 2 / DUTY_SET_CYCLE : Nat) : Int)
        let num := if fade_flag then period_ms / 2 / DUTY_SET_CYCLE else 0
        if fade_flag ∧ num = 0 then Except.error Fault.division_by_zero
        else
          let step :=
            if fade_flag then
              toInt32 ((toUInt32 cur / num * toUInt32 (-1) % 4294967296 : Nat) : Int)
            else 0
          let fade_data1 : ledc_fade_data_t :=
            { fade_data with final := final, cur := cur, cycle := cycle, num := num, step := step }
          let g1 : Globals :=
            { g with g_light_config := some { cfg with fade_data := cfg.fade_data.set channel fade_data1 } }
          Except.ok (ESP_OK, if g1.g_hw_timer_started != true then iot_timer_start g1 else g1)

/-- The function `iot_led_stop_blink`. -/
def iot_led_stop_blink (g : Globals) (channel : Nat) : Except Fault (esp_err_t × Globals) :=
  LIGHT_ERROR_CHECK g.g_light_config.isNone ESP_ERR_INVALID_ARG g <|
  match g.g_light_config with
  | none => Except.error Fault.null_dereference
  | some cfg =>
    match cfg.fade_data[channel]? with
    | none => Except.error Fault.out_of_bounds
    | some fade_data =>
      let fade_data1 : ledc_fade_data_t := { fade_data with num := 0, cycle := 0 }
      Except.ok (ESP_OK,
        { g with g_light_config := some { cfg with fade_data := cfg.fade_data.set channel fade_data1 } })

/-- The function `iot_led_set_gamma_table`: `memcpy` of `GAMMA_TABLE_SIZE` entries over the
start of the allocated table. -/
def iot_led_set_gamma_table (g : Globals) (gamma_table : List Nat) :
    Except Fault (esp_err_t × Globals) :=
  LIGHT_ERROR_CHECK g.g_gamma_table.isNone ESP_ERR_INVALID_ARG g <|
  match g.g_gamma_table with
  | none => Except.error Fault.null_dereference
  | some old =>
    if gamma_table.length < GAMMA_TABLE_SIZE then Except.error Fault.out_of_bounds
    else
      Except.ok (ESP_OK,
        { g with g_gamma_table := some (gamma_table.take GAMMA_TABLE_SIZE ++ old.drop GAMMA_TABLE_SIZE) })

/-! ## Derived notions used in the statements -/

/-- Channel record of an engine state. -/
def channel_of (g : Globals) (channel : Nat) : Option ledc_fade_data_t :=
  g.g_light_config.bind (fun cfg => cfg.fade_data[channel]?)

/-- The channel record after one pass of the loop body of `fade_timercb`. -/
def fade_step (fd : ledc_fade_data_t) : ledc_fade_data_t := (fade_channel 0 [] 0 0 fd).fd

/-- The `step` assignments of `iot_led_set_channel`, as a function of `cur`,
`final` and `num`. -/
def set_channel_step (cur final : Int) (num : Nat) : Int :=
  if cur > final then
    toInt32 (toInt32 ((toUInt32 (abs32 (toInt32 (cur - final))) / num : Nat) : Int) * -1)
  else toInt32 ((toUInt32 (abs32 (toInt32 (cur - final))) / num : Nat) : Int)

/-- The engine as `iot_led_init` leaves it: `n` zeroed channel records (`calloc`),
a gamma table, the timer not started, no peripheral call logged yet. -/
def engine_init (n : Nat) (gamma_table : List Nat) : Globals :=
  { g_light_config := some { fade_data := List.replicate n ⟨0, 0, 0, 0, 0⟩, speed_mode := 0, timer_num := 0 }
    g_gamma_table := some gamma_table
    g_hw_timer_started := false
    hw := [] }

/-- A foreground call followed by `n` ticks. -/
def run_after (D : Nat) (r : Except Fault (esp_err_t × Globals)) (n : Nat) :
    Except Fault Globals :=
  match r with
  | Except.ok (_, g) => run_ticks D n g
  | Except.error e => Except.error e

/-- The `cur` field of a channel in the state a run ended in. -/
def cur_of (r : Except Fault Globals) (channel : Nat) : Option Int :=
  match r with
  | Except.ok g => (channel_of g channel).map (fun fd => fd.cur)
  | Except.error _ => none

/-- Result of `iot_led_get_channel` in the state a run ended in. -/
def read_channel (r : Except Fault Globals) (channel : Nat) (dst : Option Nat) :
    Option (esp_err_t × Option Nat) :=
  match r with
  | Except.ok g => (iot_led_get_channel g channel dst).toOption
  | Except.error _ => none

/-- One step of the engine: a foreground call with arguments in the range of
their C types, or one run of the timer callback. -/
inductive EngineStep (D : Nat) : Globals → Globals → Prop where
  | set_channel (g g1 : Globals) (channel value fade_ms : Nat) (r : esp_err_t)
      (hv : value ≤ 255)
      (h : iot_led_set_channel D g channel value fade_ms = Except.ok (r, g1)) : EngineStep D g g1
  | start_blink (g g1 : Globals) (channel value period_ms : Nat) (fade_flag : Bool)
      (r : esp_err_t) (hv : value ≤ 255) (hp : period_ms < 4294967296)
      (hH : fade_flag = false ∨ 1 ≤ period_ms / 2 / D)
      (h : iot_led_start_blink D g channel value period_ms fade_flag = Except.ok (r, g1)) :
      EngineStep D g g1
  | stop_blink (g g1 : Globals) (channel : Nat) (r : esp_err_t)
      (h : iot_led_stop_blink g channel = Except.ok (r, g1)) : EngineStep D g g1
  | tick (g g1 : Globals) (h : fade_timercb D g = Except.ok g1) : EngineStep D g g1

/-- States reachable from an engine whose channel records are all zero, as
`calloc` in `iot_led_init` leaves them. -/
inductive Reachable (D : Nat) : Globals → Prop where
  | init (g : Globals) (cfg : iot_light_t) (hcfg : g.g_light_config = some cfg)
      (hz : ∀ fd ∈ cfg.fade_data, fd = ⟨0, 0, 0, 0, 0⟩) : Reachable D g
  | step (g g1 : Globals) (hr : Reachable D g) (hs : EngineStep D g g1) : Reachable D g1

/-- Invariant of one channel record: `cur`, the end `cur + num * step` of the
running segment and, for a blinking channel, the end of the next segment all lie
in the brightness range. -/
def FadeInv (fd : ledc_fade_data_t) : Prop :=
  0 ≤ fd.cur ∧ fd.cur ≤ 65280 ∧
  0 ≤ fd.cur + fd.num * fd.step ∧ fd.cur + fd.num * fd.step ≤ 65280 ∧
  (fd.cycle ≠ 0 →
    1 ≤ fd.cycle ∧ fd.cycle < 2147483648 ∧ 0 ≤ fd.final ∧ fd.final ≤ 65280 ∧
    0 ≤ fd.cur + fd.num * fd.step - fd.cycle * fd.step ∧
    fd.cur + fd.num * fd.step - fd.cycle * fd.step ≤ 65280)

/-- The channel invariant on every channel of the engine. -/
def EngineInv (g : Globals) : Prop :=
  ∀ cfg, g.g_light_config = some cfg → ∀ fd ∈ cfg.fade_data, FadeInv fd

/-- A linear 16-bit gamma table with the zero guard entry that `iot_led_init`
allocates behind it. -/
def demo_table : List Nat := (List.range 256).map (fun i => i * 257) ++ [0]

/-- An engine with two channels right after `iot_led_init`. -/
def demo_engine : Globals := engine_init 2 demo_table

/-- The `iot_light_t` of `demo_engine`. -/
def demo_config : iot_light_t :=
  { fade_data := [⟨0, 0, 0, 0, 0⟩, ⟨0, 0, 0, 0, 0⟩], speed_mode := 0, timer_num := 0 }

/-! ## Timer state machine -/

/-- One step of the engine for the timer claims: any foreground call, or a run
of the timer callback while the timer is started. -/
inductive TimerStep (D : Nat) : Globals → Globals → Prop where
  | set_channel (g g1 : Globals) (channel value fade_ms : Nat) (r : esp_err_t)
      (h : iot_led_set_channel D g channel value fade_ms = Except.ok (r, g1)) : TimerStep D g g1
  | start_blink (g g1 : Globals) (channel value period_ms : Nat) (fade_flag : Bool)
      (r : esp_err_t)
      (h : iot_led_start_blink D g channel value period_ms fade_flag = Except.ok (r, g1)) :
      TimerStep D g g1
  | stop_blink (g g1 : Globals) (channel : Nat) (r : esp_err_t)
      (h : iot_led_stop_blink g channel = Except.ok (r, g1)) : TimerStep D g g1
  | tick (g g1 : Globals) (ht : g.g_hw_timer_started = true)
      (h : fade_timercb D g = Except.ok g1) : TimerStep D g g1

/-- States reachable from an engine with zeroed channel records and the timer
stopped. -/
inductive TimerReachable (D : Nat) : Globals → Prop where
  | init (g : Globals) (cfg : iot_light_t) (hcfg : g.g_light_config = some cfg)
      (hz : ∀ fd ∈ cfg.fade_data, fd = ⟨0, 0, 0, 0, 0⟩)
      (ht : g.g_hw_timer_started = false) : TimerReachable D g
  | step (g g1 : Globals) (hr : TimerReachable D g) (hs : TimerStep D g g1) :
      TimerReachable D g1

/-- A channel that is not idle implies a started timer. -/
def TimerInv (g : Globals) : Prop :=
  ∀ cfg, g.g_light_config = some cfg →
    ∀ fd ∈ cfg.fade_data, (fd.num ≠ 0 ∨ fd.cycle ≠ 0) → g.g_hw_timer_started = true

/-- The engine `demo_engine` after `iot_led_set_channel(0, 255, 0)` with a 10 ms
tick: channel 0 has one tick to go. -/
def demo_fading : Globals :=
  { g_light_config := some { fade_data := [⟨0, 65280, 65280, 0, 1⟩, ⟨0, 0, 0, 0, 0⟩],
                             speed_mode := 0, timer_num := 0 }
    g_gamma_table := some demo_table
    g_hw_timer_started := true
    hw := [HwCall.timer_start] }

/-- The engine `demo_fading` after one tick: every channel is idle again. -/
def demo_settled : Globals :=
  { g_light_config := some { fade_data := [⟨65280, 65280, 65280, 0, 0⟩, ⟨0, 0, 0, 0, 0⟩],
                             speed_mode := 0, timer_num := 0 }
    g_gamma_table := some demo_table
    g_hw_timer_started := true
    hw := [HwCall.timer_start, HwCall.set_duty 0 0 8192, HwCall.update_duty 0 0] }

/-! ## Gamma lookup, interpolating before scaling -/

/-- The linear scale from a 16-bit table value to duty units,
`x * 2^13 / 65535`. -/
def scale_to_duty (x : Nat) : Nat := x * 2 ^ LEDC_TIMER_PRECISION / UINT16_MAX

/-- The lookup as the spec words it: interpolate between the two table entries,
then scale the interpolated value. -/
def interpolate_then_scale (gamma_table : List Nat) (q r : Nat) : Nat :=
  if q < 255 then
    scale_to_duty (gamma_table.getD q 0
      + (gamma_table.getD (q + 1) 0 - gamma_table.getD q 0) * r / 256)
  else scale_to_duty (gamma_table.getD 255 0)

/-! ## Hardware ramp planning -/

/-- ESP-IDF `LEDC_DUTY_DIR_DECREASE` of the enum `ledc_duty_direction_t`. -/
def LEDC_DUTY_DIR_DECREASE : Int := 0

/-- ESP-IDF `LEDC_DUTY_DIR_INCREASE` of the enum `ledc_duty_direction_t`. -/
def LEDC_DUTY_DIR_INCREASE : Int := 1

/-- Modelled from the spec: `LEDC_DUTY_NUM_LSCH0_V` of the ESP-IDF register header,
which is not among the sources; the spec gives 1023 as the largest ramp
parameter of the hardware. -/
def LEDC_DUTY_NUM_LSCH0_V : Int := 1023

/-- Modelled from the spec: `LEDC_DUTY_SCALE_LSCH0_V` of the ESP-IDF register header,
which is not among the sources; the spec gives 1023 as the largest ramp
parameter of the hardware. -/
def LEDC_DUTY_SCALE_LSCH0_V : Int := 1023

/-- Arguments of one call of `iot_ledc_duty_config` after `speed_mode` and
`channel`: `hpoint_val` and `duty_val` are `int`, the other four `uint32_t`. -/
structure DutyConfig where
  hpoint_val : Int
  duty_val : Int
  duty_direction : Nat
  duty_num : Nat
  duty_cycle : Nat
  duty_scale : Nat
  deriving DecidableEq, Repr

/-- The last statement of `_iot_set_fade_with_step`: the call of
`iot_ledc_duty_config` for the direction, step count and step size computed
before it (`<< 4` is `* 16`). -/
def set_fade_with_step_config (duty_cur target_duty : Nat) (dir step_num cycle_num scale : Int) :
    DutyConfig :=
  if scale > 0 ∧ step_num > 0 then
    { hpoint_val := -1
      duty_val := toInt32 ((duty_cur * 16 % 4294967296 : Nat) : Int)
      duty_direction := toUInt32 dir
      duty_num := toUInt32 step_num
      duty_cycle := toUInt32 cycle_num
      duty_scale := toUInt32 scale }
  else
    { hpoint_val := -1
      duty_val := toInt32 ((target_duty * 16 % 4294967296 : Nat) : Int)
      duty_direction := toUInt32 dir
      duty_num := 0
      duty_cycle := 1
      duty_scale := 0 }

/-- The function `_iot_set_fade_with_step`: the call of `iot_ledc_duty_config` it
makes, given the value `duty_read` of the channel's `duty_rd` register (`>> 4`
is `/ 16`).  The quotients are unsigned and are stored to `int` variables. -/
def _iot_set_fade_with_step (duty_read target_duty : Nat) (scale cycle_num : Int) : DutyConfig :=
  let duty_cur : Nat := duty_read / 16
  if scale > 0 then
    if duty_cur > target_duty then
      let step_num := toInt32 (((duty_cur - target_duty) / toUInt32 scale : Nat) : Int)
      let step_num := if step_num > 1023 then 1023 else step_num
      let scale :=
        if step_num = 1023 then
          toInt32 (((duty_cur - target_duty) / toUInt32 step_num : Nat) : Int)
        else scale
      set_fade_with_step_config duty_cur target_duty LEDC_DUTY_DIR_DECREASE step_num cycle_num
        scale
    else
      let step_num := toInt32 (((target_duty - duty_cur) / toUInt32 scale : Nat) : Int)
      let step_num := if step_num > 1023 then 1023 else step_num
      let scale :=
        if step_num = 1023 then
          toInt32 (((target_duty - duty_cur) / toUInt32 step_num : Nat) : Int)
        else scale
      set_fade_with_step_config duty_cur target_duty LEDC_DUTY_DIR_INCREASE step_num cycle_num
        scale
  else
    set_fade_with_step_config duty_cur target_duty LEDC_DUTY_DIR_DECREASE 0 cycle_num scale

/-- The function `_iot_set_fade_with_time` from the test `duty_delta == 0` on,
given the value `total_cycles` of `max_fade_time_ms * freq / 1000`. -/
def _iot_set_fade_with_time_tail (duty_read target_duty : Nat) (total_cycles : Int) :
    DutyConfig :=
  let duty_cur : Nat := duty_read / 16
  let duty_delta : Nat :=
    if target_duty > duty_cur then target_duty - duty_cur else duty_cur - target_duty
  if duty_delta = 0 then _iot_set_fade_with_step duty_read target_duty 0 0
  else if total_cycles = 0 then _iot_set_fade_with_step duty_read target_duty 0 0
  else if toUInt32 total_cycles > duty_delta then
    let scale : Int := 1
    let cycle_num := toInt32 ((toUInt32 total_cycles / duty_delta : Nat) : Int)
    let cycle_num := if cycle_num > LEDC_DUTY_NUM_LSCH0_V then LEDC_DUTY_NUM_LSCH0_V else cycle_num
    _iot_set_fade_with_step duty_read target_duty scale cycle_num
  else
    let cycle_num : Int := 1
    let scale := toInt32 ((duty_delta / toUInt32 total_cycles : Nat) : Int)
    let scale := if scale > LEDC_DUTY_SCALE_LSCH0_V then LEDC_DUTY_SCALE_LSCH0_V else scale
    _iot_set_fade_with_step duty_read target_duty scale cycle_num

/-- The timer fields of the LEDC registers that `_iot_set_fade_with_time` reads. -/
structure LedcTimerConf where
  tick_sel : Nat
  duty_resolution : Nat
  clock_divider : Nat
  deriving DecidableEq, Repr

/-- The function `_iot_set_fade_with_time`.  The ESP-IDF constants `LEDC_APB_CLK`,
`LEDC_APB_CLK_HZ` and `LEDC_REF_CLK_HZ` are parameters; `freq` is computed in
`uint64_t` and stored to a `uint32_t`, `total_cycles` is an unsigned product and
quotient stored to an `int`. -/
def _iot_set_fade_with_time (LEDC_APB_CLK LEDC_APB_CLK_HZ LEDC_REF_CLK_HZ : Nat)
    (conf : LedcTimerConf) (duty_read target_duty : Nat) (max_fade_time_ms : Int) :
    Except Fault DutyConfig :=
  let precision : Nat := 2 ^ conf.duty_resolution % 4294967296
  if precision = 0 ∨ conf.clock_divider = 0 then Except.error Fault.division_by_zero
  else
    let clk := if conf.tick_sel = LEDC_APB_CLK then LEDC_APB_CLK_HZ else LEDC_REF_CLK_HZ
    let freq : Nat :=
      clk * 2 ^ 8 % 18446744073709551616 / precision / conf.clock_divider % 4294967296
    let total_cycles := toInt32 ((toUInt32 max_fade_time_ms * freq % 4294967296 / 1000 : Nat) : Int)
    Except.ok (_iot_set_fade_with_time_tail duty_read target_duty total_cycles)

/-- Outcome of the ramp planning for a distance `d` and a step size `s`: no ramp
when `d < s`, at most 1023 steps otherwise, the step size being recomputed when
the count is capped. -/
def ramp_plan (cur target d s : Nat) (dir c : Int) : DutyConfig :=
  if d / s = 0 then ⟨-1, (target : Int) * 16, toUInt32 dir, 0, 1, 0⟩
  else if 1023 ≤ d / s then ⟨-1, (cur : Int) * 16, toUInt32 dir, 1023, toUInt32 c, d / 1023⟩
  else ⟨-1, (cur : Int) * 16, toUInt32 dir, d / s, toUInt32 c, s⟩

/-- Distance between the current duty `duty_read >> 4` and the target duty. -/
def duty_distance (duty_read target_duty : Nat) : Nat :=
  if target_duty > duty_read / 16 then target_duty - duty_read / 16
  else duty_read / 16 - target_duty

/-- Direction of a ramp from the current duty to the target duty, as
`_iot_set_fade_with_step` chooses it for a positive step size. -/
def duty_dir (duty_read target_duty : Nat) : Int :=
  if duty_read / 16 > target_duty then LEDC_DUTY_DIR_DECREASE else LEDC_DUTY_DIR_INCREASE

/-! ## Gamma lookup in closed form -/

/-- The closed form of the lookup of `gamma_value_to_duty` at integer part `q`
and fractional part `r`, over the scaled table entries. -/
def lookup_form (gamma_table : List Nat) (q r : Nat) : Nat :=
  if q < 255 then
    scale_to_duty (gamma_table.getD q 0)
      + (scale_to_duty (gamma_table.getD (q + 1) 0) - scale_to_duty (gamma_table.getD q 0))
        * r / 256
  else scale_to_duty (gamma_table.getD 255 0)

/-! ## Ramp plans that stay within the distance -/

/-- A call of `iot_ledc_duty_config` that does not overshoot the target: a ramp
(step size and step count both positive) starts from the current duty
`duty_read >> 4` and covers at most the distance to the target; any other call
writes the target duty with zero steps. -/
def within_distance (duty_read target_duty : Nat) (c : DutyConfig) : Prop :=
  (0 < c.duty_scale ∧ 0 < c.duty_num →
    c.duty_scale * c.duty_num ≤ duty_distance duty_read target_duty ∧
    c.duty_val = ((duty_read / 16 : Nat) : Int) * 16) ∧
  (¬ (0 < c.duty_scale ∧ 0 < c.duty_num) →
    c.duty_val = (target_duty : Int) * 16 ∧ c.duty_num = 0)

instance within_distance_decidable (duty_read target_duty : Nat) (c : DutyConfig) :
    Decidable (within_distance duty_read target_duty c) := by
  unfold within_distance; infer_instance

/-! ## Machine integer lemmas -/

theorem toInt32_eq (x : Int) (h1 : -2147483648 ≤ x) (h2 : x < 2147483648) : toInt32 x = x := by
  unfold toInt32; omega

theorem FLOATINT_2_FIXED_eq (value : Nat) (hv : value ≤ 255) :
    FLOATINT_2_FIXED value LEDC_FIXED_Q = (value : Int) * 256 := by
  unfold FLOATINT_2_FIXED LEDC_FIXED_Q toInt32
  omega

theorem num_eq_max (D fade_ms : Nat) (hD : 0 < D) :
    (if fade_ms < D then 1 else fade_ms / D) = max 1 (fade_ms / D) := by
  split_ifs with h
  · rw [Nat.div_eq_of_lt h]; rfl
  · have : 1 ≤ fade_ms / D := Nat.div_pos (by omega) hD
    omega

/-- The step stored by `iot_led_set_channel` from an in-range `cur`. -/
theorem set_channel_step_eq (cur : Int) (value N : Nat) (h0 : 0 ≤ cur) (h1 : cur ≤ 65280)
    (hv : value ≤ 255) (hN : 0 < N) :
    set_channel_step cur ((value : Int) * 256) N = Int.tdiv ((value : Int) * 256 - cur) N := by
  unfold set_channel_step
  have hN' : (0 : Int) < N := by exact_mod_cast hN
  split_ifs with h
  · have e1 : toInt32 (cur - (value : Int) * 256) = cur - value * 256 := toInt32_eq _ (by omega) (by omega)
    have e2 : abs32 (cur - (value : Int) * 256) = cur - value * 256 := by
      unfold abs32; rw [if_neg (by omega)]
    have e3 : toUInt32 (cur - (value : Int) * 256) = (cur - value * 256).toNat := by
      unfold toUInt32; congr 1; omega
    rw [e1, e2, e3]
    have hq : (((cur - (value : Int) * 256).toNat / N : Nat) : Int) = (cur - value * 256) / N := by
      rw [Int.ofNat_ediv, Int.toNat_of_nonneg (by omega)]
    have hq0 : 0 ≤ (cur - (value : Int) * 256) / N := Int.ediv_nonneg (by omega) hN'.le
    have hq1 : (cur - (value : Int) * 256) / N ≤ cur - value * 256 :=
      Int.ediv_le_self _ (by omega)
    rw [hq, toInt32_eq ((cur - (value : Int) * 256) / N) (by omega) (by omega),
      toInt32_eq _ (by omega) (by omega)]
    have : (value : Int) * 256 - cur = -(cur - value * 256) := by ring
    rw [this, Int.neg_tdiv, Int.tdiv_eq_ediv (by omega) hN'.le]
    ring
  · have e1 : toInt32 (cur - (value : Int) * 256) = cur - value * 256 := toInt32_eq _ (by omega) (by omega)
    have e2 : abs32 (cur - (value : Int) * 256) = value * 256 - cur := by
      unfold abs32
      split_ifs with hlt
      · rw [toInt32_eq _ (by omega) (by omega)]; ring
      · omega
    have e3 : toUInt32 ((value : Int) * 256 - cur) = ((value : Int) * 256 - cur).toNat := by
      unfold toUInt32; congr 1; omega
    rw [e1, e2, e3]
    have hq : ((((value : Int) * 256 - cur).toNat / N : Nat) : Int) = (value * 256 - cur) / N := by
      rw [Int.ofNat_ediv, Int.toNat_of_nonneg (by omega)]
    have hq0 : 0 ≤ ((value : Int) * 256 - cur) / N := Int.ediv_nonneg (by omega) hN'.le
    have hq1 : ((value : Int) * 256 - cur) / N ≤ value * 256 - cur :=
      Int.ediv_le_self _ (by omega)
    rw [hq, toInt32_eq _ (by omega) (by omega), Int.tdiv_eq_ediv (by omega) hN'.le]

/-- Effect of `iot_led_set_channel` on an initialised engine. -/
theorem set_channel_ok (D : Nat) (g : Globals) (cfg : iot_light_t) (channel : Nat)
    (fd : ledc_fade_data_t) (value fade_ms : Nat) (hD : 0 < D)
    (hcfg : g.g_light_config = some cfg) (hfd : cfg.fade_data[channel]? = some fd) :
    ∃ g1 s, iot_led_set_channel D g channel value fade_ms = Except.ok (ESP_OK, g1) ∧
      g1.g_gamma_table = g.g_gamma_table ∧ g1.g_hw_timer_started = true ∧
      g1.g_light_config = some { cfg with fade_data := (cfg.fade_data.set channel
          ⟨fd.cur, FLOATINT_2_FIXED value LEDC_FIXED_Q, s, 0, max 1 (fade_ms / D)⟩) } ∧
      channel_of g1 channel
        = some ⟨fd.cur, FLOATINT_2_FIXED value LEDC_FIXED_Q, s, 0, max 1 (fade_ms / D)⟩ ∧
      (0 ≤ fd.cur → fd.cur ≤ 65280 → value ≤ 255 →
        s = Int.tdiv ((value : Int) * 256 - fd.cur) (max 1 (fade_ms / D) : Nat)) := by
  have hlen : channel < cfg.fade_data.length := by
    rcases Nat.lt_or_ge channel cfg.fade_data.length with h | h
    · exact h
    · rw [List.getElem?_eq_none h] at hfd; cases hfd
  have hN : 0 < max 1 (fade_ms / D) := by omega
  have hne : ¬ max 1 (fade_ms / D) = 0 := by omega
  have hcy : (if fd.cycle ≠ 0 then (0 : Int) else fd.cycle) = 0 := by
    split_ifs with h
    · rfl
    · exact not_not.mp h
  unfold iot_led_set_channel LIGHT_ERROR_CHECK
  simp only [hcfg, hfd, Option.isNone_some, Bool.false_eq_true, if_false]
  rw [if_neg (by omega), num_eq_max D fade_ms hD, if_neg hne, hcy]
  refine ⟨_, set_channel_step fd.cur (FLOATINT_2_FIXED value LEDC_FIXED_Q) (max 1 (fade_ms / D)),
    rfl, ?_, ?_, ?_, ?_, ?_⟩
  · cases hT : g.g_hw_timer_started <;> rfl
  · cases hT : g.g_hw_timer_started <;> rfl
  · cases hT : g.g_hw_timer_started <;> rfl
  · cases hT : g.g_hw_timer_started <;> exact List.getElem?_set_self hlen
  · intro h0 h1 hv
    rw [FLOATINT_2_FIXED_eq value hv]
    exact set_channel_step_eq fd.cur value _ h0 h1 hv hN

/-! ## One tick of one channel -/

theorem fade_step_dec_move (c f s cy : Int) (n : Nat) (hn : 0 < n) (hs : s ≠ 0) :
    fade_step ⟨c, f, s, cy, n⟩ = ⟨toInt32 (c + s), f, s, cy, n - 1⟩ := by
  simp [fade_step, fade_channel, hn, hs]

theorem fade_step_dec_hold (c f cy : Int) (n : Nat) (hn : 0 < n) :
    fade_step ⟨c, f, 0, cy, n⟩ = ⟨c, f, 0, cy, n - 1⟩ := by
  simp [fade_step, fade_channel, hn]

theorem fade_step_turn_move (c f s cy : Int) (hc : cy ≠ 0) (hs : s ≠ 0) :
    fade_step ⟨c, f, s, cy, 0⟩ =
      ⟨toInt32 (c + toInt32 (s * -1)), f, toInt32 (s * -1), cy, toUInt32 (toInt32 (cy - 1))⟩ := by
  simp [fade_step, fade_channel, hc, hs]

theorem fade_step_turn_toggle (c f cy : Int) (hc : cy ≠ 0) :
    fade_step ⟨c, f, 0, cy, 0⟩ =
      ⟨if c = f then 0 else f, f, 0, cy, toUInt32 (toInt32 (cy - 1))⟩ := by
  simp [fade_step, fade_channel, hc]

theorem fade_step_idle (c f s : Int) : fade_step ⟨c, f, s, 0, 0⟩ = ⟨c, f, s, 0, 0⟩ := by
  simp [fade_step, fade_channel]

/-- Intermediate positions of a linear walk stay between its two ends. -/
theorem walk_between (c s : Int) (j n : Nat) (hj : j ≤ n) (lo hi : Int)
    (h0 : lo ≤ c) (h1 : c ≤ hi) (h2 : lo ≤ c + n * s) (h3 : c + n * s ≤ hi) :
    lo ≤ c + j * s ∧ c + j * s ≤ hi := by
  have hj' : (j : Int) ≤ n := by exact_mod_cast hj
  have hj0 : (0 : Int) ≤ j := by positivity
  rcases le_or_lt 0 s with hs | hs
  · have a1 : 0 ≤ (j : Int) * s := mul_nonneg hj0 hs
    have a2 : (j : Int) * s ≤ n * s := mul_le_mul_of_nonneg_right hj' hs
    constructor <;> linarith
  · have a1 : (j : Int) * s ≤ 0 := mul_nonpos_of_nonneg_of_nonpos hj0 hs.le
    have a2 : (n : Int) * s ≤ j * s := mul_le_mul_of_nonpos_right hj' hs.le
    constructor <;> linarith

/-- While `num` lasts, every tick adds `step` to `cur`, as long as the walk stays
inside the `int` range. -/
theorem fade_step_iterate_walk (c f s cy : Int) (n : Nat) (lo hi : Int)
    (hlo : -2147483648 ≤ lo) (hhi : hi < 2147483648)
    (h0 : lo ≤ c) (h1 : c ≤ hi) (h2 : lo ≤ c + n * s) (h3 : c + n * s ≤ hi) :
    ∀ k, k ≤ n → fade_step^[k] ⟨c, f, s, cy, n⟩ = ⟨c + k * s, f, s, cy, n - k⟩ := by
  intro k
  induction k with
  | zero => intro _; simp
  | succ k ih =>
    intro hk
    rw [Function.iterate_succ_apply', ih (by omega)]
    have hb := walk_between c s (k + 1) n hk lo hi h0 h1 h2 h3
    have hpos : 0 < n - k := by omega
    have e : c + (k : Int) * s + s = c + ((k + 1 : Nat) : Int) * s := by
      push_cast; ring
    have hnum : n - k - 1 = n - (k + 1) := by omega
    by_cases hs : s = 0
    · subst hs
      rw [fade_step_dec_hold _ _ _ _ hpos, hnum]
      simp
    · rw [fade_step_dec_move _ _ _ _ _ hpos hs, e,
        toInt32_eq _ (by linarith [hb.1]) (by linarith [hb.2]), hnum]

/-! ## From the engine to one channel -/

theorem fade_channel_fd (D : Nat) (tbl : List Nat) (sm ch : Nat) (fd : ledc_fade_data_t) :
    (fade_channel D tbl sm ch fd).fd = fade_step fd := by
  unfold fade_step fade_channel
  split_ifs <;> rfl

theorem fade_loop_fade_data (D : Nat) (tbl : List Nat) (sm : Nat) (l : List ledc_fade_data_t) :
    ∀ ch, (fade_loop D tbl sm ch l).fade_data = l.map fade_step := by
  induction l with
  | nil => intro ch; rfl
  | cons fd rest ih =>
    intro ch
    simp [fade_loop, ih, fade_channel_fd]

theorem fade_timercb_ok (D : Nat) (g : Globals) (cfg : iot_light_t) (tbl : List Nat)
    (hcfg : g.g_light_config = some cfg) (htbl : g.g_gamma_table = some tbl) :
    ∃ g1, fade_timercb D g = Except.ok g1 ∧ g1.g_gamma_table = some tbl ∧
      g1.g_light_config = some { cfg with fade_data := cfg.fade_data.map fade_step } := by
  unfold fade_timercb
  rw [hcfg, htbl]
  simp only [fade_loop_fade_data]
  split_ifs
  · exact ⟨_, rfl, by simp [iot_timer_stop, htbl], by simp [iot_timer_stop]⟩
  · exact ⟨_, rfl, by simp [htbl], by simp⟩

theorem run_ticks_ok (D : Nat) (n : Nat) : ∀ (g : Globals) (cfg : iot_light_t) (tbl : List Nat),
    g.g_light_config = some cfg → g.g_gamma_table = some tbl →
    ∃ g1, run_ticks D n g = Except.ok g1 ∧ g1.g_gamma_table = some tbl ∧
      g1.g_light_config = some { cfg with fade_data := cfg.fade_data.map (fade_step^[n]) } := by
  induction n with
  | zero =>
    intro g cfg tbl hcfg htbl
    exact ⟨g, rfl, htbl, by simp [hcfg]⟩
  | succ n ih =>
    intro g cfg tbl hcfg htbl
    obtain ⟨g1, h1, h2, h3⟩ := fade_timercb_ok D g cfg tbl hcfg htbl
    obtain ⟨g2, k1, k2, k3⟩ := ih g1 _ tbl h3 h2
    refine ⟨g2, ?_, k2, ?_⟩
    · simp [run_ticks, h1, k1]
    · rw [k3]; simp [Function.iterate_succ]

theorem run_ticks_channel (D n : Nat) (g : Globals) (cfg : iot_light_t) (tbl : List Nat)
    (channel : Nat) (fd : ledc_fade_data_t)
    (hcfg : g.g_light_config = some cfg) (htbl : g.g_gamma_table = some tbl)
    (hfd : channel_of g channel = some fd) :
    ∃ g1, run_ticks D n g = Except.ok g1 ∧ channel_of g1 channel = some (fade_step^[n] fd) := by
  obtain ⟨g1, h1, _, h3⟩ := run_ticks_ok D n g cfg tbl hcfg htbl
  refine ⟨g1, h1, ?_⟩
  simp only [channel_of, hcfg, Option.some_bind] at hfd
  simp [channel_of, h3, hfd]

theorem channel_of_eq (g : Globals) (cfg : iot_light_t) (channel : Nat)
    (hcfg : g.g_light_config = some cfg) : channel_of g channel = cfg.fade_data[channel]? := by
  simp [channel_of, hcfg]

theorem fade_step_cycle (fd : ledc_fade_data_t) : (fade_step fd).cycle = fd.cycle := by
  unfold fade_step fade_channel
  split_ifs <;> rfl

theorem fade_step_num_of_cycle_zero (fd : ledc_fade_data_t) (h : fd.cycle = 0) :
    (fade_step fd).num = fd.num - 1 := by
  obtain ⟨c, f, s, cy, n⟩ := fd
  simp only at h
  subst h
  rcases Nat.eq_zero_or_pos n with hn | hn
  · subst hn
    rw [fade_step_idle]
    rfl
  · by_cases hs : s = 0
    · subst hs
      rw [fade_step_dec_hold _ _ _ _ hn]
    · rw [fade_step_dec_move _ _ _ _ _ hn hs]

theorem fade_step_iterate_one_shot (fd : ledc_fade_data_t) (h : fd.cycle = 0) (k : Nat) :
    (fade_step^[k] fd).cycle = 0 ∧ (fade_step^[k] fd).num = fd.num - k := by
  induction k with
  | zero => simp [h]
  | succ k ih =>
    rw [Function.iterate_succ_apply']
    refine ⟨by rw [fade_step_cycle]; exact ih.1, ?_⟩
    rw [fade_step_num_of_cycle_zero _ ih.1, ih.2]
    omega

theorem fade_timercb_channel (D : Nat) (g : Globals) (cfg : iot_light_t) (tbl : List Nat)
    (channel : Nat) (fd : ledc_fade_data_t)
    (hcfg : g.g_light_config = some cfg) (htbl : g.g_gamma_table = some tbl)
    (hfd : channel_of g channel = some fd) :
    ∃ g1, fade_timercb D g = Except.ok g1 ∧ channel_of g1 channel = some (fade_step fd) := by
  obtain ⟨g1, h1, _, h3⟩ := fade_timercb_ok D g cfg tbl hcfg htbl
  refine ⟨g1, h1, ?_⟩
  simp only [channel_of, hcfg, Option.some_bind] at hfd
  simp [channel_of, h3, hfd]

theorem get_channel_ok (g : Globals) (channel : Nat) (fd : ledc_fade_data_t) (d0 : Nat)
    (hfd : channel_of g channel = some fd) :
    iot_led_get_channel g channel (some d0)
      = Except.ok (ESP_OK, some (toUInt32 (FIXED_2_FLOATING fd.cur LEDC_FIXED_Q) % 256)) := by
  unfold channel_of at hfd
  cases hcfg : g.g_light_config with
  | none => rw [hcfg] at hfd; cases hfd
  | some cfg =>
    rw [hcfg] at hfd
    simp only [Option.some_bind] at hfd
    simp [iot_led_get_channel, LIGHT_ERROR_CHECK, hcfg, hfd]

theorem get_channel_value (cur : Int) (h0 : 0 ≤ cur) (h1 : cur ≤ 65535) :
    ((toUInt32 (FIXED_2_FLOATING cur LEDC_FIXED_Q) % 256 : Nat) : Int) = cur / 256 := by
  unfold FIXED_2_FLOATING LEDC_FIXED_Q toUInt32 toInt32
  omega

theorem get_channel_value_nat (cur : Int) (h0 : 0 ≤ cur) (h1 : cur ≤ 65535) :
    toUInt32 (FIXED_2_FLOATING cur LEDC_FIXED_Q) % 256 = (cur / 256).toNat := by
  have h := get_channel_value cur h0 h1
  generalize toUInt32 (FIXED_2_FLOATING cur LEDC_FIXED_Q) % 256 = n at h ⊢
  omega

/-- Truncated division never overshoots: `N * (a tdiv N)` lies between 0 and `a`. -/
theorem tdiv_mul_between (a : Int) (N : Nat) (hN : 0 < N) :
    (0 ≤ a → 0 ≤ (N : Int) * Int.tdiv a N ∧ (N : Int) * Int.tdiv a N ≤ a) ∧
    (a ≤ 0 → a ≤ (N : Int) * Int.tdiv a N ∧ (N : Int) * Int.tdiv a N ≤ 0) := by
  have hN' : (0 : Int) < N := by exact_mod_cast hN
  have key : ∀ b : Int, 0 ≤ b → 0 ≤ (N : Int) * Int.tdiv b N ∧ (N : Int) * Int.tdiv b N ≤ b := by
    intro b hb
    rw [Int.tdiv_eq_ediv hb hN'.le]
    have h1 := Int.emod_add_ediv b N
    have h2 := Int.emod_nonneg b hN'.ne'
    have h3 : 0 ≤ b / (N : Int) := Int.ediv_nonneg hb hN'.le
    have h4 : 0 ≤ (N : Int) * (b / N) := mul_nonneg hN'.le h3
    exact ⟨h4, by linarith⟩
  refine ⟨key a, fun ha => ?_⟩
  have h := key (-a) (by omega)
  rw [Int.neg_tdiv] at h
  constructor <;> linarith [h.1, h.2]

/-- The `step` assignment of `iot_led_start_blink` with `fade_flag` set is the
negated unsigned quotient. -/
theorem start_blink_step_eq (value H : Nat) (hv : value ≤ 255) :
    toInt32 ((toUInt32 ((value : Int) * 256) / H * toUInt32 (-1) % 4294967296 : Nat) : Int)
      = -((value * 256 / H : Nat) : Int) := by
  have e1 : toUInt32 ((value : Int) * 256) = value * 256 := by
    unfold toUInt32; omega
  have e2 : toUInt32 (-1) = 4294967295 := by decide
  rw [e1, e2]
  have hq : value * 256 / H ≤ value * 256 := Nat.div_le_self _ _
  generalize value * 256 / H = q at hq ⊢
  unfold toInt32
  omega

/-- Effect of `iot_led_start_blink` on an initialised engine. -/
theorem start_blink_ok (D : Nat) (g : Globals) (cfg : iot_light_t) (channel : Nat)
    (fd : ledc_fade_data_t) (value period_ms : Nat) (fade_flag : Bool) (hD : 0 < D)
    (hcfg : g.g_light_config = some cfg) (hfd : cfg.fade_data[channel]? = some fd)
    (hv : value ≤ 255) (hp : period_ms < 4294967296)
    (hH : fade_flag = true → 1 ≤ period_ms / 2 / D) :
    ∃ g1, iot_led_start_blink D g channel value period_ms fade_flag = Except.ok (ESP_OK, g1) ∧
      g1.g_gamma_table = g.g_gamma_table ∧ g1.g_hw_timer_started = true ∧
      g1.g_light_config = some { cfg with fade_data := (cfg.fade_data.set channel
          ⟨(value : Int) * 256, (value : Int) * 256,
            if fade_flag then -((value * 256 / (period_ms / 2 / D) : Nat) : Int) else 0,
            ((period_ms / 2 / D : Nat) : Int),
            if fade_flag then period_ms / 2 / D else 0⟩) } ∧
      channel_of g1 channel = some
          ⟨(value : Int) * 256, (value : Int) * 256,
            if fade_flag then -((value * 256 / (period_ms / 2 / D) : Nat) : Int) else 0,
            ((period_ms / 2 / D : Nat) : Int),
            if fade_flag then period_ms / 2 / D else 0⟩ := by
  have hlen : channel < cfg.fade_data.length := by
    rcases Nat.lt_or_ge channel cfg.fade_data.length with h | h
    · exact h
    · rw [List.getElem?_eq_none h] at hfd; cases hfd
  have hHlt : period_ms / 2 / D < 2147483648 := by
    have : period_ms / 2 / D ≤ period_ms / 2 := Nat.div_le_self _ _
    omega
  unfold iot_led_start_blink LIGHT_ERROR_CHECK
  simp only [hcfg, hfd, Option.isNone_some, Bool.false_eq_true, if_false]
  rw [if_neg (by omega)]
  generalize period_ms / 2 / D = H at hH hHlt ⊢
  have hcy : toInt32 ((H : Nat) : Int) = ((H : Nat) : Int) :=
    toInt32_eq _ (by omega) (by omega)
  have hne : ¬ (fade_flag = true ∧ (if fade_flag = true then H else 0) = 0) := by
    rintro ⟨h1, h2⟩
    rw [if_pos h1] at h2
    have := hH h1
    omega
  rw [if_neg hne, FLOATINT_2_FIXED_eq value hv, hcy]
  cases fade_flag with
  | false =>
    simp only [Bool.false_eq_true, if_false]
    refine ⟨_, rfl, ?_, ?_, ?_, ?_⟩
    · cases hT : g.g_hw_timer_started <;> rfl
    · cases hT : g.g_hw_timer_started <;> rfl
    · cases hT : g.g_hw_timer_started <;> rfl
    · cases hT : g.g_hw_timer_started <;> exact List.getElem?_set_self hlen
  | true =>
    simp only [if_true]
    rw [start_blink_step_eq value _ hv]
    refine ⟨_, rfl, ?_, ?_, ?_, ?_⟩
    · cases hT : g.g_hw_timer_started <;> rfl
    · cases hT : g.g_hw_timer_started <;> rfl
    · cases hT : g.g_hw_timer_started <;> rfl
    · cases hT : g.g_hw_timer_started <;> exact List.getElem?_set_self hlen

theorem turn_num_eq (H : Nat) (h1 : 1 ≤ H) (h2 : H < 2147483648) :
    toUInt32 (toInt32 ((H : Int) - 1)) = H - 1 := by
  unfold toUInt32 toInt32; omega

/-- Hard blink, start of a half period: the record right after the `q`-th toggle. -/
theorem hard_blink_toggle (F : Int) (H : Nat) (h1 : 1 ≤ H) (h2 : H < 2147483648)
    (hF0 : -2147483648 ≤ F) (hF1 : F < 2147483648) (q : Nat) :
    fade_step^[q * H + 1] ⟨F, F, 0, H, 0⟩ = ⟨if q % 2 = 0 then 0 else F, F, 0, H, H - 1⟩ := by
  have hH : (H : Int) ≠ 0 := by omega
  induction q with
  | zero =>
    simp only [Nat.zero_mul, Nat.zero_add, Function.iterate_one]
    rw [fade_step_turn_toggle _ _ _ hH, turn_num_eq H h1 h2]
    simp
  | succ q ih =>
    have e : (q + 1) * H + 1 = 1 + ((H - 1) + (q * H + 1)) := by
      have : (q + 1) * H = q * H + H := by ring
      omega
    rw [e, Function.iterate_add_apply, Function.iterate_add_apply, ih, Function.iterate_one]
    rcases Nat.mod_two_eq_zero_or_one q with hq | hq
    · have hq' : (q + 1) % 2 = 1 := by omega
      rw [if_pos hq, if_neg (by omega),
        fade_step_iterate_walk 0 F 0 H (H - 1) 0 0 (by norm_num) (by norm_num) le_rfl le_rfl
          (by simp) (by simp) (H - 1) le_rfl]
      simp only [mul_zero, add_zero, Nat.sub_self]
      rw [fade_step_turn_toggle _ _ _ hH, turn_num_eq H h1 h2]
      by_cases hz : (0 : Int) = F
      · rw [if_pos hz, hz]
      · rw [if_neg hz]
    · have hq' : (q + 1) % 2 = 0 := by omega
      rw [if_neg (by omega), if_pos hq',
        fade_step_iterate_walk F F 0 H (H - 1) F F hF0 hF1 le_rfl le_rfl
          (by simp) (by simp) (H - 1) le_rfl]
      simp only [mul_zero, add_zero, Nat.sub_self]
      rw [fade_step_turn_toggle _ _ _ hH, turn_num_eq H h1 h2, if_pos rfl]

/-- Hard blink: the record after `q * H + r + 1` ticks, `r < H`. -/
theorem hard_blink_iterate (F : Int) (H : Nat) (h1 : 1 ≤ H) (h2 : H < 2147483648)
    (hF0 : -2147483648 ≤ F) (hF1 : F < 2147483648) (q r : Nat) (hr : r < H) :
    fade_step^[q * H + r + 1] ⟨F, F, 0, H, 0⟩
      = ⟨if q % 2 = 0 then 0 else F, F, 0, H, H - 1 - r⟩ := by
  have e : q * H + r + 1 = r + (q * H + 1) := by omega
  rw [e, Function.iterate_add_apply, hard_blink_toggle F H h1 h2 hF0 hF1 q]
  by_cases hq : q % 2 = 0
  · rw [if_pos hq,
      fade_step_iterate_walk 0 F 0 H (H - 1) 0 0 (by norm_num) (by norm_num) le_rfl le_rfl
        (by simp) (by simp) r (by omega)]
    simp
  · rw [if_neg hq,
      fade_step_iterate_walk F F 0 H (H - 1) F F hF0 hF1 le_rfl le_rfl
        (by simp) (by simp) r (by omega)]
    simp

/-- Fading blink, first half period: `cur` walks down by `F / H` per tick. -/
theorem fading_first_half (F H : Nat) (hF : F ≤ 65280) (k : Nat) (hk : k ≤ H) :
    fade_step^[k] ⟨(F : Int), F, -((F / H : Nat) : Int), H, H⟩
      = ⟨(F : Int) - k * ((F / H : Nat) : Int), F, -((F / H : Nat) : Int), H, H - k⟩ := by
  have hm : H * (F / H) ≤ F := Nat.mul_div_le F H
  have hmI : (H : Int) * ((F / H : Nat) : Int) ≤ F := by exact_mod_cast hm
  have hq : (0 : Int) ≤ ((F / H : Nat) : Int) := by positivity
  have hHq : (0 : Int) ≤ (H : Int) * ((F / H : Nat) : Int) := by positivity
  rw [fade_step_iterate_walk (F : Int) F (-((F / H : Nat) : Int)) H H 0 65280 (by norm_num)
    (by norm_num) (by omega) (by omega) (by linarith) (by linarith) k hk]
  congr 1
  ring

/-- Fading blink with a nonzero step: the record after the first turn. -/
theorem fade_blink_first_turn (F H : Nat) (hF : F ≤ 65280) (h1 : 1 ≤ H) (h2 : H < 2147483648)
    (hs : H ≤ F) :
    fade_step^[H + 1] ⟨(F : Int), F, -((F / H : Nat) : Int), H, H⟩
      = ⟨(F : Int) - H * ((F / H : Nat) : Int) + ((F / H : Nat) : Int), F,
          ((F / H : Nat) : Int), H, H - 1⟩ := by
  have hm : H * (F / H) ≤ F := Nat.mul_div_le F H
  have hmI : (H : Int) * ((F / H : Nat) : Int) ≤ F := by exact_mod_cast hm
  have hq1 : 1 ≤ F / H := Nat.div_pos hs (by omega)
  have hq2 : F / H ≤ F := Nat.div_le_self _ _
  have hqI : (1 : Int) ≤ ((F / H : Nat) : Int) := by exact_mod_cast hq1
  have hqI2 : ((F / H : Nat) : Int) ≤ F := by exact_mod_cast hq2
  have hle : ((F / H : Nat) : Int) ≤ (H : Int) * ((F / H : Nat) : Int) := by
    have : (1 : Int) ≤ H := by exact_mod_cast h1
    nlinarith
  have hH : (H : Int) ≠ 0 := by omega
  rw [Nat.add_comm, Function.iterate_add_apply, fading_first_half F H hF H le_rfl,
    Function.iterate_one, Nat.sub_self,
    fade_step_turn_move _ _ _ _ hH (by omega), turn_num_eq H h1 h2]
  have e1 : toInt32 (-((F / H : Nat) : Int) * -1) = ((F / H : Nat) : Int) := by
    rw [toInt32_eq _ (by omega) (by omega)]; ring
  rw [e1, toInt32_eq _ (by linarith) (by linarith)]

/-- Fading blink with a nonzero step: after two half periods `cur` is back on `F`
and the channel is at its turning point. -/
theorem fade_blink_full_period (F H : Nat) (hF : F ≤ 65280) (h1 : 1 ≤ H) (h2 : H < 2147483648)
    (hs : H ≤ F) :
    fade_step^[2 * H] ⟨(F : Int), F, -((F / H : Nat) : Int), H, H⟩
      = ⟨(F : Int), F, ((F / H : Nat) : Int), H, 0⟩ := by
  have hm : H * (F / H) ≤ F := Nat.mul_div_le F H
  have hmI : (H : Int) * ((F / H : Nat) : Int) ≤ F := by exact_mod_cast hm
  have hq : (0 : Int) ≤ ((F / H : Nat) : Int) := by positivity
  have hle : ((F / H : Nat) : Int) ≤ (H : Int) * ((F / H : Nat) : Int) := by
    have : (1 : Int) ≤ H := by exact_mod_cast h1
    nlinarith
  have e : 2 * H = (H - 1) + (H + 1) := by omega
  have hc : (((H - 1 : Nat) : Int)) = (H : Int) - 1 := by omega
  have hend : (F : Int) - H * ((F / H : Nat) : Int) + ((F / H : Nat) : Int)
      + ((H - 1 : Nat) : Int) * ((F / H : Nat) : Int) = F := by
    rw [hc]; ring
  rw [e, Function.iterate_add_apply, fade_blink_first_turn F H hF h1 h2 hs,
    fade_step_iterate_walk _ F _ H (H - 1) 0 65280 (by norm_num) (by norm_num) (by linarith)
      (by linarith) (by rw [hend]; omega) (by rw [hend]; omega) (H - 1) le_rfl, hend, Nat.sub_self]

/-- Fading blink whose step truncates to zero: after the first half period the
channel is a hard blink. -/
theorem fade_blink_zero_step (F H : Nat) (hF : F ≤ 65280) (hs : F < H) :
    fade_step^[H] ⟨(F : Int), F, -((F / H : Nat) : Int), H, H⟩ = ⟨(F : Int), F, 0, H, 0⟩ := by
  rw [fading_first_half F H hF H le_rfl, Nat.div_eq_of_lt hs]
  simp

/-- Fading blink: the record after `2 * H + 1` ticks is the record after one tick. -/
theorem fade_blink_returns (F H : Nat) (hF : F ≤ 65280) (h1 : 1 ≤ H) (h2 : H < 2147483648) :
    fade_step^[2 * H + 1] ⟨(F : Int), F, -((F / H : Nat) : Int), H, H⟩
      = fade_step ⟨(F : Int), F, -((F / H : Nat) : Int), H, H⟩ := by
  have hH : (H : Int) ≠ 0 := by omega
  rcases Nat.lt_or_ge F H with hs | hs
  · have e : 2 * H + 1 = (1 * H + 0 + 1) + H := by omega
    rw [e, Function.iterate_add_apply, fade_blink_zero_step F H hF hs,
      hard_blink_iterate (F : Int) H h1 h2 (by omega) (by omega) 1 0 (by omega),
      Nat.div_eq_of_lt hs]
    simp only [Nat.cast_zero, neg_zero]
    rw [fade_step_dec_hold _ _ _ _ (by omega)]
    simp
  · have hq1 : 1 ≤ F / H := Nat.div_pos hs (by omega)
    have hq2 : F / H ≤ F := Nat.div_le_self _ _
    rw [Function.iterate_succ_apply', fade_blink_full_period F H hF h1 h2 hs,
      fade_step_turn_move _ _ _ _ hH (by omega), turn_num_eq H h1 h2,
      fade_step_dec_move _ _ _ _ _ (by omega) (by omega)]
    have e1 : toInt32 (((F / H : Nat) : Int) * -1) = -((F / H : Nat) : Int) := by
      rw [toInt32_eq _ (by omega) (by omega)]; ring
    rw [e1]

/-- Fading blink: from the first tick on, the channel record repeats every
`2 * H` ticks. -/
theorem fade_blink_periodic (F H : Nat) (hF : F ≤ 65280) (h1 : 1 ≤ H) (h2 : H < 2147483648)
    (t : Nat) (ht : 1 ≤ t) :
    fade_step^[t + 2 * H] ⟨(F : Int), F, -((F / H : Nat) : Int), H, H⟩
      = fade_step^[t] ⟨(F : Int), F, -((F / H : Nat) : Int), H, H⟩ := by
  obtain ⟨u, rfl⟩ : ∃ u, t = u + 1 := ⟨t - 1, by omega⟩
  have e : u + 1 + 2 * H = u + (2 * H + 1) := by omega
  rw [e, Function.iterate_add_apply, fade_blink_returns F H hF h1 h2,
    Function.iterate_succ_apply]

/-- Fading blink whose step does not truncate to zero (or whose target is 0):
`cur` is on the target after every whole number of periods. -/
theorem fade_blink_on_target (F H : Nat) (hF : F ≤ 65280) (h1 : 1 ≤ H) (h2 : H < 2147483648)
    (hs : H ≤ F ∨ F = 0) (k : Nat) :
    (fade_step^[2 * k * H] ⟨(F : Int), F, -((F / H : Nat) : Int), H, H⟩).cur = F := by
  induction k with
  | zero => simp
  | succ k ih =>
    rcases Nat.eq_zero_or_pos k with hk | hk
    · subst hk
      simp only [Nat.zero_add, Nat.mul_one]
      rcases hs with hs | hs
      · rw [fade_blink_full_period F H hF h1 h2 hs]
      · subst hs
        have e : 2 * H = (0 * H + (H - 1) + 1) + H := by omega
        rw [e, Function.iterate_add_apply, fade_blink_zero_step 0 H (by omega) (by omega),
          hard_blink_iterate _ H h1 h2 (by norm_num) (by norm_num) 0 (H - 1) (by omega)]
        simp
    · have e : 2 * (k + 1) * H = 2 * k * H + 2 * H := by ring
      have hpos : 1 ≤ 2 * k * H := by
        have : 1 ≤ k * H := Nat.mul_pos hk (by omega)
        nlinarith
      rw [e, fade_blink_periodic F H hF h1 h2 _ hpos, ih]

/-- After `n` ticks the engine is still initialised and the channel record has
been stepped `n` times. -/
theorem run_ticks_channel_full (D n : Nat) (g : Globals) (cfg : iot_light_t) (tbl : List Nat)
    (channel : Nat) (fd : ledc_fade_data_t)
    (hcfg : g.g_light_config = some cfg) (htbl : g.g_gamma_table = some tbl)
    (hfd : channel_of g channel = some fd) :
    ∃ g1 cfg1, run_ticks D n g = Except.ok g1 ∧ g1.g_light_config = some cfg1 ∧
      g1.g_gamma_table = some tbl ∧ channel_of g1 channel = some (fade_step^[n] fd) := by
  obtain ⟨g1, h1, h2, h3⟩ := run_ticks_ok D n g cfg tbl hcfg htbl
  refine ⟨g1, _, h1, h3, h2, ?_⟩
  simp only [channel_of, hcfg, Option.some_bind] at hfd
  simp [channel_of, h3, hfd]

theorem FadeInv_fade_step (fd : ledc_fade_data_t) (h : FadeInv fd) : FadeInv (fade_step fd) := by
  obtain ⟨c, f, s, cy, n⟩ := fd
  obtain ⟨h0, h1, h2, h3, h4⟩ := h
  simp only at h0 h1 h2 h3 h4
  rcases Nat.eq_zero_or_pos n with hn | hn
  · subst hn
    by_cases hc : cy = 0
    · subst hc
      rw [fade_step_idle]
      exact ⟨h0, h1, h2, h3, h4⟩
    · obtain ⟨c1, c2, c3, c4, c5, c6⟩ := h4 hc
      simp only [Nat.cast_zero, zero_mul, add_zero] at c5 c6
      have hnum : ((toUInt32 (toInt32 (cy - 1)) : Nat) : Int) = cy - 1 := by
        unfold toUInt32 toInt32; omega
      by_cases hs : s = 0
      · subst hs
        rw [fade_step_turn_toggle _ _ _ hc]
        unfold FadeInv
        simp only [mul_zero, add_zero, sub_zero]
        have hr : 0 ≤ (if c = f then (0 : Int) else f) ∧ (if c = f then (0 : Int) else f) ≤ 65280 := by
          split_ifs <;> constructor <;> omega
        exact ⟨hr.1, hr.2, hr.1, hr.2, fun _ => ⟨c1, c2, c3, c4, hr.1, hr.2⟩⟩
      · rw [fade_step_turn_move _ _ _ _ hc hs]
        have hb : -65280 ≤ s ∧ s ≤ 65280 := by
          rcases le_total 0 s with hs0 | hs0
          · have : 0 ≤ (cy - 1) * s := mul_nonneg (by omega) hs0
            constructor <;> nlinarith
          · have : (cy - 1) * s ≤ 0 := mul_nonpos_of_nonneg_of_nonpos (by omega) hs0
            constructor <;> nlinarith
        have e1 : toInt32 (s * -1) = -s := by
          rw [toInt32_eq _ (by omega) (by omega)]; ring
        have hmid : 0 ≤ c + -s ∧ c + -s ≤ 65280 := by
          rcases le_total 0 s with hs0 | hs0
          · have : 0 ≤ (cy - 1) * s := mul_nonneg (by omega) hs0
            constructor <;> nlinarith
          · have : (cy - 1) * s ≤ 0 := mul_nonpos_of_nonneg_of_nonpos (by omega) hs0
            constructor <;> nlinarith
        rw [e1, toInt32_eq _ (by omega) (by omega)]
        unfold FadeInv
        simp only [hnum]
        have e2 : c + -s + (cy - 1) * -s = c - cy * s := by ring
        have e3 : c - cy * s - cy * -s = c := by ring
        rw [e2, e3]
        exact ⟨hmid.1, hmid.2, c5, c6, fun _ => ⟨c1, c2, c3, c4, h0, h1⟩⟩
  · have hcast : ((n - 1 : Nat) : Int) = (n : Int) - 1 := by omega
    by_cases hs : s = 0
    · subst hs
      rw [fade_step_dec_hold _ _ _ _ hn]
      unfold FadeInv
      simp only [mul_zero, add_zero, sub_zero] at h2 h3 h4 ⊢
      exact ⟨h0, h1, h0, h1, h4⟩
    · rw [fade_step_dec_move _ _ _ _ _ hn hs]
      have hb := walk_between c s 1 n hn 0 65280 h0 h1 h2 h3
      simp only [Nat.cast_one, one_mul] at hb
      rw [toInt32_eq _ (by omega) (by omega)]
      unfold FadeInv
      simp only [hcast]
      have e2 : c + s + ((n : Int) - 1) * s = c + n * s := by ring
      rw [e2]
      exact ⟨hb.1, hb.2, h2, h3, h4⟩

theorem FadeInv_set (l : List ledc_fade_data_t) (channel : Nat) (x : ledc_fade_data_t)
    (hl : ∀ fd ∈ l, FadeInv fd) (hx : FadeInv x) : ∀ fd ∈ l.set channel x, FadeInv fd := by
  intro fd hfd
  rcases List.mem_or_eq_of_mem_set hfd with h | h
  · exact hl fd h
  · rw [h]; exact hx

theorem EngineInv_of_config (g : Globals) (cfg : iot_light_t)
    (hcfg : g.g_light_config = some cfg) (h : ∀ fd ∈ cfg.fade_data, FadeInv fd) :
    EngineInv g := by
  intro cfg1 h1
  rw [hcfg] at h1
  cases h1
  exact h

theorem EngineInv_fade_timercb (D : Nat) (g g1 : Globals) (hinv : EngineInv g)
    (h : fade_timercb D g = Except.ok g1) : EngineInv g1 := by
  cases hcfg : g.g_light_config with
  | none => simp [fade_timercb, hcfg] at h
  | some cfg =>
    cases htbl : g.g_gamma_table with
    | none => simp [fade_timercb, hcfg, htbl] at h
    | some tbl =>
      obtain ⟨g2, k1, _, k3⟩ := fade_timercb_ok D g cfg tbl hcfg htbl
      rw [k1] at h
      cases h
      refine EngineInv_of_config _ _ k3 ?_
      intro fd hfd
      obtain ⟨x, hx, rfl⟩ := List.mem_map.mp hfd
      exact FadeInv_fade_step x (hinv cfg hcfg x hx)

theorem EngineInv_set_channel (D : Nat) (hD : 0 < D) (g g1 : Globals)
    (channel value fade_ms : Nat) (r : esp_err_t) (hv : value ≤ 255) (hinv : EngineInv g)
    (h : iot_led_set_channel D g channel value fade_ms = Except.ok (r, g1)) : EngineInv g1 := by
  cases hcfg : g.g_light_config with
  | none =>
    simp [iot_led_set_channel, LIGHT_ERROR_CHECK, hcfg] at h
    rw [← h.2]; exact hinv
  | some cfg =>
    cases hfd : cfg.fade_data[channel]? with
    | none => simp [iot_led_set_channel, LIGHT_ERROR_CHECK, hcfg, hfd] at h
    | some fd =>
      obtain ⟨g2, s, k1, _, _, k4, _, k6⟩ :=
        set_channel_ok D g cfg channel fd value fade_ms hD hcfg hfd
      rw [k1] at h
      cases h
      have hfdinv := hinv cfg hcfg fd (List.getElem?_mem hfd)
      have hs := k6 hfdinv.1 hfdinv.2.1 hv
      have hN : 0 < max 1 (fade_ms / D) := by omega
      obtain ⟨b1, b2⟩ := tdiv_mul_between ((value : Int) * 256 - fd.cur) _ hN
      have hvI : (value : Int) ≤ 255 := by exact_mod_cast hv
      refine EngineInv_of_config _ _ k4 (FadeInv_set _ _ _ (hinv cfg hcfg) ?_)
      have hend : 0 ≤ fd.cur + ((max 1 (fade_ms / D) : Nat) : Int) * s ∧
          fd.cur + ((max 1 (fade_ms / D) : Nat) : Int) * s ≤ 65280 := by
        rw [hs]
        rcases le_total 0 ((value : Int) * 256 - fd.cur) with h | h
        · have := b1 h; constructor <;> linarith [this.1, this.2, hfdinv.1, hfdinv.2.1]
        · have := b2 h; constructor <;> linarith [this.1, this.2, hfdinv.1, hfdinv.2.1]
      exact ⟨hfdinv.1, hfdinv.2.1, hend.1, hend.2, fun hc => absurd rfl hc⟩

theorem EngineInv_start_blink (D : Nat) (hD : 0 < D) (g g1 : Globals)
    (channel value period_ms : Nat) (fade_flag : Bool) (r : esp_err_t) (hv : value ≤ 255)
    (hp : period_ms < 4294967296) (hH : fade_flag = false ∨ 1 ≤ period_ms / 2 / D)
    (hinv : EngineInv g)
    (h : iot_led_start_blink D g channel value period_ms fade_flag = Except.ok (r, g1)) :
    EngineInv g1 := by
  cases hcfg : g.g_light_config with
  | none =>
    simp [iot_led_start_blink, LIGHT_ERROR_CHECK, hcfg] at h
    rw [← h.2]; exact hinv
  | some cfg =>
    cases hfd : cfg.fade_data[channel]? with
    | none => simp [iot_led_start_blink, LIGHT_ERROR_CHECK, hcfg, hfd] at h
    | some fd =>
      have hH' : fade_flag = true → 1 ≤ period_ms / 2 / D := by
        intro hf
        rcases hH with h1 | h1
        · rw [hf] at h1; cases h1
        · exact h1
      obtain ⟨g2, k1, _, _, k4, _⟩ :=
        start_blink_ok D g cfg channel fd value period_ms fade_flag hD hcfg hfd hv hp hH'
      rw [k1] at h
      cases h
      have hHlt : period_ms / 2 / D < 2147483648 := by
        have : period_ms / 2 / D ≤ period_ms / 2 := Nat.div_le_self _ _
        omega
      refine EngineInv_of_config _ _ k4 (FadeInv_set _ _ _ (hinv cfg hcfg) ?_)
      generalize period_ms / 2 / D = H at hH' hHlt
      have hvI : (value : Int) ≤ 255 := by exact_mod_cast hv
      have hm : H * (value * 256 / H) ≤ value * 256 := Nat.mul_div_le _ _
      have hmI : (H : Int) * ((value * 256 / H : Nat) : Int) ≤ (value : Int) * 256 := by
        exact_mod_cast hm
      have hHq : (0 : Int) ≤ (H : Int) * ((value * 256 / H : Nat) : Int) := by positivity
      cases fade_flag with
      | false =>
        unfold FadeInv
        simp only [Bool.false_eq_true, if_false, Nat.cast_zero, zero_mul, add_zero, mul_zero,
          sub_zero]
        exact ⟨by omega, by omega, by omega, by omega,
          fun hc => ⟨by omega, by omega, by omega, by omega, by omega, by omega⟩⟩
      | true =>
        unfold FadeInv
        simp only [if_true]
        have e1 : (value : Int) * 256 + (H : Int) * -((value * 256 / H : Nat) : Int)
            = (value : Int) * 256 - (H : Int) * ((value * 256 / H : Nat) : Int) := by ring
        have e2 : (value : Int) * 256 - (H : Int) * ((value * 256 / H : Nat) : Int)
            - (H : Int) * -((value * 256 / H : Nat) : Int) = (value : Int) * 256 := by ring
        rw [e1, e2]
        have := hH' rfl
        exact ⟨by omega, by omega, by omega, by omega,
          fun hc => ⟨by omega, by omega, by omega, by omega, by omega, by omega⟩⟩

theorem EngineInv_stop_blink (g g1 : Globals) (channel : Nat) (r : esp_err_t)
    (hinv : EngineInv g) (h : iot_led_stop_blink g channel = Except.ok (r, g1)) :
    EngineInv g1 := by
  cases hcfg : g.g_light_config with
  | none =>
    simp [iot_led_stop_blink, LIGHT_ERROR_CHECK, hcfg] at h
    rw [← h.2]; exact hinv
  | some cfg =>
    cases hfd : cfg.fade_data[channel]? with
    | none => simp [iot_led_stop_blink, LIGHT_ERROR_CHECK, hcfg, hfd] at h
    | some fd =>
      simp only [iot_led_stop_blink, LIGHT_ERROR_CHECK, hcfg, hfd, Option.isNone_some,
        Bool.false_eq_true, if_false, Except.ok.injEq, Prod.mk.injEq] at h
      have hfdinv := hinv cfg hcfg fd (List.getElem?_mem hfd)
      rw [← h.2]
      refine EngineInv_of_config _ _ rfl (FadeInv_set _ _ _ (hinv cfg hcfg) ?_)
      unfold FadeInv
      simp only [Nat.cast_zero, zero_mul, add_zero]
      exact ⟨hfdinv.1, hfdinv.2.1, hfdinv.1, hfdinv.2.1, fun hc => absurd rfl hc⟩

theorem EngineInv_reachable (D : Nat) (hD : 0 < D) (g : Globals) (hr : Reachable D g) :
    EngineInv g := by
  induction hr with
  | init g cfg hcfg hz =>
    refine EngineInv_of_config g cfg hcfg ?_
    intro fd hfd
    rw [hz fd hfd]
    unfold FadeInv
    simp
  | step g g1 _ hs ih =>
    cases hs with
    | set_channel channel value fade_ms r hv h =>
      exact EngineInv_set_channel D hD g g1 channel value fade_ms r hv ih h
    | start_blink channel value period_ms fade_flag r hv hp hH h =>
      exact EngineInv_start_blink D hD g g1 channel value period_ms fade_flag r hv hp hH ih h
    | stop_blink channel r h => exact EngineInv_stop_blink g g1 channel r ih h
    | tick h => exact EngineInv_fade_timercb D g g1 ih h

/-! ## Remainder of a truncated step -/

/-- The part of `a` that `N` truncated steps leave uncovered is `|a| % N`. -/
theorem natAbs_sub_mul_tdiv (a : Int) (N : Nat) :
    (a - (N : Int) * Int.tdiv a N).natAbs = a.natAbs % N := by
  have key : ∀ m : Nat, ((m : Int) - (N : Int) * Int.tdiv (m : Int) N) = ((m % N : Nat) : Int) := by
    intro m
    rw [← Int.ofNat_tdiv]
    have := Nat.mod_add_div m N
    have hI : ((m % N : Nat) : Int) + (N : Int) * ((m / N : Nat) : Int) = (m : Int) := by
      exact_mod_cast this
    linarith
  obtain ⟨m, rfl | rfl⟩ := Int.eq_nat_or_neg a
  · rw [key, Int.natAbs_ofNat, Int.natAbs_ofNat]
  · have e : -(m : Int) - (N : Int) * Int.tdiv (-(m : Int)) N
        = -((m : Int) - (N : Int) * Int.tdiv (m : Int) N) := by
      rw [Int.neg_tdiv]
      ring
    rw [e, key, Int.natAbs_neg, Int.natAbs_neg, Int.natAbs_ofNat, Int.natAbs_ofNat]

/-! ## Timer flag -/

theorem fade_channel_idle (D : Nat) (tbl : List Nat) (sm ch : Nat) (fd : ledc_fade_data_t) :
    (fade_channel D tbl sm ch fd).idle = true ↔ fd.num = 0 ∧ fd.cycle = 0 := by
  unfold fade_channel
  split_ifs with h1 h2 h3
  · simp; omega
  · simp; omega
  · simp; intro _; exact h3
  · simp; exact ⟨by omega, not_not.mp h3⟩

theorem fade_loop_idle_le (D : Nat) (tbl : List Nat) (sm : Nat) (l : List ledc_fade_data_t) :
    ∀ ch, (fade_loop D tbl sm ch l).idle_channel_num ≤ l.length := by
  induction l with
  | nil => intro ch; simp [fade_loop]
  | cons fd rest ih =>
    intro ch
    have := ih (ch + 1)
    simp only [fade_loop, List.length_cons]
    split_ifs <;> omega

theorem fade_loop_idle_all (D : Nat) (tbl : List Nat) (sm : Nat) (l : List ledc_fade_data_t) :
    ∀ ch, (fade_loop D tbl sm ch l).idle_channel_num ≥ l.length ↔
      ∀ fd ∈ l, fd.num = 0 ∧ fd.cycle = 0 := by
  induction l with
  | nil => intro ch; simp [fade_loop]
  | cons fd rest ih =>
    intro ch
    have hle := fade_loop_idle_le D tbl sm rest (ch + 1)
    have hrest := ih (ch + 1)
    have hidle := fade_channel_idle D tbl sm ch fd
    simp only [fade_loop, List.length_cons, List.mem_cons, forall_eq_or_imp]
    split_ifs with hi
    · rw [← hrest]
      constructor
      · intro h; exact ⟨hidle.mp hi, by omega⟩
      · intro h; have := h.2; omega
    · constructor
      · intro h; omega
      · intro h; exact absurd (hidle.mpr h.1) hi

/-- The timer flag after a tick: cleared when every channel is idle, left alone
otherwise. -/
theorem fade_timercb_timer (D : Nat) (g g1 : Globals) (cfg : iot_light_t)
    (hcfg : g.g_light_config = some cfg) (h : fade_timercb D g = Except.ok g1) :
    g1.g_light_config = some { cfg with fade_data := cfg.fade_data.map fade_step } ∧
    ((∀ fd ∈ cfg.fade_data, fd.num = 0 ∧ fd.cycle = 0) → g1.g_hw_timer_started = false) ∧
    (¬ (∀ fd ∈ cfg.fade_data, fd.num = 0 ∧ fd.cycle = 0) →
      g1.g_hw_timer_started = g.g_hw_timer_started) := by
  cases htbl : g.g_gamma_table with
  | none => simp [fade_timercb, hcfg, htbl] at h
  | some tbl =>
    have hall := fade_loop_idle_all D tbl cfg.speed_mode cfg.fade_data 0
    unfold fade_timercb at h
    rw [hcfg, htbl] at h
    simp only [fade_loop_fade_data] at h
    split_ifs at h with hc
    · cases h
      exact ⟨rfl, fun _ => rfl, fun hn => absurd (hall.mp hc) hn⟩
    · cases h
      exact ⟨rfl, fun ha => absurd (hall.mpr ha) hc, fun _ => rfl⟩

theorem fade_step_of_idle (fd : ledc_fade_data_t) (h : fd.num = 0 ∧ fd.cycle = 0) :
    fade_step fd = fd := by
  obtain ⟨c, f, s, cy, n⟩ := fd
  obtain ⟨hn, hc⟩ := h
  simp only at hn hc
  subst hn; subst hc
  exact fade_step_idle c f s

theorem set_channel_timer (D : Nat) (g g1 : Globals) (channel value fade_ms : Nat)
    (r : esp_err_t) (h : iot_led_set_channel D g channel value fade_ms = Except.ok (r, g1)) :
    g1 = g ∨ g1.g_hw_timer_started = true := by
  cases hcfg : g.g_light_config with
  | none =>
    simp [iot_led_set_channel, LIGHT_ERROR_CHECK, hcfg] at h
    exact Or.inl h.2.symm
  | some cfg =>
    cases hfd : cfg.fade_data[channel]? with
    | none => simp [iot_led_set_channel, LIGHT_ERROR_CHECK, hcfg, hfd] at h
    | some fd =>
      rcases Nat.eq_zero_or_pos D with hD | hD
      · subst hD
        simp [iot_led_set_channel, LIGHT_ERROR_CHECK, hcfg, hfd] at h
      · obtain ⟨g2, s, k1, _, k3, _⟩ :=
          set_channel_ok D g cfg channel fd value fade_ms hD hcfg hfd
        rw [k1] at h
        cases h
        exact Or.inr k3

theorem start_blink_timer (D : Nat) (g g1 : Globals) (channel value period_ms : Nat)
    (fade_flag : Bool) (r : esp_err_t)
    (h : iot_led_start_blink D g channel value period_ms fade_flag = Except.ok (r, g1)) :
    g1 = g ∨ g1.g_hw_timer_started = true := by
  cases hcfg : g.g_light_config with
  | none =>
    simp [iot_led_start_blink, LIGHT_ERROR_CHECK, hcfg] at h
    exact Or.inl h.2.symm
  | some cfg =>
    cases hfd : cfg.fade_data[channel]? with
    | none => simp [iot_led_start_blink, LIGHT_ERROR_CHECK, hcfg, hfd] at h
    | some fd =>
      right
      unfold iot_led_start_blink LIGHT_ERROR_CHECK at h
      simp only [hcfg, hfd, Option.isNone_some, Bool.false_eq_true, if_false] at h
      split_ifs at h with hD hz hT
      all_goals first
        | (cases h; rfl)
        | (cases h; simpa using hT)
        | (cases h; simp_all)

theorem TimerInv_step (D : Nat) (g g1 : Globals) (hinv : TimerInv g) (hs : TimerStep D g g1) :
    TimerInv g1 := by
  cases hs with
  | set_channel channel value fade_ms r h =>
    rcases set_channel_timer D g g1 channel value fade_ms r h with e | e
    · rw [e]; exact hinv
    · intro _ _ _ _ _; exact e
  | start_blink channel value period_ms fade_flag r h =>
    rcases start_blink_timer D g g1 channel value period_ms fade_flag r h with e | e
    · rw [e]; exact hinv
    · intro _ _ _ _ _; exact e
  | stop_blink channel r h =>
    cases hcfg : g.g_light_config with
    | none =>
      simp [iot_led_stop_blink, LIGHT_ERROR_CHECK, hcfg] at h
      rw [← h.2]; exact hinv
    | some cfg =>
      cases hfd : cfg.fade_data[channel]? with
      | none => simp [iot_led_stop_blink, LIGHT_ERROR_CHECK, hcfg, hfd] at h
      | some fd =>
        simp only [iot_led_stop_blink, LIGHT_ERROR_CHECK, hcfg, hfd, Option.isNone_some,
          Bool.false_eq_true, if_false, Except.ok.injEq, Prod.mk.injEq] at h
        rw [← h.2]
        intro cfg1 h1 x hx hne
        simp only [Option.some.injEq] at h1
        rw [← h1] at hx
        rcases List.mem_or_eq_of_mem_set hx with hm | hm
        · exact hinv cfg hcfg x hm hne
        · rw [hm] at hne
          simp at hne
  | tick ht h =>
    cases hcfg : g.g_light_config with
    | none => simp [fade_timercb, hcfg] at h
    | some cfg =>
      obtain ⟨k1, k2, k3⟩ := fade_timercb_timer D g g1 cfg hcfg h
      intro cfg1 h1 x hx hne
      rw [k1] at h1
      simp only [Option.some.injEq] at h1
      rw [← h1] at hx
      obtain ⟨y, hy, rfl⟩ := List.mem_map.mp hx
      have hnot : ¬ (∀ fd ∈ cfg.fade_data, fd.num = 0 ∧ fd.cycle = 0) := by
        intro hall
        rw [fade_step_of_idle y (hall y hy)] at hne
        have := hall y hy
        omega
      rw [k3 hnot]
      exact ht

theorem TimerInv_reachable (D : Nat) (g : Globals) (hr : TimerReachable D g) : TimerInv g := by
  induction hr with
  | init g cfg hcfg hz ht =>
    intro cfg1 h1 fd hfd hne
    rw [hcfg] at h1
    cases h1
    rw [hz fd hfd] at hne
    simp at hne
  | step g g1 _ hs ih => exact TimerInv_step D g g1 ih hs

theorem demo_fading_reachable : TimerReachable 10 demo_fading :=
  TimerReachable.step demo_engine demo_fading
    (TimerReachable.init demo_engine demo_config rfl (by decide) rfl)
    (TimerStep.set_channel _ _ 0 255 0 ESP_OK rfl)

theorem demo_settled_reachable : TimerReachable 10 demo_settled :=
  TimerReachable.step demo_fading demo_settled demo_fading_reachable
    (TimerStep.tick _ _ rfl rfl)

/-! ## Gamma lookup lemmas -/

theorem LEDC_VALUE_TO_DUTY_eq (x : Nat) (hx : x ≤ 65535) :
    toUInt32 (LEDC_VALUE_TO_DUTY x) % 65536 = scale_to_duty x := by
  unfold LEDC_VALUE_TO_DUTY scale_to_duty LEDC_TIMER_PRECISION UINT16_MAX
  have h1 : toInt32 ((x : Int) * 2 ^ 13) = ((x * 2 ^ 13 : Nat) : Int) := by
    rw [toInt32_eq _ (by omega) (by omega)]
    push_cast; ring
  rw [h1, ← Int.ofNat_tdiv]
  unfold toUInt32
  omega

theorem scale_to_duty_le (x : Nat) (hx : x ≤ 65535) : scale_to_duty x ≤ 8192 := by
  unfold scale_to_duty LEDC_TIMER_PRECISION UINT16_MAX
  omega

theorem scale_to_duty_mono (x y : Nat) (h : x ≤ y) : scale_to_duty x ≤ scale_to_duty y := by
  unfold scale_to_duty
  exact Nat.div_le_div_right (Nat.mul_le_mul_right _ h)

theorem getD_le_of_forall (l : List Nat) (b : Nat) (h : ∀ x ∈ l, x ≤ b) (i : Nat) :
    l.getD i 0 ≤ b := by
  rw [List.getD_eq_getElem?_getD]
  cases hi : l[i]? with
  | none => simp
  | some x => simpa using h x (List.getElem?_mem hi)

/-! ## Hardware ramp plan lemmas -/

theorem toUInt32_natCast (n : Nat) (h : n < 4294967296) : toUInt32 (n : Int) = n := by
  unfold toUInt32; omega

theorem toUInt32_1023 : toUInt32 (1023 : Int) = 1023 := by decide

theorem shift_left_4 (n : Nat) (h : n ≤ 8192) :
    toInt32 (((n * 16 % 4294967296 : Nat)) : Int) = (n : Int) * 16 := by
  unfold toInt32; omega

/-- The two outcomes of the ramp planning for a distance `d` covered with
steps of `s`, `n` being the quotient `d / s`: the direction-independent part of
`_iot_set_fade_with_step`. -/
theorem set_fade_with_step_config_plan (cur target d s n : Nat) (dir c : Int)
    (hcur : cur ≤ 8192) (ht : target ≤ 8192) (hd : d ≤ 8192) (hs1 : 1 ≤ s) (hs2 : s ≤ 1023)
    (hn : n = d / s) :
    set_fade_with_step_config cur target dir
      (if toInt32 (n : Int) > 1023 then 1023 else toInt32 (n : Int)) c
      (if (if toInt32 (n : Int) > 1023 then 1023 else toInt32 (n : Int)) = 1023 then
          toInt32 ((d / toUInt32
            (if toInt32 (n : Int) > 1023 then 1023 else toInt32 (n : Int)) : Nat) : Int)
        else (s : Int))
      = if n = 0 then ⟨-1, (target : Int) * 16, toUInt32 dir, 0, 1, 0⟩
        else if 1023 ≤ n then ⟨-1, (cur : Int) * 16, toUInt32 dir, 1023, toUInt32 c, d / 1023⟩
        else ⟨-1, (cur : Int) * 16, toUInt32 dir, n, toUInt32 c, s⟩ := by
  have hq : n ≤ d := by rw [hn]; exact Nat.div_le_self _ _
  have hq3 : 1023 ≤ n → 1 ≤ d / 1023 := by
    intro h
    omega
  have hb : d / 1023 ≤ 8 := by omega
  have hn0' : n = 0 → ¬ ((n : Int) > 1023) ∧ ¬ ((n : Int) = 1023) ∧ ¬ ((s : Int) > 0 ∧ (n : Int) > 0) := by
    intro h; omega
  have hmid : n ≠ 0 → ¬ 1023 ≤ n →
      ¬ ((n : Int) > 1023) ∧ ¬ ((n : Int) = 1023) ∧ ((s : Int) > 0 ∧ (n : Int) > 0) := by
    intro h1 h2; omega
  have hbig : 1023 ≤ n → ((d / 1023 : Nat) : Int) > 0 ∧ (1023 : Int) > 0 := by
    intro h; have := hq3 h; omega
  have hsplit : 1023 ≤ n → ¬ ((n : Int) > 1023) → (n : Int) = 1023 := by
    intro h1 h2; omega
  have r1 : -2147483648 ≤ (n : Int) ∧ (n : Int) < 2147483648 := by omega
  have r2 : -2147483648 ≤ ((d / 1023 : Nat) : Int) ∧ ((d / 1023 : Nat) : Int) < 2147483648 := by
    omega
  have r3 : n < 4294967296 ∧ s < 4294967296 ∧ d / 1023 < 4294967296 := by omega
  unfold set_fade_with_step_config
  rw [toInt32_eq _ r1.1 r1.2, shift_left_4 cur hcur, shift_left_4 target ht]
  by_cases hn0 : n = 0
  · obtain ⟨k1, k2, k3⟩ := hn0' hn0
    rw [if_pos hn0, if_neg k1, if_neg k2, if_neg k3]
  · rw [if_neg hn0]
    by_cases hge : 1023 ≤ n
    · obtain ⟨k1, k2⟩ := hbig hge
      rw [if_pos hge]
      by_cases hgt : (n : Int) > 1023
      · rw [if_pos hgt, if_pos rfl, toUInt32_1023,
          toInt32_eq _ r2.1 r2.2, if_pos ⟨k1, k2⟩, toUInt32_natCast _ r3.2.2]
      · have hn' := hsplit hge hgt
        rw [if_neg hgt, if_pos hn', hn', toUInt32_1023,
          toInt32_eq _ r2.1 r2.2, if_pos ⟨k1, k2⟩, toUInt32_natCast _ r3.2.2]
    · obtain ⟨k1, k2, k3⟩ := hmid hn0 hge
      rw [if_neg hge, if_neg k1, if_neg k2, if_pos k3, toUInt32_natCast _ r3.1,
        toUInt32_natCast _ r3.2.1]

theorem set_fade_with_step_pos (duty_read target_duty s : Nat) (c : Int)
    (hcur : duty_read / 16 ≤ 8192) (ht : target_duty ≤ 8192) (hs1 : 1 ≤ s) (hs2 : s ≤ 1023) :
    _iot_set_fade_with_step duty_read target_duty (s : Int) c
      = ramp_plan (duty_read / 16) target_duty (duty_distance duty_read target_duty) s
          (duty_dir duty_read target_duty) c := by
  have hpos : (s : Int) > 0 := by omega
  have hs3 : s < 4294967296 := by omega
  unfold _iot_set_fade_with_step ramp_plan
  simp only []
  rw [if_pos hpos, toUInt32_natCast s hs3]
  by_cases hgt : duty_read / 16 > target_duty
  · have hnlt : ¬ target_duty > duty_read / 16 := by omega
    have hdir : duty_dir duty_read target_duty = LEDC_DUTY_DIR_DECREASE := by
      unfold duty_dir; rw [if_pos hgt]
    have hdist : duty_distance duty_read target_duty = duty_read / 16 - target_duty := by
      unfold duty_distance; rw [if_neg hnlt]
    rw [if_pos hgt, hdir, hdist]
    exact set_fade_with_step_config_plan (duty_read / 16) target_duty
      (duty_read / 16 - target_duty) s _ _ c hcur ht (by omega) hs1 hs2 rfl
  · have hdir : duty_dir duty_read target_duty = LEDC_DUTY_DIR_INCREASE := by
      unfold duty_dir; rw [if_neg hgt]
    have hdist : duty_distance duty_read target_duty = target_duty - duty_read / 16 := by
      unfold duty_distance
      by_cases hlt : target_duty > duty_read / 16
      · rw [if_pos hlt]
      · rw [if_neg hlt]; omega
    rw [if_neg hgt, hdir, hdist]
    exact set_fade_with_step_config_plan (duty_read / 16) target_duty
      (target_duty - duty_read / 16) s _ _ c hcur ht (by omega) hs1 hs2 rfl

theorem set_fade_with_step_zero (duty_read target_duty : Nat) (ht : target_duty ≤ 8192) :
    _iot_set_fade_with_step duty_read target_duty 0 0
      = ⟨-1, (target_duty : Int) * 16, 0, 0, 1, 0⟩ := by
  unfold _iot_set_fade_with_step set_fade_with_step_config
  simp only []
  rw [if_neg (by norm_num), if_neg (by norm_num), shift_left_4 target_duty ht]
  rfl

theorem duty_distance_le (duty_read target_duty : Nat) (hcur : duty_read / 16 ≤ 8192)
    (ht : target_duty ≤ 8192) : duty_distance duty_read target_duty ≤ 8192 := by
  unfold duty_distance
  split_ifs <;> omega

theorem clamp_1023 (n : Nat) (h : n < 2147483648) :
    (if toInt32 (n : Int) > 1023 then (1023 : Int) else toInt32 (n : Int))
      = ((min n 1023 : Nat) : Int) := by
  rw [toInt32_eq _ (by omega) (by omega)]
  split_ifs <;> omega

/-- The plan of `_iot_set_fade_with_time` for duties in `0..8192` and a cycle
budget `t`: an immediate write when the distance or the budget is 0, steps of 1
when the budget exceeds the distance, one cycle per step otherwise. -/
theorem set_fade_with_time_tail_plan (duty_read target_duty t : Nat)
    (hcur : duty_read / 16 ≤ 8192) (ht : target_duty ≤ 8192) (htl : t < 2147483648) :
    _iot_set_fade_with_time_tail duty_read target_duty (t : Int)
      = if duty_distance duty_read target_duty = 0 ∨ t = 0 then
          ⟨-1, (target_duty : Int) * 16, 0, 0, 1, 0⟩
        else if t > duty_distance duty_read target_duty then
          ramp_plan (duty_read / 16) target_duty (duty_distance duty_read target_duty) 1
            (duty_dir duty_read target_duty)
            ((min (t / duty_distance duty_read target_duty) 1023 : Nat) : Int)
        else
          ramp_plan (duty_read / 16) target_duty (duty_distance duty_read target_duty)
            (min (duty_distance duty_read target_duty / t) 1023)
            (duty_dir duty_read target_duty) 1 := by
  have hd := duty_distance_le duty_read target_duty hcur ht
  have hfold : (if target_duty > duty_read / 16 then target_duty - duty_read / 16
      else duty_read / 16 - target_duty) = duty_distance duty_read target_duty := rfl
  unfold _iot_set_fade_with_time_tail
  simp only []
  rw [hfold, toUInt32_natCast t (by omega)]
  unfold LEDC_DUTY_NUM_LSCH0_V LEDC_DUTY_SCALE_LSCH0_V
  generalize hdd : duty_distance duty_read target_duty = d at hd ⊢
  by_cases hd0 : d = 0
  · rw [if_pos hd0, if_pos (Or.inl hd0), set_fade_with_step_zero _ _ ht]
  · rw [if_neg hd0]
    by_cases ht0 : t = 0
    · have htI : (t : Int) = 0 := by omega
      rw [if_pos htI, if_pos (Or.inr ht0), set_fade_with_step_zero _ _ ht]
    · have htI : ¬ (t : Int) = 0 := by omega
      have hor : ¬ (d = 0 ∨ t = 0) := by omega
      rw [if_neg htI, if_neg hor]
      by_cases hgt : t > d
      · have hq : t / d < 2147483648 := lt_of_le_of_lt (Nat.div_le_self _ _) htl
        have h1 := set_fade_with_step_pos duty_read target_duty 1
          ((min (t / d) 1023 : Nat) : Int) hcur ht le_rfl (by norm_num)
        rw [Nat.cast_one, hdd] at h1
        rw [if_pos hgt, clamp_1023 _ hq, h1, if_pos hgt]
      · have hq : d / t < 2147483648 := lt_of_le_of_lt (Nat.div_le_self _ _) (by omega)
        have hq1 : 1 ≤ d / t := Nat.div_pos (by omega) (by omega)
        have h1 := set_fade_with_step_pos duty_read target_duty (min (d / t) 1023) 1 hcur ht
          (by omega) (by omega)
        rw [hdd] at h1
        rw [if_neg hgt, clamp_1023 _ hq, h1, if_neg hgt]

/-- What every outcome of the ramp planning satisfies. -/
theorem ramp_plan_facts (cur target d s : Nat) (dir c : Int) (hs1 : 1 ≤ s) (hs2 : s ≤ 1023)
    (hd : d ≤ 8192) :
    (ramp_plan cur target d s dir c).duty_direction = toUInt32 dir ∧
    (ramp_plan cur target d s dir c).duty_scale ≤ 1023 ∧
    (ramp_plan cur target d s dir c).duty_num ≤ 1023 ∧
    ((ramp_plan cur target d s dir c).duty_cycle = 1 ∨
      (ramp_plan cur target d s dir c).duty_cycle = toUInt32 c) ∧
    (0 < (ramp_plan cur target d s dir c).duty_scale ∧
      0 < (ramp_plan cur target d s dir c).duty_num →
        (ramp_plan cur target d s dir c).duty_scale * (ramp_plan cur target d s dir c).duty_num ≤ d ∧
        d - (ramp_plan cur target d s dir c).duty_scale * (ramp_plan cur target d s dir c).duty_num
          = (if (ramp_plan cur target d s dir c).duty_num = 1023 then d % 1023
             else d % (ramp_plan cur target d s dir c).duty_scale) ∧
        (ramp_plan cur target d s dir c).duty_val = (cur : Int) * 16) ∧
    (¬ (0 < (ramp_plan cur target d s dir c).duty_scale ∧
        0 < (ramp_plan cur target d s dir c).duty_num) →
        (ramp_plan cur target d s dir c).duty_val = (target : Int) * 16 ∧
        (ramp_plan cur target d s dir c).duty_num = 0) := by
  have hm := Nat.div_add_mod d s
  have hm2 := Nat.div_add_mod d 1023
  have hq : d / s ≤ d := Nat.div_le_self _ _
  have hmul : s * (d / s) ≤ d := Nat.mul_div_le d s
  have hmul2 : d / 1023 * 1023 ≤ d := Nat.div_mul_le_self d 1023
  have hmod : d - s * (d / s) = d % s := by
    generalize d / s = n at hm; generalize s * n = p at hm; omega
  have hmod2 : d - d / 1023 * 1023 = d % 1023 := by omega
  unfold ramp_plan
  by_cases h0 : d / s = 0
  · rw [if_pos h0]
    simp
  · rw [if_neg h0]
    by_cases hge : 1023 ≤ d / s
    · rw [if_pos hge]
      dsimp only
      have hq1 : 1 ≤ d / 1023 := by omega
      refine ⟨rfl, by omega, le_rfl, Or.inr rfl, fun _ => ⟨hmul2, ?_, rfl⟩, fun h => ?_⟩
      · rw [if_pos rfl]; exact hmod2
      · exact absurd ⟨by omega, by omega⟩ h
    · rw [if_neg hge]
      dsimp only
      have hne : ¬ d / s = 1023 := fun h => hge (le_of_eq h.symm)
      have hpos : 0 < d / s := Nat.pos_of_ne_zero h0
      have hlt : d / s ≤ 1023 := le_of_lt (lt_of_not_le hge)
      refine ⟨rfl, hs2, hlt, Or.inr rfl, fun _ => ⟨hmul, ?_, rfl⟩, fun h => ?_⟩
      · rw [if_neg hne]; exact hmod
      · exact absurd ⟨by omega, hpos⟩ h

theorem toUInt32_dir (duty_read target_duty : Nat) :
    toUInt32 (duty_dir duty_read target_duty)
      = if duty_read / 16 > target_duty then 0 else 1 := by
  unfold duty_dir LEDC_DUTY_DIR_DECREASE LEDC_DUTY_DIR_INCREASE
  split_ifs <;> decide

theorem toUInt32_min_1023 (n : Nat) : toUInt32 ((min n 1023 : Nat) : Int) = min n 1023 :=
  toUInt32_natCast _ (lt_of_le_of_lt (min_le_right _ _) (by norm_num))

theorem toUInt32_one : toUInt32 (1 : Int) = 1 := by decide

/-- With a duty resolution below 32 bits and a nonzero clock divider,
`_iot_set_fade_with_time` plans from a cycle budget between 0 and 4294967. -/
theorem set_fade_with_time_budget (LEDC_APB_CLK LEDC_APB_CLK_HZ LEDC_REF_CLK_HZ : Nat)
    (conf : LedcTimerConf) (duty_read target_duty : Nat) (max_fade_time_ms : Int)
    (hres : conf.duty_resolution < 32) (hdiv : conf.clock_divider ≠ 0) :
    ∃ t : Nat, t ≤ 4294967 ∧
      _iot_set_fade_with_time LEDC_APB_CLK LEDC_APB_CLK_HZ LEDC_REF_CLK_HZ conf duty_read
          target_duty max_fade_time_ms
        = Except.ok (_iot_set_fade_with_time_tail duty_read target_duty (t : Int)) := by
  have hp : 2 ^ conf.duty_resolution < 4294967296 := by
    have : 2 ^ conf.duty_resolution < 2 ^ 32 := Nat.pow_lt_pow_right (by norm_num) hres
    simpa using this
  have hp0 : ¬ (2 ^ conf.duty_resolution % 4294967296 = 0 ∨ conf.clock_divider = 0) := by
    rw [Nat.mod_eq_of_lt hp]
    have : 0 < 2 ^ conf.duty_resolution := Nat.pow_pos (by norm_num)
    omega
  refine ⟨toUInt32 max_fade_time_ms *
    ((if conf.tick_sel = LEDC_APB_CLK then LEDC_APB_CLK_HZ else LEDC_REF_CLK_HZ) * 2 ^ 8
      % 18446744073709551616 / (2 ^ conf.duty_resolution % 4294967296) / conf.clock_divider
      % 4294967296) % 4294967296 / 1000, ?_, ?_⟩
  · omega
  · unfold _iot_set_fade_with_time
    simp only [if_neg hp0]
    generalize toUInt32 max_fade_time_ms *
      ((if conf.tick_sel = LEDC_APB_CLK then LEDC_APB_CLK_HZ else LEDC_REF_CLK_HZ) * 2 ^ 8
        % 18446744073709551616 / (2 ^ conf.duty_resolution % 4294967296) / conf.clock_divider
        % 4294967296) = p
    rw [toInt32_eq _ (by omega) (by omega)]

/-! ## Gamma lookup: bounds and monotonicity -/

theorem gamma_lookup_eq (gamma_table : List Nat) (q r : Nat)
    (hq : q ≤ 255) (hr : r ≤ 255)
    (h16 : ∀ x ∈ gamma_table, x ≤ 65535)
    (hmono : ∀ i, i < 255 → gamma_table.getD i 0 ≤ gamma_table.getD (i + 1) 0) :
    gamma_value_to_duty gamma_table ((q : Int) * 256 + r) = lookup_form gamma_table q r := by
  replace h16 := getD_le_of_forall gamma_table 65535 h16
  have hq' : toUInt32 (GET_FIXED_INTEGER_PART ((q : Int) * 256 + r) LEDC_FIXED_Q) = q := by
    unfold GET_FIXED_INTEGER_PART LEDC_FIXED_Q toUInt32
    omega
  have hr' : GET_FIXED_DECIMAL_PART ((q : Int) * 256 + r) LEDC_FIXED_Q = r := by
    unfold GET_FIXED_DECIMAL_PART LEDC_FIXED_Q toUInt32
    omega
  unfold gamma_value_to_duty lookup_form
  simp only [hq', hr', LEDC_VALUE_TO_DUTY_eq _ (h16 _)]
  have hG : GAMMA_TABLE_SIZE - 1 = 255 := rfl
  rw [hG]
  have hA := scale_to_duty_le _ (h16 q)
  split_ifs with hlt
  · have hB := scale_to_duty_le _ (h16 (q + 1))
    have hAB := scale_to_duty_mono _ _ (hmono q hlt)
    generalize scale_to_duty (gamma_table.getD q 0) = A at hA hAB ⊢
    generalize scale_to_duty (gamma_table.getD (q + 1) 0) = B at hB hAB ⊢
    have e1 : toUInt32 ((B : Int) - (A : Int)) = B - A := by
      unfold toUInt32; omega
    rw [e1]
    have hP : (B - A) * r ≤ 8192 * 255 := Nat.mul_le_mul (by omega) hr
    generalize (B - A) * r = P at hP ⊢
    unfold LEDC_FIXED_Q
    omega
  · have hq255 : q = 255 := by omega
    subst hq255
    generalize scale_to_duty (gamma_table.getD 255 0) = A at hA ⊢
    have e1 : toUInt32 ((A : Int) - (A : Int)) = 0 := by
      unfold toUInt32; omega
    rw [e1]
    unfold LEDC_FIXED_Q
    omega

/-- A table that does not decrease from one index to the next does not decrease
over any stretch of indices up to 255. -/
theorem table_mono (gamma_table : List Nat)
    (hmono : ∀ i, i < 255 → gamma_table.getD i 0 ≤ gamma_table.getD (i + 1) 0)
    (i j : Nat) (hij : i ≤ j) (hj : j ≤ 255) :
    gamma_table.getD i 0 ≤ gamma_table.getD j 0 := by
  induction j with
  | zero =>
    have : i = 0 := by omega
    subst this; exact le_rfl
  | succ k ih =>
    by_cases h : i = k + 1
    · subst h; exact le_rfl
    · exact le_trans (ih (by omega) (by omega)) (hmono k (by omega))

/-- The closed form lies between the scaled entry at `q` and the scaled entry at
`min (q + 1) 255`. -/
theorem lookup_form_bounds (gamma_table : List Nat) (q r : Nat) (hq : q ≤ 255) (hr : r ≤ 255)
    (hmono : ∀ i, i < 255 → gamma_table.getD i 0 ≤ gamma_table.getD (i + 1) 0) :
    scale_to_duty (gamma_table.getD q 0) ≤ lookup_form gamma_table q r ∧
    lookup_form gamma_table q r ≤ scale_to_duty (gamma_table.getD (min (q + 1) 255) 0) := by
  unfold lookup_form
  by_cases hlt : q < 255
  · have hmin : min (q + 1) 255 = q + 1 := by omega
    have hAB := scale_to_duty_mono _ _ (hmono q hlt)
    rw [if_pos hlt, hmin]
    generalize scale_to_duty (gamma_table.getD q 0) = A at hAB ⊢
    generalize scale_to_duty (gamma_table.getD (q + 1) 0) = B at hAB ⊢
    have hP : (B - A) * r ≤ (B - A) * 255 := Nat.mul_le_mul_left _ hr
    generalize (B - A) * r = P at hP ⊢
    omega
  · have hq255 : q = 255 := by omega
    subst hq255
    rw [if_neg hlt]
    exact ⟨le_rfl, le_rfl⟩

/-- The closed form does not decrease along the fixed-point values. -/
theorem lookup_form_mono (gamma_table : List Nat) (q1 r1 q2 r2 : Nat)
    (hq2 : q2 ≤ 255) (hr1 : r1 ≤ 255) (hr2 : r2 ≤ 255)
    (hmono : ∀ i, i < 255 → gamma_table.getD i 0 ≤ gamma_table.getD (i + 1) 0)
    (hle : q1 * 256 + r1 ≤ q2 * 256 + r2) :
    lookup_form gamma_table q1 r1 ≤ lookup_form gamma_table q2 r2 := by
  by_cases hq : q1 = q2
  · subst hq
    have hr : r1 ≤ r2 := by omega
    unfold lookup_form
    split_ifs
    · exact Nat.add_le_add_left (Nat.div_le_div_right (Nat.mul_le_mul_left _ hr)) _
    · exact le_rfl
  · have hlt : q1 < q2 := by omega
    have h1 := (lookup_form_bounds gamma_table q1 r1 (by omega) hr1 hmono).2
    have h2 := (lookup_form_bounds gamma_table q2 r2 hq2 hr2 hmono).1
    have hmin : min (q1 + 1) 255 = q1 + 1 := by omega
    rw [hmin] at h1
    exact le_trans h1 (le_trans
      (scale_to_duty_mono _ _ (table_mono gamma_table hmono (q1 + 1) q2 (by omega) hq2)) h2)

/-! ## Hardware ramp plan: no overshoot -/

/-- The lemma `set_fade_with_step_config_plan` for every positive `int` step size. -/
theorem set_fade_with_step_config_wide (cur target d s n : Nat) (dir c : Int)
    (hcur : cur ≤ 8192) (ht : target ≤ 8192) (hd : d ≤ 8192) (hs1 : 1 ≤ s)
    (hs2 : s < 2147483648) (hn : n = d / s) :
    set_fade_with_step_config cur target dir
      (if toInt32 (n : Int) > 1023 then 1023 else toInt32 (n : Int)) c
      (if (if toInt32 (n : Int) > 1023 then 1023 else toInt32 (n : Int)) = 1023 then
          toInt32 ((d / toUInt32
            (if toInt32 (n : Int) > 1023 then 1023 else toInt32 (n : Int)) : Nat) : Int)
        else (s : Int))
      = if n = 0 then ⟨-1, (target : Int) * 16, toUInt32 dir, 0, 1, 0⟩
        else if 1023 ≤ n then ⟨-1, (cur : Int) * 16, toUInt32 dir, 1023, toUInt32 c, d / 1023⟩
        else ⟨-1, (cur : Int) * 16, toUInt32 dir, n, toUInt32 c, s⟩ := by
  have hq : n ≤ d := by rw [hn]; exact Nat.div_le_self _ _
  have hq3 : 1023 ≤ n → 1 ≤ d / 1023 := by
    intro h
    omega
  have hb : d / 1023 ≤ 8 := by omega
  have hn0' : n = 0 →
      ¬ ((n : Int) > 1023) ∧ ¬ ((n : Int) = 1023) ∧ ¬ ((s : Int) > 0 ∧ (n : Int) > 0) := by
    intro h; omega
  have hmid : n ≠ 0 → ¬ 1023 ≤ n →
      ¬ ((n : Int) > 1023) ∧ ¬ ((n : Int) = 1023) ∧ ((s : Int) > 0 ∧ (n : Int) > 0) := by
    intro h1 h2; omega
  have hbig : 1023 ≤ n → ((d / 1023 : Nat) : Int) > 0 ∧ (1023 : Int) > 0 := by
    intro h; have := hq3 h; omega
  have hsplit : 1023 ≤ n → ¬ ((n : Int) > 1023) → (n : Int) = 1023 := by
    intro h1 h2; omega
  have r1 : -2147483648 ≤ (n : Int) ∧ (n : Int) < 2147483648 := by omega
  have r2 : -2147483648 ≤ ((d / 1023 : Nat) : Int) ∧ ((d / 1023 : Nat) : Int) < 2147483648 := by
    omega
  have r3 : n < 4294967296 ∧ s < 4294967296 ∧ d / 1023 < 4294967296 := by omega
  unfold set_fade_with_step_config
  rw [toInt32_eq _ r1.1 r1.2, shift_left_4 cur hcur, shift_left_4 target ht]
  by_cases hn0 : n = 0
  · obtain ⟨k1, k2, k3⟩ := hn0' hn0
    rw [if_pos hn0, if_neg k1, if_neg k2, if_neg k3]
  · rw [if_neg hn0]
    by_cases hge : 1023 ≤ n
    · obtain ⟨k1, k2⟩ := hbig hge
      rw [if_pos hge]
      by_cases hgt : (n : Int) > 1023
      · rw [if_pos hgt, if_pos rfl, toUInt32_1023,
          toInt32_eq _ r2.1 r2.2, if_pos ⟨k1, k2⟩, toUInt32_natCast _ r3.2.2]
      · have hn' := hsplit hge hgt
        rw [if_neg hgt, if_pos hn', hn', toUInt32_1023,
          toInt32_eq _ r2.1 r2.2, if_pos ⟨k1, k2⟩, toUInt32_natCast _ r3.2.2]
    · obtain ⟨k1, k2, k3⟩ := hmid hn0 hge
      rw [if_neg hge, if_neg k1, if_neg k2, if_pos k3, toUInt32_natCast _ r3.1,
        toUInt32_natCast _ r3.2.1]

/-- The lemma `set_fade_with_step_pos` for every positive `int` step size. -/
theorem set_fade_with_step_wide (duty_read target_duty s : Nat) (c : Int)
    (hcur : duty_read / 16 ≤ 8192) (ht : target_duty ≤ 8192) (hs1 : 1 ≤ s)
    (hs2 : s < 2147483648) :
    _iot_set_fade_with_step duty_read target_duty (s : Int) c
      = ramp_plan (duty_read / 16) target_duty (duty_distance duty_read target_duty) s
          (duty_dir duty_read target_duty) c := by
  have hpos : (s : Int) > 0 := by omega
  have hs3 : s < 4294967296 := by omega
  unfold _iot_set_fade_with_step ramp_plan
  simp only []
  rw [if_pos hpos, toUInt32_natCast s hs3]
  by_cases hgt : duty_read / 16 > target_duty
  · have hnlt : ¬ target_duty > duty_read / 16 := by omega
    have hdir : duty_dir duty_read target_duty = LEDC_DUTY_DIR_DECREASE := by
      unfold duty_dir; rw [if_pos hgt]
    have hdist : duty_distance duty_read target_duty = duty_read / 16 - target_duty := by
      unfold duty_distance; rw [if_neg hnlt]
    rw [if_pos hgt, hdir, hdist]
    exact set_fade_with_step_config_wide (duty_read / 16) target_duty
      (duty_read / 16 - target_duty) s _ _ c hcur ht (by omega) hs1 hs2 rfl
  · have hdir : duty_dir duty_read target_duty = LEDC_DUTY_DIR_INCREASE := by
      unfold duty_dir; rw [if_neg hgt]
    have hdist : duty_distance duty_read target_duty = target_duty - duty_read / 16 := by
      unfold duty_distance
      by_cases hlt : target_duty > duty_read / 16
      · rw [if_pos hlt]
      · rw [if_neg hlt]; omega
    rw [if_neg hgt, hdir, hdist]
    exact set_fade_with_step_config_wide (duty_read / 16) target_duty
      (target_duty - duty_read / 16) s _ _ c hcur ht (by omega) hs1 hs2 rfl

/-- With a step size of 0 `_iot_set_fade_with_step` writes the target duty,
whatever the cycle count passed. -/
theorem set_fade_with_step_scale_zero (duty_read target_duty : Nat) (c : Int)
    (ht : target_duty ≤ 8192) :
    _iot_set_fade_with_step duty_read target_duty 0 c
      = ⟨-1, (target_duty : Int) * 16, 0, 0, 1, 0⟩ := by
  unfold _iot_set_fade_with_step set_fade_with_step_config
  simp only []
  rw [if_neg (by norm_num), if_neg (by norm_num), shift_left_4 target_duty ht]
  rfl

/-- Every outcome of the ramp planning stays within the distance `d`. -/
theorem ramp_plan_within (cur target d s : Nat) (dir c : Int) (hs1 : 1 ≤ s) :
    (0 < (ramp_plan cur target d s dir c).duty_scale ∧
      0 < (ramp_plan cur target d s dir c).duty_num →
        (ramp_plan cur target d s dir c).duty_scale * (ramp_plan cur target d s dir c).duty_num
          ≤ d ∧
        (ramp_plan cur target d s dir c).duty_val = (cur : Int) * 16) ∧
    (¬ (0 < (ramp_plan cur target d s dir c).duty_scale ∧
        0 < (ramp_plan cur target d s dir c).duty_num) →
        (ramp_plan cur target d s dir c).duty_val = (target : Int) * 16 ∧
        (ramp_plan cur target d s dir c).duty_num = 0) := by
  have hmul : s * (d / s) ≤ d := Nat.mul_div_le d s
  have hmul2 : d / 1023 * 1023 ≤ d := Nat.div_mul_le_self d 1023
  unfold ramp_plan
  by_cases h0 : d / s = 0
  · rw [if_pos h0]
    simp
  · rw [if_neg h0]
    by_cases hge : 1023 ≤ d / s
    · rw [if_pos hge]
      dsimp only
      have hq : d / s ≤ d := Nat.div_le_self _ _
      have hq1 : 1 ≤ d / 1023 := by omega
      exact ⟨fun _ => ⟨hmul2, rfl⟩, fun h => absurd ⟨by omega, by omega⟩ h⟩
    · rw [if_neg hge]
      dsimp only
      have hpos : 0 < d / s := Nat.pos_of_ne_zero h0
      exact ⟨fun _ => ⟨hmul, rfl⟩, fun h => absurd ⟨by omega, hpos⟩ h⟩

/-- The call made by `_iot_set_fade_with_step` never overshoots, for every step
size `scale >= 0` and every cycle count. -/
theorem set_fade_with_step_within (duty_read target_duty : Nat) (scale cycle_num : Int)
    (hcur : duty_read / 16 ≤ 8192) (ht : target_duty ≤ 8192)
    (hs0 : 0 ≤ scale) (hs1 : scale < 2147483648) :
    within_distance duty_read target_duty
      (_iot_set_fade_with_step duty_read target_duty scale cycle_num) := by
  obtain ⟨s, rfl⟩ := Int.eq_ofNat_of_zero_le hs0
  unfold within_distance
  by_cases hz : s = 0
  · subst hz
    rw [Nat.cast_zero, set_fade_with_step_scale_zero duty_read target_duty cycle_num ht]
    exact ⟨fun h => absurd h.1 (Nat.lt_irrefl 0), fun _ => ⟨rfl, rfl⟩⟩
  · rw [set_fade_with_step_wide duty_read target_duty s cycle_num hcur ht (by omega) (by omega)]
    exact ramp_plan_within _ _ _ s _ _ (by omega)

/-- The call planned by `_iot_set_fade_with_time` from a cycle budget never
overshoots. -/
theorem set_fade_with_time_tail_within (duty_read target_duty t : Nat)
    (hcur : duty_read / 16 ≤ 8192) (ht : target_duty ≤ 8192) (htl : t < 2147483648) :
    within_distance duty_read target_duty
      (_iot_set_fade_with_time_tail duty_read target_duty (t : Int)) := by
  unfold within_distance
  rw [set_fade_with_time_tail_plan duty_read target_duty t hcur ht htl]
  by_cases hor : duty_distance duty_read target_duty = 0 ∨ t = 0
  · rw [if_pos hor]
    exact ⟨fun h => absurd h.1 (Nat.lt_irrefl 0), fun _ => ⟨rfl, rfl⟩⟩
  · rw [if_neg hor]
    by_cases hgt : t > duty_distance duty_read target_duty
    · rw [if_pos hgt]
      exact ramp_plan_within _ _ _ 1 _ _ le_rfl
    · have hq1 : 1 ≤ duty_distance duty_read target_duty / t :=
        Nat.div_pos (by omega) (by omega)
      rw [if_neg hgt]
      exact ramp_plan_within _ _ _ _ _ _ (le_min hq1 (by norm_num))

/-! ## The claims -/

/-! ### C1 -/

/-- C1: range invariant.  In every state reachable from zero-initialised channel
records through `iot_led_set_channel`, `iot_led_start_blink`, `iot_led_stop_blink`
and timer ticks, every channel has `0 ≤ cur ≤ 255 * 256`. -/
theorem cur_range_invariant (D : Nat) (hD : 0 < D) (g : Globals) (hr : Reachable D g) :
    ∀ cfg, g.g_light_config = some cfg → ∀ fd ∈ cfg.fade_data, 0 ≤ fd.cur ∧ fd.cur ≤ 255 * 256 := by
  intro cfg hcfg fd hfd
  have h := EngineInv_reachable D hD g hr cfg hcfg fd hfd
  exact ⟨h.1, h.2.1⟩

/-- C1 at a concrete state: one `iot_led_set_channel` and one tick after
initialisation. -/
theorem cur_range_invariant_witness :
    Reachable 10
      { g_light_config := some { fade_data := [⟨327, 32768, 327, 0, 99⟩, ⟨0, 0, 0, 0, 0⟩],
                                 speed_mode := 0, timer_num := 0 }
        g_gamma_table := some demo_table
        g_hw_timer_started := true
        hw := [HwCall.timer_start, HwCall.set_fade_with_time 0 0 40 0, HwCall.update_duty 0 0] } ∧
    (0 ≤ (⟨327, 32768, 327, 0, 99⟩ : ledc_fade_data_t).cur ∧
      (⟨327, 32768, 327, 0, 99⟩ : ledc_fade_data_t).cur ≤ 255 * 256) :=
  have hr : Reachable 10
      { g_light_config := some { fade_data := [⟨327, 32768, 327, 0, 99⟩, ⟨0, 0, 0, 0, 0⟩],
                                 speed_mode := 0, timer_num := 0 }
        g_gamma_table := some demo_table
        g_hw_timer_started := true
        hw := [HwCall.timer_start, HwCall.set_fade_with_time 0 0 40 0, HwCall.update_duty 0 0] } :=
    Reachable.step _ _
      (Reachable.step demo_engine
        { g_light_config := some { fade_data := [⟨0, 32768, 327, 0, 100⟩, ⟨0, 0, 0, 0, 0⟩],
                                   speed_mode := 0, timer_num := 0 }
          g_gamma_table := some demo_table
          g_hw_timer_started := true
          hw := [HwCall.timer_start] }
        (Reachable.init demo_engine demo_config rfl (by decide))
        (EngineStep.set_channel _ _ 0 128 1000 ESP_OK (by decide) rfl))
      (EngineStep.tick _ _ rfl)
  ⟨hr, cur_range_invariant 10 (by decide) _ hr _ rfl _ (by decide)⟩

/-! ### C2 -/

set_option maxRecDepth 1000000 in
/-- C2, counterexample: from `cur = 0`, `iot_led_set_channel(0, 128, 1000)` with a
10 ms tick and 100 ticks leave `cur = 32700`, not `128 * 256 = 32768`, and
`iot_led_get_channel` reports 127. -/
theorem one_shot_fade_misses_target :
    cur_of (run_after 10 (iot_led_set_channel 10 demo_engine 0 128 1000) 100) 0 = some 32700 ∧
    cur_of (run_after 10 (iot_led_set_channel 10 demo_engine 0 128 1000) 100) 0
      ≠ some (128 * 256) ∧
    read_channel (run_after 10 (iot_led_set_channel 10 demo_engine 0 128 1000) 100) 0 (some 0)
      = some (ESP_OK, some 127) := by
  decide

/-- C2, amended: where a one-shot fade ends.  After `iot_led_set_channel` and
`N = max 1 (fade_ms / DUTY_SET_CYCLE)` ticks, `cur` is `final` minus the remainder
of the truncated division of `final - cur0` by `N`; it is `final` exactly when
`N` divides `final - cur0`, and `iot_led_get_channel` reports `cur / 256`. -/
theorem one_shot_fade_final_value (D : Nat) (g : Globals) (cfg : iot_light_t) (tbl : List Nat)
    (channel : Nat) (fd : ledc_fade_data_t) (value fade_ms : Nat)
    (hD : 0 < D) (hcfg : g.g_light_config = some cfg) (htbl : g.g_gamma_table = some tbl)
    (hfd : cfg.fade_data[channel]? = some fd)
    (h0 : 0 ≤ fd.cur) (h1 : fd.cur ≤ 255 * 256) (hv : value ≤ 255) :
    ∃ g1 g2 fd2, iot_led_set_channel D g channel value fade_ms = Except.ok (ESP_OK, g1) ∧
      run_ticks D (max 1 (fade_ms / D)) g1 = Except.ok g2 ∧
      channel_of g2 channel = some fd2 ∧
      fd2.cur = (value : Int) * 256
        - Int.tmod ((value : Int) * 256 - fd.cur) (max 1 (fade_ms / D) : Nat) ∧
      (fd2.cur = (value : Int) * 256 ↔
        ((max 1 (fade_ms / D) : Nat) : Int) ∣ (value : Int) * 256 - fd.cur) ∧
      ∀ d0, iot_led_get_channel g2 channel (some d0)
        = Except.ok (ESP_OK, some (fd2.cur / 256).toNat) := by
  obtain ⟨g1, s, e1, e2, _, e4, e5, e6⟩ := set_channel_ok D g cfg channel fd value fade_ms hD hcfg hfd
  have hs := e6 h0 (by omega) hv
  have hN : 0 < max 1 (fade_ms / D) := by omega
  obtain ⟨g2, r1, r2⟩ := run_ticks_channel D (max 1 (fade_ms / D)) g1 _ tbl channel _ e4
    (e2.trans htbl) e5
  obtain ⟨b1, b2⟩ := tdiv_mul_between ((value : Int) * 256 - fd.cur) _ hN
  have hvI : (value : Int) ≤ 255 := by exact_mod_cast hv
  have hend : 0 ≤ fd.cur + ((max 1 (fade_ms / D) : Nat) : Int) * s ∧
      fd.cur + ((max 1 (fade_ms / D) : Nat) : Int) * s ≤ 65280 := by
    rw [hs]
    rcases le_total 0 ((value : Int) * 256 - fd.cur) with h | h
    · have := b1 h; constructor <;> linarith [this.1, this.2]
    · have := b2 h; constructor <;> linarith [this.1, this.2]
  rw [fade_step_iterate_walk fd.cur _ s 0 _ 0 65280 (by norm_num) (by norm_num) h0 (by omega)
    hend.1 hend.2 _ le_rfl] at r2
  have hcur : fd.cur + ((max 1 (fade_ms / D) : Nat) : Int) * s
      = (value : Int) * 256
        - Int.tmod ((value : Int) * 256 - fd.cur) (max 1 (fade_ms / D) : Nat) := by
    rw [hs, Int.tmod_def]; ring
  refine ⟨g1, g2, _, e1, r1, r2, hcur, ?_, ?_⟩
  · show fd.cur + ((max 1 (fade_ms / D) : Nat) : Int) * s = (value : Int) * 256 ↔ _
    rw [hcur, Int.dvd_iff_tmod_eq_zero]
    constructor <;> intro h <;> linarith
  · intro d0
    rw [get_channel_ok g2 channel _ d0 r2,
      get_channel_value_nat (fd.cur + ((max 1 (fade_ms / D) : Nat) : Int) * s) hend.1
        (by linarith [hend.2])]

/-- C2, amended, at `cur = 0`, `value = 128`, `fade_ms = 1000`, tick 10 ms. -/
theorem one_shot_fade_final_value_witness :
    ∃ g1 g2 fd2, iot_led_set_channel 10 demo_engine 0 128 1000 = Except.ok (ESP_OK, g1) ∧
      run_ticks 10 (max 1 (1000 / 10)) g1 = Except.ok g2 ∧
      channel_of g2 0 = some fd2 ∧
      fd2.cur = ((128 : Nat) : Int) * 256
        - Int.tmod (((128 : Nat) : Int) * 256 - 0) (max 1 (1000 / 10) : Nat) ∧
      (fd2.cur = ((128 : Nat) : Int) * 256 ↔
        ((max 1 (1000 / 10) : Nat) : Int) ∣ ((128 : Nat) : Int) * 256 - 0) ∧
      ∀ d0, iot_led_get_channel g2 0 (some d0)
        = Except.ok (ESP_OK, some (fd2.cur / 256).toNat) :=
  one_shot_fade_final_value 10 demo_engine demo_config demo_table 0 ⟨0, 0, 0, 0, 0⟩ 128 1000
    (by decide) rfl rfl rfl (by decide) (by decide) (by decide)

/-! ### C3 -/

/-- C3: a one-shot fade takes exactly the planned number of ticks.  From every
channel state, after `iot_led_set_channel` and `k` ticks the channel has
`cycle = 0`; its `num` is nonzero while `k < N` and is 0 from `k = N` on, where
`N = max 1 (fade_ms / DUTY_SET_CYCLE)`. -/
theorem one_shot_fade_tick_count (D : Nat) (g : Globals) (cfg : iot_light_t) (tbl : List Nat)
    (channel : Nat) (fd : ledc_fade_data_t) (value fade_ms : Nat)
    (hD : 0 < D) (hcfg : g.g_light_config = some cfg) (htbl : g.g_gamma_table = some tbl)
    (hfd : cfg.fade_data[channel]? = some fd) :
    ∃ g1, iot_led_set_channel D g channel value fade_ms = Except.ok (ESP_OK, g1) ∧
      ∀ k, ∃ g2 fd2, run_ticks D k g1 = Except.ok g2 ∧ channel_of g2 channel = some fd2 ∧
        fd2.cycle = 0 ∧
        (k < max 1 (fade_ms / D) → fd2.num ≠ 0) ∧
        (max 1 (fade_ms / D) ≤ k → fd2.num = 0) := by
  obtain ⟨g1, s, e1, e2, _, e4, e5, _⟩ := set_channel_ok D g cfg channel fd value fade_ms hD hcfg hfd
  refine ⟨g1, e1, fun k => ?_⟩
  obtain ⟨g2, r1, r2⟩ := run_ticks_channel D k g1 _ tbl channel _ e4 (e2.trans htbl) e5
  obtain ⟨c1, c2⟩ := fade_step_iterate_one_shot
    ⟨fd.cur, FLOATINT_2_FIXED value LEDC_FIXED_Q, s, 0, max 1 (fade_ms / D)⟩ rfl k
  refine ⟨g2, _, r1, r2, c1, ?_, ?_⟩
  · intro hk; rw [c2]; simp only []; omega
  · intro hk; rw [c2]; simp only []; omega

/-- C3 at `value = 128`, `fade_ms = 1000`, tick 10 ms. -/
theorem one_shot_fade_tick_count_witness :
    ∃ g1, iot_led_set_channel 10 demo_engine 0 128 1000 = Except.ok (ESP_OK, g1) ∧
      ∀ k, ∃ g2 fd2, run_ticks 10 k g1 = Except.ok g2 ∧ channel_of g2 0 = some fd2 ∧
        fd2.cycle = 0 ∧
        (k < max 1 (1000 / 10) → fd2.num ≠ 0) ∧
        (max 1 (1000 / 10) ≤ k → fd2.num = 0) :=
  one_shot_fade_tick_count 10 demo_engine demo_config demo_table 0 ⟨0, 0, 0, 0, 0⟩ 128 1000
    (by decide) rfl rfl rfl

/-! ### C4 -/

/-- C4: immediate jump.  For `fade_ms < DUTY_SET_CYCLE`, after
`iot_led_set_channel` and one tick the channel has `cur = value * 256`, `num = 0`,
`cycle = 0`, and `iot_led_get_channel` writes `value` and returns `ESP_OK`. -/
theorem immediate_jump (D : Nat) (g : Globals) (cfg : iot_light_t) (tbl : List Nat)
    (channel : Nat) (fd : ledc_fade_data_t) (value fade_ms : Nat)
    (hcfg : g.g_light_config = some cfg) (htbl : g.g_gamma_table = some tbl)
    (hfd : cfg.fade_data[channel]? = some fd)
    (h0 : 0 ≤ fd.cur) (h1 : fd.cur ≤ 255 * 256) (hv : value ≤ 255) (hms : fade_ms < D) :
    ∃ g1 g2 fd2, iot_led_set_channel D g channel value fade_ms = Except.ok (ESP_OK, g1) ∧
      fade_timercb D g1 = Except.ok g2 ∧
      channel_of g2 channel = some fd2 ∧
      fd2.cur = (value : Int) * 256 ∧ fd2.num = 0 ∧ fd2.cycle = 0 ∧
      ∀ d0, iot_led_get_channel g2 channel (some d0) = Except.ok (ESP_OK, some value) := by
  have hD : 0 < D := by omega
  obtain ⟨g1, s, e1, e2, _, e4, e5, e6⟩ := set_channel_ok D g cfg channel fd value fade_ms hD hcfg hfd
  have hN : max 1 (fade_ms / D) = 1 := by rw [Nat.div_eq_of_lt hms]; rfl
  rw [hN] at e4 e5 e6
  have hs : s = (value : Int) * 256 - fd.cur := by
    rw [e6 h0 (by omega) hv]; simp
  obtain ⟨g2, r1, r2⟩ := fade_timercb_channel D g1 _ tbl channel _ e4 (e2.trans htbl) e5
  have hvI : (value : Int) ≤ 255 := by exact_mod_cast hv
  have hw := fade_step_iterate_walk fd.cur (FLOATINT_2_FIXED value LEDC_FIXED_Q) s 0 1 0 65280
    (by norm_num) (by norm_num) h0 (by omega) (by rw [hs]; push_cast; omega)
    (by rw [hs]; push_cast; omega) 1 le_rfl
  rw [Function.iterate_one] at hw
  rw [hw] at r2
  have hcur : fd.cur + ((1 : Nat) : Int) * s = (value : Int) * 256 := by rw [hs]; push_cast; ring
  rw [hcur] at r2
  refine ⟨g1, g2, _, e1, r1, r2, rfl, rfl, rfl, fun d0 => ?_⟩
  have h := get_channel_value_nat ((value : Int) * 256) (by omega) (by omega)
  rw [Int.mul_ediv_cancel _ (by norm_num), Int.toNat_ofNat] at h
  rw [get_channel_ok g2 channel _ d0 r2, h]

/-- C4 at `value = 255`, `fade_ms = 0`. -/
theorem immediate_jump_witness :
    ∃ g1 g2 fd2, iot_led_set_channel 10 demo_engine 0 255 0 = Except.ok (ESP_OK, g1) ∧
      fade_timercb 10 g1 = Except.ok g2 ∧
      channel_of g2 0 = some fd2 ∧
      fd2.cur = ((255 : Nat) : Int) * 256 ∧ fd2.num = 0 ∧ fd2.cycle = 0 ∧
      ∀ d0, iot_led_get_channel g2 0 (some d0) = Except.ok (ESP_OK, some 255) :=
  immediate_jump 10 demo_engine demo_config demo_table 0 ⟨0, 0, 0, 0, 0⟩ 255 0
    rfl rfl rfl (by decide) (by decide) (by decide) (by decide)

/-! ### C5 -/

/-- C5: postcondition of `iot_led_set_channel` on an initialised engine.  From a
channel with `0 ≤ cur ≤ 255 * 256` and for `value ≤ 255` it returns `ESP_OK` and
leaves `final = value * 256`, `num = max 1 (fade_ms / DUTY_SET_CYCLE)`,
`step = (final - cur) / num` truncated toward zero, `cycle = 0`, the timer flag
set and `cur` unchanged. -/
theorem iot_led_set_channel_postcondition (D : Nat) (g : Globals) (cfg : iot_light_t)
    (channel : Nat) (fd : ledc_fade_data_t) (value fade_ms : Nat)
    (hD : 0 < D) (hcfg : g.g_light_config = some cfg)
    (hfd : cfg.fade_data[channel]? = some fd)
    (h0 : 0 ≤ fd.cur) (h1 : fd.cur ≤ 255 * 256) (hv : value ≤ 255) :
    ∃ g1 fd1, iot_led_set_channel D g channel value fade_ms = Except.ok (ESP_OK, g1) ∧
      channel_of g1 channel = some fd1 ∧
      fd1.final = (value : Int) * 256 ∧
      fd1.num = max 1 (fade_ms / D) ∧
      fd1.step = Int.tdiv ((value : Int) * 256 - fd.cur) (max 1 (fade_ms / D) : Nat) ∧
      fd1.cycle = 0 ∧
      g1.g_hw_timer_started = true ∧
      fd1.cur = fd.cur := by
  obtain ⟨g1, s, e1, _, e3, _, e5, e6⟩ := set_channel_ok D g cfg channel fd value fade_ms hD hcfg hfd
  exact ⟨g1, _, e1, e5, FLOATINT_2_FIXED_eq value hv, rfl, e6 h0 (by omega) hv, rfl, e3, rfl⟩

/-- C5 at `cur = 0`, `value = 128`, `fade_ms = 1000`, tick 10 ms. -/
theorem iot_led_set_channel_postcondition_witness :
    ∃ g1 fd1, iot_led_set_channel 10 demo_engine 0 128 1000 = Except.ok (ESP_OK, g1) ∧
      channel_of g1 0 = some fd1 ∧
      fd1.final = ((128 : Nat) : Int) * 256 ∧
      fd1.num = max 1 (1000 / 10) ∧
      fd1.step = Int.tdiv (((128 : Nat) : Int) * 256 - 0) (max 1 (1000 / 10) : Nat) ∧
      fd1.cycle = 0 ∧
      g1.g_hw_timer_started = true ∧
      fd1.cur = 0 :=
  iot_led_set_channel_postcondition 10 demo_engine demo_config 0 ⟨0, 0, 0, 0, 0⟩ 128 1000
    (by decide) rfl rfl (by decide) (by decide) (by decide)

/-! ### C6 -/

/-- C6: hard blink alternates exactly.  With `H = period_ms / 2 / DUTY_SET_CYCLE ≥ 1`,
after `iot_led_start_blink` without fade and `t ≥ 1` ticks, `cur` is 0 when
`(t - 1) / H` is even and `value * 256` when it is odd, and the channel is never
idle. -/
theorem hard_blink_alternates (D : Nat) (g : Globals) (cfg : iot_light_t) (tbl : List Nat)
    (channel : Nat) (fd : ledc_fade_data_t) (value period_ms : Nat)
    (hD : 0 < D) (hcfg : g.g_light_config = some cfg) (htbl : g.g_gamma_table = some tbl)
    (hfd : cfg.fade_data[channel]? = some fd)
    (hv : value ≤ 255) (hp : period_ms < 4294967296) (hH : 1 ≤ period_ms / 2 / D) :
    ∃ g1, iot_led_start_blink D g channel value period_ms false = Except.ok (ESP_OK, g1) ∧
      ∀ t, 1 ≤ t → ∃ g2 fd2, run_ticks D t g1 = Except.ok g2 ∧
        channel_of g2 channel = some fd2 ∧
        fd2.cur = (if (t - 1) / (period_ms / 2 / D) % 2 = 0 then 0 else (value : Int) * 256) ∧
        ¬ (fd2.num = 0 ∧ fd2.cycle = 0) := by
  obtain ⟨g1, e1, e2, _, e4, e5⟩ := start_blink_ok D g cfg channel fd value period_ms false hD
    hcfg hfd hv hp (by simp)
  refine ⟨g1, e1, fun t ht => ?_⟩
  obtain ⟨g2, r1, r2⟩ := run_ticks_channel D t g1 _ tbl channel _ e4 (e2.trans htbl) e5
  have hHlt : period_ms / 2 / D < 2147483648 := by
    have : period_ms / 2 / D ≤ period_ms / 2 := Nat.div_le_self _ _
    omega
  generalize period_ms / 2 / D = H at hH hHlt r2 ⊢
  have hvI : (value : Int) ≤ 255 := by exact_mod_cast hv
  have ht' : t = (t - 1) / H * H + (t - 1) % H + 1 := by
    have := Nat.div_add_mod' (t - 1) H
    omega
  have hr : (t - 1) % H < H := Nat.mod_lt _ (by omega)
  simp only [Bool.false_eq_true, if_false] at r2
  rw [ht', hard_blink_iterate ((value : Int) * 256) H hH hHlt (by omega) (by omega) _ _ hr] at r2
  refine ⟨g2, _, r1, r2, rfl, ?_⟩
  rintro ⟨_, hc⟩
  simp only at hc
  omega

/-- C6 at `value = 255`, `period_ms = 2000`, tick 10 ms. -/
theorem hard_blink_alternates_witness :
    ∃ g1, iot_led_start_blink 10 demo_engine 0 255 2000 false = Except.ok (ESP_OK, g1) ∧
      ∀ t, 1 ≤ t → ∃ g2 fd2, run_ticks 10 t g1 = Except.ok g2 ∧
        channel_of g2 0 = some fd2 ∧
        fd2.cur = (if (t - 1) / (2000 / 2 / 10) % 2 = 0 then 0 else ((255 : Nat) : Int) * 256) ∧
        ¬ (fd2.num = 0 ∧ fd2.cycle = 0) :=
  hard_blink_alternates 10 demo_engine demo_config demo_table 0 ⟨0, 0, 0, 0, 0⟩ 255 2000
    (by decide) rfl rfl rfl (by decide) (by decide) (by decide)

/-! ### C7 -/

set_option maxRecDepth 1000000 in
/-- C7, counterexample: with `value = 1` and `H = 257` the step truncates to 0;
`cur` is 256 after 0 ticks and 0 after `0 + 2 * H` ticks. -/
theorem fading_blink_small_value_shifts :
    cur_of (run_after 10 (iot_led_start_blink 10 demo_engine 0 1 5140 true) 0) 0 = some 256 ∧
    cur_of (run_after 10 (iot_led_start_blink 10 demo_engine 0 1 5140 true) (0 + 2 * 257)) 0
      = some 0 := by
  decide

/-- C7, amended: fading blink does not drift.  With
`H = period_ms / 2 / DUTY_SET_CYCLE ≥ 1`, after `iot_led_start_blink` with fade the
channel record after `t + 2 * H` ticks is the record after `t` ticks for every
`t ≥ 1`; when `H ≤ value * 256` or `value = 0`, `cur` is `value * 256` after
`2 * k * H` ticks for every `k`. -/
theorem fade_blink_no_drift (D : Nat) (g : Globals) (cfg : iot_light_t) (tbl : List Nat)
    (channel : Nat) (fd : ledc_fade_data_t) (value period_ms : Nat)
    (hD : 0 < D) (hcfg : g.g_light_config = some cfg) (htbl : g.g_gamma_table = some tbl)
    (hfd : cfg.fade_data[channel]? = some fd)
    (hv : value ≤ 255) (hp : period_ms < 4294967296) (hH : 1 ≤ period_ms / 2 / D) :
    ∃ g1, iot_led_start_blink D g channel value period_ms true = Except.ok (ESP_OK, g1) ∧
      (∀ t, 1 ≤ t → ∃ ga gb fd2, run_ticks D t g1 = Except.ok ga ∧
        run_ticks D (t + 2 * (period_ms / 2 / D)) g1 = Except.ok gb ∧
        channel_of ga channel = some fd2 ∧ channel_of gb channel = some fd2) ∧
      ((period_ms / 2 / D ≤ value * 256 ∨ value = 0) →
        ∀ k, ∃ g2 fd2, run_ticks D (2 * k * (period_ms / 2 / D)) g1 = Except.ok g2 ∧
          channel_of g2 channel = some fd2 ∧ fd2.cur = (value : Int) * 256) := by
  obtain ⟨g1, e1, e2, _, e4, e5⟩ := start_blink_ok D g cfg channel fd value period_ms true hD
    hcfg hfd hv hp (fun _ => hH)
  have hHlt : period_ms / 2 / D < 2147483648 := by
    have : period_ms / 2 / D ≤ period_ms / 2 := Nat.div_le_self _ _
    omega
  generalize period_ms / 2 / D = H at hH hHlt e4 e5 ⊢
  have hF : value * 256 ≤ 65280 := by omega
  have hcast : (value : Int) * 256 = ((value * 256 : Nat) : Int) := by push_cast; ring
  simp only [if_true] at e5
  rw [hcast] at e5
  refine ⟨g1, e1, fun t ht => ?_, fun hs k => ?_⟩
  · obtain ⟨ga, r1, r2⟩ := run_ticks_channel D t g1 _ tbl channel _ e4 (e2.trans htbl) e5
    obtain ⟨gb, r3, r4⟩ := run_ticks_channel D (t + 2 * H) g1 _ tbl channel _ e4
      (e2.trans htbl) e5
    rw [fade_blink_periodic (value * 256) H hF hH hHlt t ht] at r4
    exact ⟨ga, gb, _, r1, r3, r2, r4⟩
  · obtain ⟨g2, r1, r2⟩ := run_ticks_channel D (2 * k * H) g1 _ tbl channel _ e4
      (e2.trans htbl) e5
    refine ⟨g2, _, r1, r2, ?_⟩
    rw [fade_blink_on_target (value * 256) H hF hH hHlt (by omega) k, hcast]

/-- C7, amended, at `value = 255`, `period_ms = 2000`, tick 10 ms. -/
theorem fade_blink_no_drift_witness :
    ∃ g1, iot_led_start_blink 10 demo_engine 0 255 2000 true = Except.ok (ESP_OK, g1) ∧
      (∀ t, 1 ≤ t → ∃ ga gb fd2, run_ticks 10 t g1 = Except.ok ga ∧
        run_ticks 10 (t + 2 * (2000 / 2 / 10)) g1 = Except.ok gb ∧
        channel_of ga 0 = some fd2 ∧ channel_of gb 0 = some fd2) ∧
      ((2000 / 2 / 10 ≤ 255 * 256 ∨ 255 = 0) →
        ∀ k, ∃ g2 fd2, run_ticks 10 (2 * k * (2000 / 2 / 10)) g1 = Except.ok g2 ∧
          channel_of g2 0 = some fd2 ∧ fd2.cur = ((255 : Nat) : Int) * 256) :=
  fade_blink_no_drift 10 demo_engine demo_config demo_table 0 ⟨0, 0, 0, 0, 0⟩ 255 2000
    (by decide) rfl rfl rfl (by decide) (by decide) (by decide)

/-! ### C8 -/

set_option maxRecDepth 1000000 in
/-- C8, counterexample: with `value = 255`, `period_ms = 2000` and a 10 ms tick,
`cur` is 80 after `H = 100` ticks, not 0. -/
theorem fading_blink_half_cycle_remainder :
    cur_of (run_after 10 (iot_led_start_blink 10 demo_engine 0 255 2000 true) 100) 0 = some 80 ∧
    cur_of (run_after 10 (iot_led_start_blink 10 demo_engine 0 255 2000 true) 100) 0 ≠ some 0 := by
  decide

/-- C8, amended: end of the first half cycle of a fading blink.  With
`H = period_ms / 2 / DUTY_SET_CYCLE ≥ 1`, after `iot_led_start_blink` with fade and
`H` ticks, `cur` is `value * 256 % H`, which is 0 exactly when `H` divides
`value * 256`; the next tick raises `cur` by `value * 256 / H` when
`H ≤ value * 256`, and sets it to 0 otherwise. -/
theorem fade_blink_first_half_cycle (D : Nat) (g : Globals) (cfg : iot_light_t) (tbl : List Nat)
    (channel : Nat) (fd : ledc_fade_data_t) (value period_ms : Nat)
    (hD : 0 < D) (hcfg : g.g_light_config = some cfg) (htbl : g.g_gamma_table = some tbl)
    (hfd : cfg.fade_data[channel]? = some fd)
    (hv : value ≤ 255) (hp : period_ms < 4294967296) (hH : 1 ≤ period_ms / 2 / D) :
    ∃ g1 g2 g3 fdH fdN,
      iot_led_start_blink D g channel value period_ms true = Except.ok (ESP_OK, g1) ∧
      run_ticks D (period_ms / 2 / D) g1 = Except.ok g2 ∧
      channel_of g2 channel = some fdH ∧
      fdH.cur = ((value * 256 % (period_ms / 2 / D) : Nat) : Int) ∧
      (fdH.cur = 0 ↔ period_ms / 2 / D ∣ value * 256) ∧
      fade_timercb D g2 = Except.ok g3 ∧
      channel_of g3 channel = some fdN ∧
      (period_ms / 2 / D ≤ value * 256 →
        fdN.cur = fdH.cur + ((value * 256 / (period_ms / 2 / D) : Nat) : Int) ∧
        fdH.cur < fdN.cur) ∧
      (value * 256 < period_ms / 2 / D → fdN.cur = 0) := by
  obtain ⟨g1, e1, e2, _, e4, e5⟩ := start_blink_ok D g cfg channel fd value period_ms true hD
    hcfg hfd hv hp (fun _ => hH)
  have hHlt : period_ms / 2 / D < 2147483648 := by
    have : period_ms / 2 / D ≤ period_ms / 2 := Nat.div_le_self _ _
    omega
  generalize period_ms / 2 / D = H at hH hHlt e4 e5 ⊢
  have hF : value * 256 ≤ 65280 := by omega
  have hcast : (value : Int) * 256 = ((value * 256 : Nat) : Int) := by push_cast; ring
  simp only [if_true] at e5
  rw [hcast] at e5
  obtain ⟨g2, cfg2, r1, r2, r3, r4⟩ := run_ticks_channel_full D H g1 _ tbl channel _ e4
    (e2.trans htbl) e5
  obtain ⟨g3, n1, n2⟩ := fade_timercb_channel D g2 cfg2 tbl channel _ r2 r3 r4
  rw [← Function.iterate_succ_apply' fade_step H, Nat.succ_eq_add_one] at n2
  have hmod : ((value * 256 : Nat) : Int) - (H : Int) * ((value * 256 / H : Nat) : Int)
      = ((value * 256 % H : Nat) : Int) := by
    have := Nat.div_add_mod (value * 256) H
    have hI : (H : Int) * ((value * 256 / H : Nat) : Int) + ((value * 256 % H : Nat) : Int)
        = ((value * 256 : Nat) : Int) := by exact_mod_cast this
    linarith
  rw [fading_first_half (value * 256) H hF H le_rfl] at r4
  refine ⟨g1, g2, g3, _, _, e1, r1, r4, hmod, ?_, n1, n2, ?_, ?_⟩
  · show ((value * 256 : Nat) : Int) - (H : Int) * ((value * 256 / H : Nat) : Int) = 0 ↔ _
    rw [hmod, Nat.dvd_iff_mod_eq_zero]
    exact_mod_cast Iff.rfl
  · intro hs
    rw [fade_blink_first_turn (value * 256) H hF hH hHlt hs]
    have hq1 : 1 ≤ value * 256 / H := Nat.div_pos hs (by omega)
    have hqI : (1 : Int) ≤ ((value * 256 / H : Nat) : Int) := by exact_mod_cast hq1
    refine ⟨rfl, ?_⟩
    show ((value * 256 : Nat) : Int) - (H : Int) * ((value * 256 / H : Nat) : Int)
      < ((value * 256 : Nat) : Int) - (H : Int) * ((value * 256 / H : Nat) : Int)
        + ((value * 256 / H : Nat) : Int)
    linarith
  · intro hs
    have e : H + 1 = (0 * H + 0 + 1) + H := by omega
    rw [e, Function.iterate_add_apply, fade_blink_zero_step (value * 256) H hF hs,
      hard_blink_iterate _ H hH hHlt (by omega) (by omega) 0 0 (by omega)]
    simp

/-- C8, amended, at `value = 255`, `period_ms = 2000`, tick 10 ms. -/
theorem fade_blink_first_half_cycle_witness :
    ∃ g1 g2 g3 fdH fdN,
      iot_led_start_blink 10 demo_engine 0 255 2000 true = Except.ok (ESP_OK, g1) ∧
      run_ticks 10 (2000 / 2 / 10) g1 = Except.ok g2 ∧
      channel_of g2 0 = some fdH ∧
      fdH.cur = ((255 * 256 % (2000 / 2 / 10) : Nat) : Int) ∧
      (fdH.cur = 0 ↔ 2000 / 2 / 10 ∣ 255 * 256) ∧
      fade_timercb 10 g2 = Except.ok g3 ∧
      channel_of g3 0 = some fdN ∧
      (2000 / 2 / 10 ≤ 255 * 256 →
        fdN.cur = fdH.cur + ((255 * 256 / (2000 / 2 / 10) : Nat) : Int) ∧
        fdH.cur < fdN.cur) ∧
      (255 * 256 < 2000 / 2 / 10 → fdN.cur = 0) :=
  fade_blink_first_half_cycle 10 demo_engine demo_config demo_table 0 ⟨0, 0, 0, 0, 0⟩ 255 2000
    (by decide) rfl rfl rfl (by decide) (by decide) (by decide)

/-! ### C9 -/

/-- C9: effect of `iot_led_stop_blink` on an initialised engine.  It returns
`ESP_OK`; the new state is the old one with `num` and `cycle` of that channel set
to 0, so `cur`, `final`, `step`, the other channels, the timer flag, the gamma
table and the peripheral log are unchanged.  On an idle channel it changes
nothing, and calling it a second time changes nothing more. -/
theorem iot_led_stop_blink_effect (g : Globals) (cfg : iot_light_t) (channel : Nat)
    (fd : ledc_fade_data_t)
    (hcfg : g.g_light_config = some cfg) (hfd : cfg.fade_data[channel]? = some fd) :
    ∃ g1, iot_led_stop_blink g channel = Except.ok (ESP_OK, g1) ∧
      g1 = { g with g_light_config := some { cfg with
              fade_data := cfg.fade_data.set channel { fd with num := 0, cycle := 0 } } } ∧
      channel_of g1 channel = some ⟨fd.cur, fd.final, fd.step, 0, 0⟩ ∧
      (∀ other, other ≠ channel → channel_of g1 other = channel_of g other) ∧
      g1.g_hw_timer_started = g.g_hw_timer_started ∧
      g1.g_gamma_table = g.g_gamma_table ∧
      g1.hw = g.hw ∧
      (fd.num = 0 → fd.cycle = 0 → g1 = g) ∧
      iot_led_stop_blink g1 channel = Except.ok (ESP_OK, g1) := by
  have hlen : channel < cfg.fade_data.length := by
    rcases Nat.lt_or_ge channel cfg.fade_data.length with h | h
    · exact h
    · rw [List.getElem?_eq_none h] at hfd; cases hfd
  have hstop : iot_led_stop_blink g channel = Except.ok (ESP_OK,
      { g with g_light_config := some { cfg with
          fade_data := cfg.fade_data.set channel { fd with num := 0, cycle := 0 } } }) := by
    simp [iot_led_stop_blink, LIGHT_ERROR_CHECK, hcfg, hfd]
  refine ⟨_, hstop, rfl, ?_, ?_, rfl, rfl, rfl, ?_, ?_⟩
  · simp [channel_of, List.getElem?_set_self hlen]
  · intro other ho
    simp [channel_of, hcfg, List.getElem?_set_ne (Ne.symm ho)]
  · intro hn hc
    have hx : ({ fd with num := 0, cycle := 0 } : ledc_fade_data_t) = fd := by
      cases fd; simp_all
    have hl : cfg.fade_data.set channel fd = cfg.fade_data := by
      apply List.ext_getElem?
      intro i
      by_cases hi : channel = i
      · subst hi; rw [List.getElem?_set_self hlen, hfd]
      · rw [List.getElem?_set_ne hi]
    rw [hx, hl]
    cases g
    simp_all
  · simp [iot_led_stop_blink, LIGHT_ERROR_CHECK, List.getElem?_set_self hlen]

/-- C9 on the idle channel 1 of a fresh engine. -/
theorem iot_led_stop_blink_effect_witness :
    ∃ g1, iot_led_stop_blink demo_engine 1 = Except.ok (ESP_OK, g1) ∧
      g1 = { demo_engine with g_light_config := some { demo_config with
              fade_data := demo_config.fade_data.set 1
                { (⟨0, 0, 0, 0, 0⟩ : ledc_fade_data_t) with num := 0, cycle := 0 } } } ∧
      channel_of g1 1 = some ⟨0, 0, 0, 0, 0⟩ ∧
      (∀ other, other ≠ 1 → channel_of g1 other = channel_of demo_engine other) ∧
      g1.g_hw_timer_started = demo_engine.g_hw_timer_started ∧
      g1.g_gamma_table = demo_engine.g_gamma_table ∧
      g1.hw = demo_engine.hw ∧
      ((⟨0, 0, 0, 0, 0⟩ : ledc_fade_data_t).num = 0 →
        (⟨0, 0, 0, 0, 0⟩ : ledc_fade_data_t).cycle = 0 → g1 = demo_engine) ∧
      iot_led_stop_blink g1 1 = Except.ok (ESP_OK, g1) :=
  iot_led_stop_blink_effect demo_engine demo_config 1 ⟨0, 0, 0, 0, 0⟩ rfl rfl

/-! ### C10 -/

/-- C10: uninitialised engine.  While `g_light_config` is NULL,
`iot_led_regist_channel`, `iot_led_get_channel`, `iot_led_set_channel`,
`iot_led_start_blink` and `iot_led_stop_blink` return `ESP_ERR_INVALID_ARG` for
every argument and leave the state and `dst` as they were; while `g_gamma_table`
is NULL so does `iot_led_set_gamma_table`. -/
theorem uninitialised_calls_rejected (g : Globals) :
    (g.g_light_config = none →
      (∀ spiram ret channel gpio_num,
        iot_led_regist_channel spiram ret g channel gpio_num
          = Except.ok (ESP_ERR_INVALID_ARG, g)) ∧
      (∀ channel dst, iot_led_get_channel g channel dst = Except.ok (ESP_ERR_INVALID_ARG, dst)) ∧
      (∀ D channel value fade_ms,
        iot_led_set_channel D g channel value fade_ms = Except.ok (ESP_ERR_INVALID_ARG, g)) ∧
      (∀ D channel value period_ms fade_flag,
        iot_led_start_blink D g channel value period_ms fade_flag
          = Except.ok (ESP_ERR_INVALID_ARG, g)) ∧
      (∀ channel, iot_led_stop_blink g channel = Except.ok (ESP_ERR_INVALID_ARG, g))) ∧
    (g.g_gamma_table = none →
      ∀ gamma_table, iot_led_set_gamma_table g gamma_table
        = Except.ok (ESP_ERR_INVALID_ARG, g)) := by
  constructor
  · intro h
    refine ⟨?_, ?_, ?_, ?_, ?_⟩
    · intros; simp [iot_led_regist_channel, LIGHT_ERROR_CHECK, h]
    · intros; simp [iot_led_get_channel, LIGHT_ERROR_CHECK, h]
    · intros; simp [iot_led_set_channel, LIGHT_ERROR_CHECK, h]
    · intros; simp [iot_led_start_blink, LIGHT_ERROR_CHECK, h]
    · intros; simp [iot_led_stop_blink, LIGHT_ERROR_CHECK, h]
  · intro h gamma_table
    simp [iot_led_set_gamma_table, LIGHT_ERROR_CHECK, h]

/-- C10 on the state before `iot_led_init`. -/
theorem uninitialised_calls_rejected_witness :
    ((∀ spiram ret channel gpio_num,
        iot_led_regist_channel spiram ret ⟨none, none, false, []⟩ channel gpio_num
          = Except.ok (ESP_ERR_INVALID_ARG, ⟨none, none, false, []⟩)) ∧
      (∀ channel dst, iot_led_get_channel ⟨none, none, false, []⟩ channel dst
          = Except.ok (ESP_ERR_INVALID_ARG, dst)) ∧
      (∀ D channel value fade_ms,
        iot_led_set_channel D ⟨none, none, false, []⟩ channel value fade_ms
          = Except.ok (ESP_ERR_INVALID_ARG, ⟨none, none, false, []⟩)) ∧
      (∀ D channel value period_ms fade_flag,
        iot_led_start_blink D ⟨none, none, false, []⟩ channel value period_ms fade_flag
          = Except.ok (ESP_ERR_INVALID_ARG, ⟨none, none, false, []⟩)) ∧
      (∀ channel, iot_led_stop_blink ⟨none, none, false, []⟩ channel
          = Except.ok (ESP_ERR_INVALID_ARG, ⟨none, none, false, []⟩))) ∧
    (∀ gamma_table, iot_led_set_gamma_table ⟨none, none, false, []⟩ gamma_table
        = Except.ok (ESP_ERR_INVALID_ARG, ⟨none, none, false, []⟩)) :=
  ⟨(uninitialised_calls_rejected ⟨none, none, false, []⟩).1 rfl,
    (uninitialised_calls_rejected ⟨none, none, false, []⟩).2 rfl⟩

/-! ### C11 -/

/-- C11, counterexample.  On the initialised engine `demo_engine`, whose `fade_data`
has two records, `iot_led_set_channel` with channel id 2 does not return
`ESP_ERR_INVALID_ARG` with the state unchanged: the call forms
`g_light_config->fade_data + 2` and writes through it, outside the array. -/
theorem out_of_range_channel_not_rejected :
    demo_engine.g_light_config = some demo_config ∧
    demo_config.fade_data.length ≤ 2 ∧
    iot_led_set_channel 10 demo_engine 2 128 1000 = Except.error Fault.out_of_bounds ∧
    iot_led_set_channel 10 demo_engine 2 128 1000
      ≠ Except.ok (ESP_ERR_INVALID_ARG, demo_engine) := by
  refine ⟨rfl, by decide, rfl, ?_⟩
  intro h
  have h2 : iot_led_set_channel 10 demo_engine 2 128 1000 = Except.error Fault.out_of_bounds := rfl
  rw [h2] at h
  cases h

/-- C11, as amended.  On an initialised engine, for every channel id at or above the
number of records of `fade_data`, `iot_led_set_channel`, `iot_led_start_blink`,
`iot_led_stop_blink` and `iot_led_get_channel` with a destination do not return
`ESP_ERR_INVALID_ARG`: none of them compares the id with a bound, each indexes
`fade_data` with it outside the array.  Only `iot_led_get_channel` with a NULL
destination returns `ESP_ERR_INVALID_ARG`, from the check that precedes the
access. -/
theorem out_of_range_channel_indexes_fade_data (g : Globals) (cfg : iot_light_t) (channel : Nat)
    (hcfg : g.g_light_config = some cfg) (hch : cfg.fade_data.length ≤ channel) :
    (∀ D value fade_ms,
      iot_led_set_channel D g channel value fade_ms = Except.error Fault.out_of_bounds) ∧
    (∀ D value period_ms fade_flag,
      iot_led_start_blink D g channel value period_ms fade_flag
        = Except.error Fault.out_of_bounds) ∧
    iot_led_stop_blink g channel = Except.error Fault.out_of_bounds ∧
    (∀ d0, iot_led_get_channel g channel (some d0) = Except.error Fault.out_of_bounds) ∧
    iot_led_get_channel g channel none = Except.ok (ESP_ERR_INVALID_ARG, none) := by
  have hnone : cfg.fade_data[channel]? = none := List.getElem?_eq_none hch
  refine ⟨?_, ?_, ?_, ?_, ?_⟩
  · intros; simp [iot_led_set_channel, LIGHT_ERROR_CHECK, hcfg, hnone]
  · intros; simp [iot_led_start_blink, LIGHT_ERROR_CHECK, hcfg, hnone]
  · simp [iot_led_stop_blink, LIGHT_ERROR_CHECK, hcfg, hnone]
  · intros; simp [iot_led_get_channel, LIGHT_ERROR_CHECK, hcfg, hnone]
  · simp [iot_led_get_channel, LIGHT_ERROR_CHECK, hcfg]

/-- C11 as amended, on `demo_engine` with channel id 2. -/
theorem out_of_range_channel_indexes_fade_data_witness :
    (∀ D value fade_ms,
      iot_led_set_channel D demo_engine 2 value fade_ms = Except.error Fault.out_of_bounds) ∧
    (∀ D value period_ms fade_flag,
      iot_led_start_blink D demo_engine 2 value period_ms fade_flag
        = Except.error Fault.out_of_bounds) ∧
    iot_led_stop_blink demo_engine 2 = Except.error Fault.out_of_bounds ∧
    (∀ d0, iot_led_get_channel demo_engine 2 (some d0) = Except.error Fault.out_of_bounds) ∧
    iot_led_get_channel demo_engine 2 none = Except.ok (ESP_ERR_INVALID_ARG, none) :=
  out_of_range_channel_indexes_fade_data demo_engine demo_config 2 rfl (by decide)

/-! ### C12 -/

/-- C12, counterexample.  The state `demo_settled` is reached from the zeroed engine
by `iot_led_set_channel(0, 255, 0)` and one tick; in it every channel is idle
(`num = 0` and `cycle = 0`) and `g_hw_timer_started` is still true, so the
equivalence fails from left to right. -/
theorem timer_runs_with_all_channels_idle :
    TimerReachable 10 demo_settled ∧
    ¬ (demo_settled.g_hw_timer_started = true ↔
        ∃ cfg, demo_settled.g_light_config = some cfg ∧
          ∃ fd ∈ cfg.fade_data, fd.num ≠ 0 ∨ fd.cycle ≠ 0) := by
  refine ⟨demo_settled_reachable, ?_⟩
  intro h
  obtain ⟨cfg, hcfg, fd, hfd, hne⟩ := h.mp rfl
  have e : cfg = { fade_data := [⟨65280, 65280, 65280, 0, 0⟩, ⟨0, 0, 0, 0, 0⟩],
                   speed_mode := 0, timer_num := 0 } := by
    have : demo_settled.g_light_config = some
        { fade_data := [⟨65280, 65280, 65280, 0, 0⟩, ⟨0, 0, 0, 0, 0⟩],
          speed_mode := 0, timer_num := 0 } := rfl
    rw [this] at hcfg
    cases hcfg
    rfl
  subst e
  simp only [List.mem_cons, List.mem_singleton, List.not_mem_nil, or_false] at hfd
  rcases hfd with rfl | rfl <;> simp at hne

/-- C12, as amended.  In every state reachable from all channels zero and the timer
stopped by `iot_led_set_channel`, `iot_led_start_blink`, `iot_led_stop_blink`
and ticks of `fade_timercb` (a tick only while the timer is started): if at
least one channel is non-idle (`num != 0` or `cycle != 0`) then
`g_hw_timer_started` is true; and a tick that finds every channel idle leaves
`g_hw_timer_started` false.  The flag may be true while all channels are idle,
until that tick. -/
theorem timer_started_while_animating (D : Nat) (g : Globals) (hr : TimerReachable D g) :
    (∀ cfg, g.g_light_config = some cfg →
      (∃ fd ∈ cfg.fade_data, fd.num ≠ 0 ∨ fd.cycle ≠ 0) → g.g_hw_timer_started = true) ∧
    (∀ cfg g1, g.g_light_config = some cfg →
      (∀ fd ∈ cfg.fade_data, fd.num = 0 ∧ fd.cycle = 0) →
      fade_timercb D g = Except.ok g1 → g1.g_hw_timer_started = false) := by
  constructor
  · rintro cfg hcfg ⟨fd, hfd, hne⟩
    exact TimerInv_reachable D g hr cfg hcfg fd hfd hne
  · intro cfg g1 hcfg hall h
    exact (fade_timercb_timer D g g1 cfg hcfg h).2.1 hall

/-- C12 as amended, on the reachable state `demo_settled`. -/
theorem timer_started_while_animating_witness :
    (∀ cfg, demo_settled.g_light_config = some cfg →
      (∃ fd ∈ cfg.fade_data, fd.num ≠ 0 ∨ fd.cycle ≠ 0) →
      demo_settled.g_hw_timer_started = true) ∧
    (∀ cfg g1, demo_settled.g_light_config = some cfg →
      (∀ fd ∈ cfg.fade_data, fd.num = 0 ∧ fd.cycle = 0) →
      fade_timercb 10 demo_settled = Except.ok g1 → g1.g_hw_timer_started = false) :=
  timer_started_while_animating 10 demo_settled demo_settled_reachable

/-! ### C14 -/

set_option maxRecDepth 1000000 in
/-- C14, counterexample.  On the non-decreasing table `demo_table`, for the value
with integer part 1 and fractional part 7, `gamma_value_to_duty` returns 32
while scaling the interpolated table value gives 33. -/
theorem scale_before_interpolation_differs :
    (∀ i, i < 255 → demo_table.getD i 0 ≤ demo_table.getD (i + 1) 0) ∧
    gamma_value_to_duty demo_table (1 * 256 + 7) = 32 ∧
    interpolate_then_scale demo_table 1 7 = 33 ∧
    gamma_value_to_duty demo_table (1 * 256 + 7) ≠ interpolate_then_scale demo_table 1 7 := by
  refine ⟨by decide, by decide, by decide, by decide⟩

/-- C14, as amended.  `gamma_value_to_duty` scales and then interpolates: for every
non-decreasing table of 16-bit entries and every fixed-point value with integer
part `q` in 0..255 and fractional part `r` in 0..255, with
`scale(x) = x * 2^13 / 65535` (integer division), the result is
`scale(table[q]) + (scale(table[q+1]) - scale(table[q])) * r / 256` when
`q < 255` and `scale(table[255])` when `q = 255`. -/
theorem gamma_value_to_duty_scales_then_interpolates (gamma_table : List Nat) (q r : Nat)
    (hq : q ≤ 255) (hr : r ≤ 255)
    (h16 : ∀ x ∈ gamma_table, x ≤ 65535)
    (hmono : ∀ i, i < 255 → gamma_table.getD i 0 ≤ gamma_table.getD (i + 1) 0) :
    gamma_value_to_duty gamma_table ((q : Int) * 256 + r)
      = if q < 255 then
          scale_to_duty (gamma_table.getD q 0)
            + (scale_to_duty (gamma_table.getD (q + 1) 0) - scale_to_duty (gamma_table.getD q 0))
              * r / 256
        else scale_to_duty (gamma_table.getD 255 0) := by
  replace h16 := getD_le_of_forall gamma_table 65535 h16
  have hq' : toUInt32 (GET_FIXED_INTEGER_PART ((q : Int) * 256 + r) LEDC_FIXED_Q) = q := by
    unfold GET_FIXED_INTEGER_PART LEDC_FIXED_Q toUInt32
    omega
  have hr' : GET_FIXED_DECIMAL_PART ((q : Int) * 256 + r) LEDC_FIXED_Q = r := by
    unfold GET_FIXED_DECIMAL_PART LEDC_FIXED_Q toUInt32
    omega
  unfold gamma_value_to_duty
  simp only [hq', hr', LEDC_VALUE_TO_DUTY_eq _ (h16 _)]
  have hG : GAMMA_TABLE_SIZE - 1 = 255 := rfl
  rw [hG]
  have hA := scale_to_duty_le _ (h16 q)
  split_ifs with hlt
  · have hB := scale_to_duty_le _ (h16 (q + 1))
    have hAB := scale_to_duty_mono _ _ (hmono q hlt)
    generalize scale_to_duty (gamma_table.getD q 0) = A at hA hAB ⊢
    generalize scale_to_duty (gamma_table.getD (q + 1) 0) = B at hB hAB ⊢
    have e1 : toUInt32 ((B : Int) - (A : Int)) = B - A := by
      unfold toUInt32; omega
    rw [e1]
    have hP : (B - A) * r ≤ 8192 * 255 := Nat.mul_le_mul (by omega) hr
    generalize (B - A) * r = P at hP ⊢
    unfold LEDC_FIXED_Q
    omega
  · have hq255 : q = 255 := by omega
    subst hq255
    generalize scale_to_duty (gamma_table.getD 255 0) = A at hA ⊢
    have e1 : toUInt32 ((A : Int) - (A : Int)) = 0 := by
      unfold toUInt32; omega
    rw [e1]
    unfold LEDC_FIXED_Q
    omega

set_option maxRecDepth 1000000 in
/-- C14 as amended, on `demo_table` at integer part 1 and fractional part 7. -/
theorem gamma_value_to_duty_scales_then_interpolates_witness :
    gamma_value_to_duty demo_table (((1 : Nat) : Int) * 256 + ((7 : Nat) : Int))
      = if 1 < 255 then
          scale_to_duty (demo_table.getD 1 0)
            + (scale_to_duty (demo_table.getD (1 + 1) 0) - scale_to_duty (demo_table.getD 1 0))
              * 7 / 256
        else scale_to_duty (demo_table.getD 255 0) :=
  gamma_value_to_duty_scales_then_interpolates demo_table 1 7 (by decide) (by decide)
    (by decide) (by decide)

/-! ### C15 -/

/-- C15, counterexample.  With current duty 0, target duty 100 and a cycle budget of
0, the direction passed to `iot_ledc_duty_config` is `LEDC_DUTY_DIR_DECREASE`
although the target is above the current duty. -/
theorem zero_budget_plan_direction :
    100 > 0 / 16 ∧
    ((_iot_set_fade_with_time_tail 0 100 0).duty_direction : Int) = LEDC_DUTY_DIR_DECREASE ∧
    ((_iot_set_fade_with_time_tail 0 100 0).duty_direction : Int) ≠ LEDC_DUTY_DIR_INCREASE := by
  decide

/-- C15, as amended.  For every current duty and target duty in 0..8192 and every
cycle budget `total_cycles >= 1`, the direction passed to
`iot_ledc_duty_config` is `LEDC_DUTY_DIR_INCREASE` when target > current and
`LEDC_DUTY_DIR_DECREASE` when target < current.  With `total_cycles = 0` no
ramp is planned (step count 0) and the direction passed is
`LEDC_DUTY_DIR_DECREASE` whatever the sign of target - current. -/
theorem fade_plan_direction (duty_read target_duty t : Nat)
    (hcur : duty_read / 16 ≤ 8192) (ht : target_duty ≤ 8192) (htl : t < 2147483648) :
    (1 ≤ t → target_duty > duty_read / 16 →
      ((_iot_set_fade_with_time_tail duty_read target_duty (t : Int)).duty_direction : Int)
        = LEDC_DUTY_DIR_INCREASE) ∧
    (1 ≤ t → target_duty < duty_read / 16 →
      ((_iot_set_fade_with_time_tail duty_read target_duty (t : Int)).duty_direction : Int)
        = LEDC_DUTY_DIR_DECREASE) ∧
    (t = 0 →
      ((_iot_set_fade_with_time_tail duty_read target_duty (t : Int)).duty_direction : Int)
        = LEDC_DUTY_DIR_DECREASE ∧
      (_iot_set_fade_with_time_tail duty_read target_duty (t : Int)).duty_num = 0) := by
  have hd := duty_distance_le duty_read target_duty hcur ht
  have key : 1 ≤ t → duty_distance duty_read target_duty ≠ 0 →
      (_iot_set_fade_with_time_tail duty_read target_duty (t : Int)).duty_direction
        = if duty_read / 16 > target_duty then 0 else 1 := by
    intro h1 hne
    have hor : ¬ (duty_distance duty_read target_duty = 0 ∨ t = 0) := by omega
    rw [set_fade_with_time_tail_plan duty_read target_duty t hcur ht htl, if_neg hor]
    by_cases hgt : t > duty_distance duty_read target_duty
    · rw [if_pos hgt, (ramp_plan_facts _ _ _ 1 _ _ le_rfl (by norm_num) hd).1, toUInt32_dir]
    · have hq1 : 1 ≤ duty_distance duty_read target_duty / t :=
        Nat.div_pos (by omega) (by omega)
      rw [if_neg hgt, (ramp_plan_facts _ _ _ _ _ _ (le_min hq1 (by norm_num))
        (min_le_right _ _) hd).1, toUInt32_dir]
  refine ⟨fun h1 hgt => ?_, fun h1 hlt => ?_, fun h0 => ?_⟩
  · have hne : duty_distance duty_read target_duty ≠ 0 := by
      unfold duty_distance; rw [if_pos hgt]; omega
    rw [key h1 hne, if_neg (by omega)]
    rfl
  · have hne : duty_distance duty_read target_duty ≠ 0 := by
      unfold duty_distance; rw [if_neg (by omega)]; omega
    rw [key h1 hne, if_pos hlt]
    rfl
  · rw [set_fade_with_time_tail_plan duty_read target_duty t hcur ht htl, if_pos (Or.inr h0)]
    exact ⟨rfl, rfl⟩

/-- C15 as amended, at current duty 0, target duty 100 and a budget of 6 cycles. -/
theorem fade_plan_direction_witness :
    (1 ≤ 6 → 100 > 0 / 16 →
      ((_iot_set_fade_with_time_tail 0 100 ((6 : Nat) : Int)).duty_direction : Int)
        = LEDC_DUTY_DIR_INCREASE) ∧
    (1 ≤ 6 → 100 < 0 / 16 →
      ((_iot_set_fade_with_time_tail 0 100 ((6 : Nat) : Int)).duty_direction : Int)
        = LEDC_DUTY_DIR_DECREASE) ∧
    (6 = 0 →
      ((_iot_set_fade_with_time_tail 0 100 ((6 : Nat) : Int)).duty_direction : Int)
        = LEDC_DUTY_DIR_DECREASE ∧
      (_iot_set_fade_with_time_tail 0 100 ((6 : Nat) : Int)).duty_num = 0) :=
  fade_plan_direction 0 100 6 (by decide) (by decide) (by decide)

/-! ### C16 -/

/-- C16, counterexample.  With current duty 0, target duty 100 and a budget of 6
cycles the plan is a ramp of 6 steps of size 16: it covers 96 of the 100 duty
units and ends 4 units short of the target. -/
theorem coarse_plan_stops_short :
    (_iot_set_fade_with_time_tail 0 100 6).duty_scale = 16 ∧
    (_iot_set_fade_with_time_tail 0 100 6).duty_num = 6 ∧
    duty_distance 0 100 = 100 ∧
    ¬ (duty_distance 0 100
        - (_iot_set_fade_with_time_tail 0 100 6).duty_scale
          * (_iot_set_fade_with_time_tail 0 100 6).duty_num ≤ 1) := by
  decide

/-- C16, as amended.  For every current duty and target duty in 0..8192 and every
cycle budget `total_cycles >= 0`, with `d = |target - current|`: if the plan is
a ramp (`scale > 0` and `step_num > 0`) it starts at the current duty, never
overshoots (`scale * step_num <= d`) and stops short of the target by
`d - scale * step_num`, which is `d mod scale` when `step_num < 1023` and
`d mod 1023` when `step_num = 1023`; otherwise the duty written is exactly
the target and the step count is 0. -/
theorem fade_plan_remainder (duty_read target_duty t : Nat)
    (hcur : duty_read / 16 ≤ 8192) (ht : target_duty ≤ 8192) (htl : t < 2147483648) :
    (0 < (_iot_set_fade_with_time_tail duty_read target_duty (t : Int)).duty_scale ∧
      0 < (_iot_set_fade_with_time_tail duty_read target_duty (t : Int)).duty_num →
        (_iot_set_fade_with_time_tail duty_read target_duty (t : Int)).duty_scale
          * (_iot_set_fade_with_time_tail duty_read target_duty (t : Int)).duty_num
          ≤ duty_distance duty_read target_duty ∧
        duty_distance duty_read target_duty
          - (_iot_set_fade_with_time_tail duty_read target_duty (t : Int)).duty_scale
            * (_iot_set_fade_with_time_tail duty_read target_duty (t : Int)).duty_num
          = (if (_iot_set_fade_with_time_tail duty_read target_duty (t : Int)).duty_num = 1023
              then duty_distance duty_read target_duty % 1023
             else duty_distance duty_read target_duty
              % (_iot_set_fade_with_time_tail duty_read target_duty (t : Int)).duty_scale) ∧
        (_iot_set_fade_with_time_tail duty_read target_duty (t : Int)).duty_val
          = ((duty_read / 16 : Nat) : Int) * 16) ∧
    (¬ (0 < (_iot_set_fade_with_time_tail duty_read target_duty (t : Int)).duty_scale ∧
        0 < (_iot_set_fade_with_time_tail duty_read target_duty (t : Int)).duty_num) →
        (_iot_set_fade_with_time_tail duty_read target_duty (t : Int)).duty_val
          = (target_duty : Int) * 16 ∧
        (_iot_set_fade_with_time_tail duty_read target_duty (t : Int)).duty_num = 0) := by
  have hd := duty_distance_le duty_read target_duty hcur ht
  rw [set_fade_with_time_tail_plan duty_read target_duty t hcur ht htl]
  by_cases hor : duty_distance duty_read target_duty = 0 ∨ t = 0
  · rw [if_pos hor]
    refine ⟨fun h => absurd h.1 (Nat.lt_irrefl 0), fun _ => ⟨rfl, rfl⟩⟩
  · rw [if_neg hor]
    by_cases hgt : t > duty_distance duty_read target_duty
    · rw [if_pos hgt]
      have h := ramp_plan_facts (duty_read / 16) target_duty (duty_distance duty_read target_duty)
        1 (duty_dir duty_read target_duty)
        ((min (t / duty_distance duty_read target_duty) 1023 : Nat) : Int)
        le_rfl (by norm_num) hd
      exact ⟨h.2.2.2.2.1, h.2.2.2.2.2⟩
    · have hq1 : 1 ≤ duty_distance duty_read target_duty / t :=
        Nat.div_pos (by omega) (by omega)
      rw [if_neg hgt]
      have h := ramp_plan_facts (duty_read / 16) target_duty (duty_distance duty_read target_duty)
        (min (duty_distance duty_read target_duty / t) 1023) (duty_dir duty_read target_duty) 1
        (le_min hq1 (by norm_num)) (min_le_right _ _) hd
      exact ⟨h.2.2.2.2.1, h.2.2.2.2.2⟩

/-- C16 as amended, at current duty 0, target duty 100 and a budget of 6 cycles. -/
theorem fade_plan_remainder_witness :
    (0 / 16 ≤ 8192 ∧ 100 ≤ 8192 ∧ 6 < 2147483648) ∧
    ((0 < (_iot_set_fade_with_time_tail 0 100 ((6 : Nat) : Int)).duty_scale ∧
      0 < (_iot_set_fade_with_time_tail 0 100 ((6 : Nat) : Int)).duty_num →
        (_iot_set_fade_with_time_tail 0 100 ((6 : Nat) : Int)).duty_scale
          * (_iot_set_fade_with_time_tail 0 100 ((6 : Nat) : Int)).duty_num
          ≤ duty_distance 0 100 ∧
        duty_distance 0 100
          - (_iot_set_fade_with_time_tail 0 100 ((6 : Nat) : Int)).duty_scale
            * (_iot_set_fade_with_time_tail 0 100 ((6 : Nat) : Int)).duty_num
          = (if (_iot_set_fade_with_time_tail 0 100 ((6 : Nat) : Int)).duty_num = 1023
              then duty_distance 0 100 % 1023
             else duty_distance 0 100
              % (_iot_set_fade_with_time_tail 0 100 ((6 : Nat) : Int)).duty_scale) ∧
        (_iot_set_fade_with_time_tail 0 100 ((6 : Nat) : Int)).duty_val
          = ((0 / 16 : Nat) : Int) * 16) ∧
    (¬ (0 < (_iot_set_fade_with_time_tail 0 100 ((6 : Nat) : Int)).duty_scale ∧
        0 < (_iot_set_fade_with_time_tail 0 100 ((6 : Nat) : Int)).duty_num) →
        (_iot_set_fade_with_time_tail 0 100 ((6 : Nat) : Int)).duty_val
          = (100 : Int) * 16 ∧
        (_iot_set_fade_with_time_tail 0 100 ((6 : Nat) : Int)).duty_num = 0)) :=
  ⟨by decide, fade_plan_remainder 0 100 6 (by decide) (by decide) (by decide)⟩

/-! ### C17 -/

/-- C17.  For every current duty and target duty in 0..8192 and every cycle budget
`total_cycles >= 0`, the step size, the step count and the cycles per step that
`_iot_set_fade_with_time` finally passes to `iot_ledc_duty_config` are each
between 0 and 1023, with
`LEDC_DUTY_NUM_LSCH0_V = LEDC_DUTY_SCALE_LSCH0_V = 1023`. -/
theorem fade_plan_within_hardware_limits (duty_read target_duty t : Nat)
    (hcur : duty_read / 16 ≤ 8192) (ht : target_duty ≤ 8192) (htl : t < 2147483648) :
    ((_iot_set_fade_with_time_tail duty_read target_duty (t : Int)).duty_scale : Int)
      ≤ LEDC_DUTY_SCALE_LSCH0_V ∧
    (_iot_set_fade_with_time_tail duty_read target_duty (t : Int)).duty_num ≤ 1023 ∧
    ((_iot_set_fade_with_time_tail duty_read target_duty (t : Int)).duty_cycle : Int)
      ≤ LEDC_DUTY_NUM_LSCH0_V ∧
    LEDC_DUTY_NUM_LSCH0_V = 1023 ∧ LEDC_DUTY_SCALE_LSCH0_V = 1023 := by
  have hd := duty_distance_le duty_read target_duty hcur ht
  unfold LEDC_DUTY_NUM_LSCH0_V LEDC_DUTY_SCALE_LSCH0_V
  rw [set_fade_with_time_tail_plan duty_read target_duty t hcur ht htl]
  by_cases hor : duty_distance duty_read target_duty = 0 ∨ t = 0
  · rw [if_pos hor]
    exact ⟨by norm_num, by norm_num, by norm_num, rfl, rfl⟩
  · rw [if_neg hor]
    by_cases hgt : t > duty_distance duty_read target_duty
    · rw [if_pos hgt]
      have h := ramp_plan_facts (duty_read / 16) target_duty (duty_distance duty_read target_duty)
        1 (duty_dir duty_read target_duty)
        ((min (t / duty_distance duty_read target_duty) 1023 : Nat) : Int)
        le_rfl (by norm_num) hd
      have h4 := h.2.2.2.1
      rw [toUInt32_min_1023] at h4
      have hmin : min (t / duty_distance duty_read target_duty) 1023 ≤ 1023 := min_le_right _ _
      refine ⟨by exact_mod_cast h.2.1, h.2.2.1, ?_, rfl, rfl⟩
      rcases h4 with h4 | h4
      · rw [h4]; norm_num
      · rw [h4]; exact_mod_cast hmin
    · have hq1 : 1 ≤ duty_distance duty_read target_duty / t :=
        Nat.div_pos (by omega) (by omega)
      rw [if_neg hgt]
      have h := ramp_plan_facts (duty_read / 16) target_duty (duty_distance duty_read target_duty)
        (min (duty_distance duty_read target_duty / t) 1023) (duty_dir duty_read target_duty) 1
        (le_min hq1 (by norm_num)) (min_le_right _ _) hd
      have h4 := h.2.2.2.1
      rw [toUInt32_one] at h4
      refine ⟨by exact_mod_cast h.2.1, h.2.2.1, ?_, rfl, rfl⟩
      rcases h4 with h4 | h4 <;> rw [h4] <;> norm_num

/-- C17 at current duty 8192, target duty 0 and a budget of 5000 cycles. -/
theorem fade_plan_within_hardware_limits_witness :
    (131072 / 16 ≤ 8192 ∧ 0 ≤ 8192 ∧ 5000 < 2147483648) ∧
    (((_iot_set_fade_with_time_tail 131072 0 ((5000 : Nat) : Int)).duty_scale : Int)
      ≤ LEDC_DUTY_SCALE_LSCH0_V ∧
    (_iot_set_fade_with_time_tail 131072 0 ((5000 : Nat) : Int)).duty_num ≤ 1023 ∧
    ((_iot_set_fade_with_time_tail 131072 0 ((5000 : Nat) : Int)).duty_cycle : Int)
      ≤ LEDC_DUTY_NUM_LSCH0_V ∧
    LEDC_DUTY_NUM_LSCH0_V = 1023 ∧ LEDC_DUTY_SCALE_LSCH0_V = 1023) :=
  ⟨by decide, fade_plan_within_hardware_limits 131072 0 5000 (by decide) (by decide) (by decide)⟩

/-! ### C18 -/

/-- C18.  A one-shot fade never overshoots and its final error is the division
remainder: from a channel with `0 <= cur0 <= 255*256`, for `value` in 0..255,
`N = max(1, fade_ms / DUTY_SET_CYCLE)` and `d = |value*256 - cur0|`, after
`iot_led_set_channel` and `k <= N` ticks `cur` lies between `cur0` and
`value*256` inclusive and `|cur - cur0| = k * (d / N)`; after `N` ticks
`|value*256 - cur| = d mod N`; and `cur` does not move when `d < N`. -/
theorem one_shot_fade_no_overshoot (D : Nat) (g : Globals) (cfg : iot_light_t) (tbl : List Nat)
    (channel : Nat) (fd : ledc_fade_data_t) (value fade_ms : Nat)
    (hD : 0 < D) (hcfg : g.g_light_config = some cfg) (htbl : g.g_gamma_table = some tbl)
    (hfd : cfg.fade_data[channel]? = some fd)
    (h0 : 0 ≤ fd.cur) (h1 : fd.cur ≤ 255 * 256) (hv : value ≤ 255) :
    ∃ g1, iot_led_set_channel D g channel value fade_ms = Except.ok (ESP_OK, g1) ∧
      ∀ k, k ≤ max 1 (fade_ms / D) →
        ∃ g2 fd2, run_ticks D k g1 = Except.ok g2 ∧ channel_of g2 channel = some fd2 ∧
          min fd.cur ((value : Int) * 256) ≤ fd2.cur ∧
          fd2.cur ≤ max fd.cur ((value : Int) * 256) ∧
          (fd2.cur - fd.cur).natAbs
            = k * (((value : Int) * 256 - fd.cur).natAbs / max 1 (fade_ms / D)) ∧
          (k = max 1 (fade_ms / D) →
            ((value : Int) * 256 - fd2.cur).natAbs
              = ((value : Int) * 256 - fd.cur).natAbs % max 1 (fade_ms / D)) ∧
          (((value : Int) * 256 - fd.cur).natAbs < max 1 (fade_ms / D) → fd2.cur = fd.cur) := by
  obtain ⟨g1, s, e1, e2, _, e4, e5, e6⟩ := set_channel_ok D g cfg channel fd value fade_ms hD hcfg hfd
  have hs := e6 h0 (by omega) hv
  have hN : 0 < max 1 (fade_ms / D) := by omega
  refine ⟨g1, e1, fun k hk => ?_⟩
  obtain ⟨g2, r1, r2⟩ := run_ticks_channel D k g1 _ tbl channel _ e4 (e2.trans htbl) e5
  generalize max 1 (fade_ms / D) = N at hs hN hk r2 ⊢
  obtain ⟨b1, b2⟩ := tdiv_mul_between ((value : Int) * 256 - fd.cur) N hN
  have hvI : (value : Int) ≤ 255 := by exact_mod_cast hv
  have hv0 : (0 : Int) ≤ (value : Int) := by positivity
  have hend : min fd.cur ((value : Int) * 256) ≤ fd.cur + (N : Int) * s ∧
      fd.cur + (N : Int) * s ≤ max fd.cur ((value : Int) * 256) := by
    rw [hs]
    rcases le_total 0 ((value : Int) * 256 - fd.cur) with h | h
    · have := b1 h
      rw [min_eq_left (by linarith), max_eq_right (by linarith)]
      constructor <;> linarith [this.1, this.2]
    · have := b2 h
      rw [min_eq_right (by linarith), max_eq_left (by linarith)]
      constructor <;> linarith [this.1, this.2]
  have hlo : (0 : Int) ≤ min fd.cur ((value : Int) * 256) := le_min h0 (by linarith)
  have hhi : max fd.cur ((value : Int) * 256) ≤ 65280 := max_le (by omega) (by linarith)
  have hw := fade_step_iterate_walk fd.cur (FLOATINT_2_FIXED value LEDC_FIXED_Q) s 0 N
    (min fd.cur ((value : Int) * 256)) (max fd.cur ((value : Int) * 256))
    (by linarith) (by linarith) (min_le_left _ _) (le_max_left _ _) hend.1 hend.2
  rw [hw k hk] at r2
  have hb := walk_between fd.cur s k N hk _ _ (min_le_left _ _) (le_max_left _ _) hend.1 hend.2
  refine ⟨g2, _, r1, r2, hb.1, hb.2, ?_, ?_, ?_⟩
  · show (fd.cur + (k : Int) * s - fd.cur).natAbs = _
    rw [add_sub_cancel_left, Int.natAbs_mul, Int.natAbs_ofNat, hs, Int.natAbs_tdiv,
      Int.natAbs_ofNat]
    rfl
  · intro hkN
    show ((value : Int) * 256 - (fd.cur + (k : Int) * s)).natAbs = _
    rw [hkN, hs, ← natAbs_sub_mul_tdiv]
    congr 1
    ring
  · intro hlt
    show fd.cur + (k : Int) * s = fd.cur
    have hz : s = 0 := by
      rw [hs]
      apply Int.natAbs_eq_zero.mp
      rw [Int.natAbs_tdiv, Int.natAbs_ofNat]
      exact Nat.div_eq_of_lt hlt
    rw [hz]; ring

/-- C18 on `demo_engine`: channel 0 from 0 to 128 in 1000 ms with a 10 ms tick. -/
theorem one_shot_fade_no_overshoot_witness :
    ∃ g1, iot_led_set_channel 10 demo_engine 0 128 1000 = Except.ok (ESP_OK, g1) ∧
      ∀ k, k ≤ max 1 (1000 / 10) →
        ∃ g2 fd2, run_ticks 10 k g1 = Except.ok g2 ∧ channel_of g2 0 = some fd2 ∧
          min 0 (((128 : Nat) : Int) * 256) ≤ fd2.cur ∧
          fd2.cur ≤ max 0 (((128 : Nat) : Int) * 256) ∧
          (fd2.cur - 0).natAbs
            = k * ((((128 : Nat) : Int) * 256 - 0).natAbs / max 1 (1000 / 10)) ∧
          (k = max 1 (1000 / 10) →
            (((128 : Nat) : Int) * 256 - fd2.cur).natAbs
              = (((128 : Nat) : Int) * 256 - 0).natAbs % max 1 (1000 / 10)) ∧
          ((((128 : Nat) : Int) * 256 - 0).natAbs < max 1 (1000 / 10) → fd2.cur = 0) :=
  one_shot_fade_no_overshoot 10 demo_engine demo_config demo_table 0 ⟨0, 0, 0, 0, 0⟩ 128 1000
    (by decide) rfl rfl rfl (by decide) (by decide) (by decide)

/-! ### C19 -/

/-- C19.  In every state reachable from all channels zero and the timer stopped by
`iot_led_set_channel`, `iot_led_start_blink`, `iot_led_stop_blink` and ticks of
`fade_timercb` (a tick only while the timer flag is true), a channel with
`num != 0` or `cycle != 0` implies `g_hw_timer_started = true`; and a tick
clears the flag only when every channel had `num = 0` and `cycle = 0` when it
was examined. -/
theorem animating_channel_has_timer (D : Nat) (g : Globals) (hr : TimerReachable D g) :
    (∀ cfg, g.g_light_config = some cfg →
      ∀ fd ∈ cfg.fade_data, (fd.num ≠ 0 ∨ fd.cycle ≠ 0) → g.g_hw_timer_started = true) ∧
    (∀ cfg g1, g.g_light_config = some cfg → g.g_hw_timer_started = true →
      fade_timercb D g = Except.ok g1 → g1.g_hw_timer_started = false →
      ∀ fd ∈ cfg.fade_data, fd.num = 0 ∧ fd.cycle = 0) := by
  constructor
  · exact TimerInv_reachable D g hr
  · intro cfg g1 hcfg ht h hoff
    by_contra hnot
    have := (fade_timercb_timer D g g1 cfg hcfg h).2.2 hnot
    rw [hoff, ht] at this
    cases this

/-- C19 on the reachable state `demo_fading`. -/
theorem animating_channel_has_timer_witness :
    (∀ cfg, demo_fading.g_light_config = some cfg →
      ∀ fd ∈ cfg.fade_data, (fd.num ≠ 0 ∨ fd.cycle ≠ 0) →
        demo_fading.g_hw_timer_started = true) ∧
    (∀ cfg g1, demo_fading.g_light_config = some cfg → demo_fading.g_hw_timer_started = true →
      fade_timercb 10 demo_fading = Except.ok g1 → g1.g_hw_timer_started = false →
      ∀ fd ∈ cfg.fade_data, fd.num = 0 ∧ fd.cycle = 0) :=
  animating_channel_has_timer 10 demo_fading demo_fading_reachable

/-! ### C20 -/

/-- C20.  Division safety of `iot_led_start_blink`, for a tick period
`DUTY_SET_CYCLE > 0` and a channel of the initialised engine: the divisor
`period_ms / 2 / DUTY_SET_CYCLE` is nonzero exactly when
`period_ms >= 2 * DUTY_SET_CYCLE`; for such a period with `fade_flag = true`,
and for every period with `fade_flag = false`, the call returns `ESP_OK`;
with `fade_flag = true` and `period_ms < 2 * DUTY_SET_CYCLE` it divides by
zero. -/
theorem start_blink_division_safety (D : Nat) (g : Globals) (cfg : iot_light_t) (channel : Nat)
    (fd : ledc_fade_data_t) (value period_ms : Nat)
    (hD : 0 < D) (hcfg : g.g_light_config = some cfg)
    (hfd : cfg.fade_data[channel]? = some fd) :
    (period_ms / 2 / D ≠ 0 ↔ 2 * D ≤ period_ms) ∧
    (2 * D ≤ period_ms →
      ∃ g1, iot_led_start_blink D g channel value period_ms true = Except.ok (ESP_OK, g1)) ∧
    (∃ g1, iot_led_start_blink D g channel value period_ms false = Except.ok (ESP_OK, g1)) ∧
    (period_ms < 2 * D →
      iot_led_start_blink D g channel value period_ms true
        = Except.error Fault.division_by_zero) := by
  have hiff : period_ms / 2 / D ≠ 0 ↔ 2 * D ≤ period_ms := by
    rw [Nat.div_div_eq_div_mul]
    constructor
    · intro h
      by_contra hlt
      exact h (Nat.div_eq_of_lt (by omega))
    · intro h hz
      have := Nat.div_pos h (by omega : 0 < 2 * D)
      omega
  have hD0 : ¬ D = 0 := by omega
  refine ⟨hiff, ?_, ?_, ?_⟩
  · intro h
    have hne := hiff.mpr h
    simp [iot_led_start_blink, LIGHT_ERROR_CHECK, hcfg, hfd, hD0, hne]
  · simp [iot_led_start_blink, LIGHT_ERROR_CHECK, hcfg, hfd, hD0]
  · intro h
    have hz : period_ms / 2 / D = 0 := by
      by_contra hne
      have := hiff.mp hne
      omega
    simp [iot_led_start_blink, LIGHT_ERROR_CHECK, hcfg, hfd, hD0, hz]

/-- C20 on `demo_engine` with a 10 ms tick and `period_ms = 15`. -/
theorem start_blink_division_safety_witness :
    (15 / 2 / 10 ≠ 0 ↔ 2 * 10 ≤ 15) ∧
    (2 * 10 ≤ 15 →
      ∃ g1, iot_led_start_blink 10 demo_engine 0 255 15 true = Except.ok (ESP_OK, g1)) ∧
    (∃ g1, iot_led_start_blink 10 demo_engine 0 255 15 false = Except.ok (ESP_OK, g1)) ∧
    (15 < 2 * 10 →
      iot_led_start_blink 10 demo_engine 0 255 15 true
        = Except.error Fault.division_by_zero) :=
  start_blink_division_safety 10 demo_engine demo_config 0 ⟨0, 0, 0, 0, 0⟩ 255 15
    (by decide) rfl rfl

/-! ### C21 -/

/-- C21.  `gamma_value_to_duty` is monotone and bounded on a non-decreasing table
of 16-bit entries: for all fixed-point values `a <= b <= 255*256 + 255` the
result at `a` is at most the result at `b`; the result at `a`, whose integer
part is `q = a / 256`, lies between `scale(table[q])` and
`scale(table[min(q+1, 255)])` with `scale(x) = x * 2^13 / 65535`; and it never
exceeds `2^13`. -/
theorem gamma_value_to_duty_monotone_bounded (gamma_table : List Nat) (a b : Nat)
    (h16 : ∀ x ∈ gamma_table, x ≤ 65535)
    (hmono : ∀ i, i < 255 → gamma_table.getD i 0 ≤ gamma_table.getD (i + 1) 0)
    (hab : a ≤ b) (hb : b ≤ 255 * 256 + 255) :
    gamma_value_to_duty gamma_table (a : Int) ≤ gamma_value_to_duty gamma_table (b : Int) ∧
    scale_to_duty (gamma_table.getD (a / 256) 0) ≤ gamma_value_to_duty gamma_table (a : Int) ∧
    gamma_value_to_duty gamma_table (a : Int)
      ≤ scale_to_duty (gamma_table.getD (min (a / 256 + 1) 255) 0) ∧
    gamma_value_to_duty gamma_table (a : Int) ≤ 2 ^ 13 := by
  have ea : (a : Int) = ((a / 256 : Nat) : Int) * 256 + ((a % 256 : Nat) : Int) := by omega
  have eb : (b : Int) = ((b / 256 : Nat) : Int) * 256 + ((b % 256 : Nat) : Int) := by omega
  have hqa : a / 256 ≤ 255 := by omega
  have hqb : b / 256 ≤ 255 := by omega
  have hra : a % 256 ≤ 255 := by omega
  have hrb : b % 256 ≤ 255 := by omega
  have hle : a / 256 * 256 + a % 256 ≤ b / 256 * 256 + b % 256 := by omega
  rw [ea, eb, gamma_lookup_eq gamma_table _ _ hqa hra h16 hmono,
    gamma_lookup_eq gamma_table _ _ hqb hrb h16 hmono]
  have hbd := lookup_form_bounds gamma_table (a / 256) (a % 256) hqa hra hmono
  refine ⟨lookup_form_mono gamma_table _ _ _ _ hqb hra hrb hmono hle, hbd.1, hbd.2, ?_⟩
  exact le_trans hbd.2 (scale_to_duty_le _ (getD_le_of_forall gamma_table 65535 h16 _))

set_option maxRecDepth 1000000 in
/-- C21 on `demo_table` at the values 263 and 300. -/
theorem gamma_value_to_duty_monotone_bounded_witness :
    gamma_value_to_duty demo_table ((263 : Nat) : Int)
      ≤ gamma_value_to_duty demo_table ((300 : Nat) : Int) ∧
    scale_to_duty (demo_table.getD (263 / 256) 0)
      ≤ gamma_value_to_duty demo_table ((263 : Nat) : Int) ∧
    gamma_value_to_duty demo_table ((263 : Nat) : Int)
      ≤ scale_to_duty (demo_table.getD (min (263 / 256 + 1) 255) 0) ∧
    gamma_value_to_duty demo_table ((263 : Nat) : Int) ≤ 2 ^ 13 :=
  gamma_value_to_duty_monotone_bounded demo_table 263 300 (by decide) (by decide) (by decide)
    (by decide)

/-! ### C22 -/

/-- C22.  The hardware ramp plan never overshoots the target: for every current
duty and target duty in 0..8192, the call of `iot_ledc_duty_config` made by
`_iot_set_fade_with_step` for every `scale >= 0` and every `cycle_num`, and the
one planned by `_iot_set_fade_with_time` for every cycle budget (and so by every
run of it with a duty resolution below 32 bits and a nonzero clock divider), is
either a ramp (step size and step count positive) that starts from the current duty with
`scale * step_num <= |target - current|`, or a write of the target duty itself
with zero steps. -/
theorem hardware_ramp_never_overshoots (duty_read target_duty : Nat)
    (hcur : duty_read / 16 ≤ 8192) (ht : target_duty ≤ 8192) :
    (∀ scale cycle_num : Int, 0 ≤ scale → scale < 2147483648 →
      within_distance duty_read target_duty
        (_iot_set_fade_with_step duty_read target_duty scale cycle_num)) ∧
    (∀ total_cycles : Nat, total_cycles < 2147483648 →
      within_distance duty_read target_duty
        (_iot_set_fade_with_time_tail duty_read target_duty (total_cycles : Int))) ∧
    (∀ (LEDC_APB_CLK LEDC_APB_CLK_HZ LEDC_REF_CLK_HZ : Nat) (conf : LedcTimerConf)
        (max_fade_time_ms : Int),
      conf.duty_resolution < 32 → conf.clock_divider ≠ 0 →
      ∃ cfg, _iot_set_fade_with_time LEDC_APB_CLK LEDC_APB_CLK_HZ LEDC_REF_CLK_HZ conf
          duty_read target_duty max_fade_time_ms = Except.ok cfg ∧
        within_distance duty_read target_duty cfg) := by
  refine ⟨fun scale cycle_num hs0 hs1 =>
      set_fade_with_step_within duty_read target_duty scale cycle_num hcur ht hs0 hs1,
    fun t htl => set_fade_with_time_tail_within duty_read target_duty t hcur ht htl, ?_⟩
  intro A H R conf ms hres hdiv
  obtain ⟨t, ht1, h⟩ := set_fade_with_time_budget A H R conf duty_read target_duty ms hres hdiv
  exact ⟨_, h, set_fade_with_time_tail_within duty_read target_duty t hcur ht (by omega)⟩

/-- C22 at current duty 0 and target duty 100, where a step size of 16 gives a
ramp of 6 steps. -/
theorem hardware_ramp_never_overshoots_witness :
    (0 / 16 ≤ 8192 ∧ 100 ≤ 8192) ∧
    _iot_set_fade_with_step 0 100 16 1 = ⟨-1, 0, 1, 6, 1, 16⟩ ∧
    ((∀ scale cycle_num : Int, 0 ≤ scale → scale < 2147483648 →
      within_distance 0 100 (_iot_set_fade_with_step 0 100 scale cycle_num)) ∧
    (∀ total_cycles : Nat, total_cycles < 2147483648 →
      within_distance 0 100 (_iot_set_fade_with_time_tail 0 100 (total_cycles : Int))) ∧
    (∀ (LEDC_APB_CLK LEDC_APB_CLK_HZ LEDC_REF_CLK_HZ : Nat) (conf : LedcTimerConf)
        (max_fade_time_ms : Int),
      conf.duty_resolution < 32 → conf.clock_divider ≠ 0 →
      ∃ cfg, _iot_set_fade_with_time LEDC_APB_CLK LEDC_APB_CLK_HZ LEDC_REF_CLK_HZ conf
          0 100 max_fade_time_ms = Except.ok cfg ∧
        within_distance 0 100 cfg)) :=
  ⟨by decide, by decide, hardware_ramp_never_overshoots 0 100 (by decide) (by decide)⟩

end IotLed
